import Mathlib

/-! # Grayscale media transform: pixel transforms, geometry and type negotiation

A shallow embedding of `Grayscale.cpp` (the grayscale video effect MFT) and the
properties proved about it.

Conventions of the embedding.

* `DWORD` / `UINT32` values are natural numbers; every 32-bit arithmetic
  operation of the source is written with an explicit `% 4294967296`.
* `LONG` values (strides) and pointers are integers.  A pointer is an offset
  into the buffer it points into; the source buffer and the destination buffer
  are two distinct memories.
* A memory is a total function from addresses to bytes, so that a transform
  can be run on any input; which addresses are touched is visible from the
  result.
-/

namespace Grayscale

/-! ## Memory primitives -/

/-- An 8-bit byte (`BYTE`). -/
abbrev BYTE := Fin 256

/-- Byte-addressed memory of one buffer. -/
abbrev Mem := Int → BYTE

/-- The call `CopyMemory(pDest, pSrc, cb)` of the source: the `cb` bytes starting at `pDest`
in the destination become the `cb` bytes starting at `pSrc` in the source
(two distinct buffers). -/
def CopyMemory (dest : Mem) (pDest : Int) (src : Mem) (pSrc : Int) (cb : Nat) : Mem :=
  fun a => if pDest ≤ a ∧ a < pDest + cb then src (pSrc + (a - pDest)) else dest a

/-- The call `FillMemory(pDest, cb, fill)` of the source. -/
def FillMemory (dest : Mem) (pDest : Int) (cb : Nat) (fill : BYTE) : Mem :=
  fun a => if pDest ≤ a ∧ a < pDest + cb then fill else dest a

/-- Little-endian load of a `DWORD`: `*reinterpret_cast<const DWORD*>(p)`. -/
def readDWORD (m : Mem) (p : Int) : Nat :=
  (m p).val + 256 * (m (p + 1)).val + 65536 * (m (p + 2)).val + 16777216 * (m (p + 3)).val

/-- Byte number `i` (0 is the least significant) of a machine word. -/
def byteOf (v : Nat) (i : Nat) : BYTE :=
  ⟨v / 256 ^ i % 256, Nat.mod_lt _ (by decide)⟩

/-- Little-endian store of a `DWORD`: `*reinterpret_cast<DWORD*>(p) = v`. -/
def writeDWORD (m : Mem) (p : Int) (v : Nat) : Mem :=
  fun a =>
    if a = p then byteOf v 0
    else if a = p + 1 then byteOf v 1
    else if a = p + 2 then byteOf v 2
    else if a = p + 3 then byteOf v 3
    else m a

/-! ## The image transforms -/

/-- The destination rectangle `D2D_RECT_U` (four `UINT32` fields). -/
structure D2D_RECT_U where
  left : Nat
  top : Nat
  right : Nat
  bottom : Nat
deriving DecidableEq, Repr

/-- The variables the row loops of a transform share: the row counter `y`, the
two row pointers, and the destination memory written so far. -/
structure RowCursor where
  y : Nat
  pSrc : Int
  pDest : Int
  dest : Mem

/-- One `for ( ; y < bound; y++) body` loop over rows.  The loop runs for at most
`fuel` iterations; callers pass `bound - y`, which the loop never exceeds. -/
def forRows (bound : Nat) (body : RowCursor → RowCursor) : Nat → RowCursor → RowCursor
  | 0, c => c
  | fuel + 1, c =>
    if c.y < bound then
      let c1 := body c
      forRows bound body fuel { c1 with y := (c1.y + 1) % 4294967296 }
    else c

/-- The body shared by the "lines above" and "lines below" loops: copy `cb` bytes
of the row and advance both pointers by their strides. -/
def copyLine (src : Mem) (lDestStride lSrcStride : Int) (cb : Nat) (c : RowCursor) : RowCursor :=
  { c with
    dest := CopyMemory c.dest c.pDest src c.pSrc cb
    pSrc := c.pSrc + lSrcStride
    pDest := c.pDest + lDestStride }

/-- The inner loop of the packed transforms,
`for (DWORD x = left; (x + 1) < right; x += 2)`, which rewrites one `DWORD`
(two pixels) per iteration as `(tmp & andMask) | orBits`. -/
def forPixels (andMask orBits : Nat) (right : Nat) (src : Mem) (pSrc pDest : Int) :
    Nat → Nat → Mem → Mem
  | 0, _, dest => dest
  | fuel + 1, x, dest =>
    if (x + 1) % 4294967296 < right then
      let tmp := readDWORD src (pSrc + 2 * (x : Int))
      forPixels andMask orBits right src pSrc pDest fuel ((x + 2) % 4294967296)
        (writeDWORD dest (pDest + 2 * (x : Int)) ((tmp &&& andMask) ||| orBits))
    else dest

/-- The body of the "lines within the destination rectangle" loop of the packed
transforms. -/
def rectLine (andMask orBits : Nat) (left right dwWidthInPixels : Nat) (src : Mem)
    (lDestStride lSrcStride : Int) (c : RowCursor) : RowCursor :=
  let d1 := CopyMemory c.dest c.pDest src c.pSrc (left * 2 % 4294967296)
  let d2 := forPixels andMask orBits right src c.pSrc c.pDest (right - left) left d1
  let d3 := CopyMemory d2 (c.pDest + ((right * 2 % 4294967296 : Nat) : Int)) src
    (c.pSrc + ((right * 2 % 4294967296 : Nat) : Int))
    ((dwWidthInPixels + 4294967296 - right) % 4294967296 * 2 % 4294967296)
  { c with
    dest := d3
    pDest := c.pDest + lDestStride
    pSrc := c.pSrc + lSrcStride }

/-- The common text of `TransformImage_UYVY` and `TransformImage_YUY2`, which differ
only in the two constants of the masking statement. -/
def TransformImage_packed (andMask orBits : Nat) (rcDest : D2D_RECT_U)
    (dest : Mem) (pDest : Int) (lDestStride : Int)
    (src : Mem) (pSrc : Int) (lSrcStride : Int)
    (dwWidthInPixels dwHeightInPixels : Nat) : Mem :=
  -- Round down to the even value: `~(1)` is `0xFFFFFFFE` as a `UINT32`.
  let left := rcDest.left &&& 0xFFFFFFFE
  let right := rcDest.right &&& 0xFFFFFFFE
  let y0 := min rcDest.bottom dwHeightInPixels
  let c0 : RowCursor := { y := 0, pSrc := pSrc, pDest := pDest, dest := dest }
  -- Lines above the destination rectangle.
  let c1 := forRows rcDest.top
    (copyLine src lDestStride lSrcStride (dwWidthInPixels * 2 % 4294967296))
    (rcDest.top - c0.y) c0
  -- Lines within the destination rectangle.
  let c2 := forRows y0
    (rectLine andMask orBits left right dwWidthInPixels src lDestStride lSrcStride)
    (y0 - c1.y) c1
  -- Lines below the destination rectangle.
  let c3 := forRows dwHeightInPixels
    (copyLine src lDestStride lSrcStride (dwWidthInPixels * 2 % 4294967296))
    (dwHeightInPixels - c2.y) c2
  c3.dest

/-- Convert UYVY image: `(tmp & 0xFF00FF00) | 0x00800080`. -/
def TransformImage_UYVY (rcDest : D2D_RECT_U) (dest : Mem) (pDest : Int) (lDestStride : Int)
    (src : Mem) (pSrc : Int) (lSrcStride : Int) (dwWidthInPixels dwHeightInPixels : Nat) : Mem :=
  TransformImage_packed 0xFF00FF00 0x00800080 rcDest dest pDest lDestStride src pSrc lSrcStride
    dwWidthInPixels dwHeightInPixels

/-- Convert YUY2 image: `(tmp & 0x00FF00FF) | 0x80008000`. -/
def TransformImage_YUY2 (rcDest : D2D_RECT_U) (dest : Mem) (pDest : Int) (lDestStride : Int)
    (src : Mem) (pSrc : Int) (lSrcStride : Int) (dwWidthInPixels dwHeightInPixels : Nat) : Mem :=
  TransformImage_packed 0x00FF00FF 0x80008000 rcDest dest pDest lDestStride src pSrc lSrcStride
    dwWidthInPixels dwHeightInPixels

/-- The body of the "lines within the destination rectangle" loop of
`TransformImage_NV12` (chroma plane). -/
def fillLine (rcDest : D2D_RECT_U) (dwWidthInPixels : Nat) (src : Mem)
    (lDestStride lSrcStride : Int) (c : RowCursor) : RowCursor :=
  let d1 := CopyMemory c.dest c.pDest src c.pSrc rcDest.left
  let d2 := FillMemory d1 (c.pDest + (rcDest.left : Int))
    ((rcDest.right + 4294967296 - rcDest.left) % 4294967296) 128
  let d3 := CopyMemory d2 (c.pDest + (rcDest.right : Int)) src (c.pSrc + (rcDest.right : Int))
    ((dwWidthInPixels + 4294967296 - rcDest.right) % 4294967296)
  { c with
    dest := d3
    pDest := c.pDest + lDestStride
    pSrc := c.pSrc + lSrcStride }

/-- Convert NV12 image: the Y plane is copied, then the packed U-V plane (half
the number of lines) is processed with the pointers left where the Y loop
ended. -/
def TransformImage_NV12 (rcDest : D2D_RECT_U) (dest : Mem) (pDest : Int) (lDestStride : Int)
    (src : Mem) (pSrc : Int) (lSrcStride : Int) (dwWidthInPixels dwHeightInPixels : Nat) : Mem :=
  -- Y plane
  let cY := forRows dwHeightInPixels (copyLine src lDestStride lSrcStride dwWidthInPixels)
    dwHeightInPixels { y := 0, pSrc := pSrc, pDest := pDest, dest := dest }
  -- U-V plane
  let c0 : RowCursor := { cY with y := 0 }
  let y0 := min rcDest.bottom dwHeightInPixels
  -- Lines above the destination rectangle.
  let c1 := forRows (rcDest.top / 2) (copyLine src lDestStride lSrcStride dwWidthInPixels)
    (rcDest.top / 2 - c0.y) c0
  -- Lines within the destination rectangle.
  let c2 := forRows (y0 / 2) (fillLine rcDest dwWidthInPixels src lDestStride lSrcStride)
    (y0 / 2 - c1.y) c1
  -- Lines below the destination rectangle.
  let c3 := forRows (dwHeightInPixels / 2) (copyLine src lDestStride lSrcStride dwWidthInPixels)
    (dwHeightInPixels / 2 - c2.y) c2
  c3.dest



/-! ## Result codes, GUIDs and media types -/

/-- The `HRESULT` values the transform returns or throws. -/
inductive HRESULT where
  | S_OK
  | S_FALSE
  | E_INVALIDARG
  | E_POINTER
  | E_NOTIMPL
  | E_UNEXPECTED
  | MF_E_INVALIDMEDIATYPE
  | MF_E_INVALIDSTREAMNUMBER
  | MF_E_INVALIDTYPE
  | MF_E_ATTRIBUTENOTFOUND
  | MF_E_NO_MORE_TYPES
  | MF_E_NOTACCEPTING
  | MF_E_TRANSFORM_TYPE_NOT_SET
  | MF_E_TRANSFORM_NEED_MORE_INPUT
  | MF_E_TRANSFORM_CANNOT_CHANGE_MEDIATYPE_WHILE_PROCESSING
deriving DecidableEq, Repr

/-- What can interrupt a function of the source: a C++/CX exception carrying an
`HRESULT` (`throw ref new InvalidArgumentException()` carries `E_INVALIDARG`,
`ThrowException(hr)` and a failing `ThrowIfError(hr)` carry `hr`), or a hardware fault,
an integer division by zero or a call through a null interface pointer, which is not an
exception object and which no `catch` clause of the source handles. -/
inductive Exn where
  | hr (code : HRESULT)
  | divideByZero
  | accessViolation
deriving DecidableEq, Repr

/-- The constant `MAXDWORD`, the largest `DWORD`. -/
def MAXDWORD : Nat := 4294967295

/-- Unsigned 32-bit division `a / b` as the machine performs it. -/
def udiv (a b : Nat) : Except Exn Nat :=
  if b = 0 then .error .divideByZero else .ok (a / b)

/-- A `GUID`: `Data1` (32 bits), `Data2`, `Data3` (16 bits each) and `Data4` (64 bits). -/
structure GUID where
  Data1 : Nat
  Data2 : Nat
  Data3 : Nat
  Data4 : Nat
deriving DecidableEq, Repr

/-- Video FOURCC code of YUY2 (the bytes Y, U, Y, 2 in memory). -/
def FOURCC_YUY2 : Nat := 0x32595559
/-- Video FOURCC code of UYVY (the bytes U, Y, V, Y in memory). -/
def FOURCC_UYVY : Nat := 0x59565955
/-- Video FOURCC code of NV12 (the bytes N, V, 1, 2 in memory). -/
def FOURCC_NV12 : Nat := 0x3231564E

/-- The video subtype GUID of the platform for a FOURCC: `{FOURCC-0000-0010-8000-00AA00389B71}`. -/
def MFVideoFormat (fcc : Nat) : GUID :=
  { Data1 := fcc, Data2 := 0x0000, Data3 := 0x0010, Data4 := 0x800000AA00389B71 }

/-- The subtype GUID `MFVideoFormat_NV12`. -/
def MFVideoFormat_NV12 : GUID := MFVideoFormat FOURCC_NV12

/-- The subtype GUID `MFVideoFormat_YUY2`. -/
def MFVideoFormat_YUY2 : GUID := MFVideoFormat FOURCC_YUY2

/-- The subtype GUID `MFVideoFormat_UYVY`. -/
def MFVideoFormat_UYVY : GUID := MFVideoFormat FOURCC_UYVY

/-- The major type GUID of the platform for video, `{73646976-0000-0010-8000-00AA00389B71}`. -/
def MFMediaType_Video : GUID :=
  { Data1 := 0x73646976, Data2 := 0x0000, Data3 := 0x0010, Data4 := 0x800000AA00389B71 }

/-- The major type GUID of the platform for audio, `{73647561-0000-0010-8000-00AA00389B71}`. -/
def MFMediaType_Audio : GUID :=
  { Data1 := 0x73647561, Data2 := 0x0000, Data3 := 0x0010, Data4 := 0x800000AA00389B71 }

/-- Static array of media types (preferred and accepted). -/
def g_MediaSubtypes : List GUID := [MFVideoFormat_NV12, MFVideoFormat_YUY2, MFVideoFormat_UYVY]

/-- The interlace mode `MFVideoInterlace_Progressive`. -/
def MFVideoInterlace_Progressive : Nat := 2

/-- The interlace mode `MFVideoInterlace_FieldSingleUpper`. -/
def MFVideoInterlace_FieldSingleUpper : Nat := 5

/-- The interlace mode `MFVideoInterlace_FieldSingleLower`. -/
def MFVideoInterlace_FieldSingleLower : Nat := 6

/-- The attributes of an `IMFMediaType` that the transform reads or writes; `none` is
an attribute that is not set.  `MF_MT_FRAME_SIZE` is the pair (width, height) that
`MFGetAttributeSize` unpacks. -/
structure IMFMediaType where
  MF_MT_MAJOR_TYPE : Option GUID
  MF_MT_SUBTYPE : Option GUID
  MF_MT_FRAME_SIZE : Option (Nat × Nat)
  MF_MT_INTERLACE_MODE : Option Nat
  MF_MT_DEFAULT_STRIDE : Option Nat
deriving DecidableEq, Repr

/-- Reading an attribute with `GetGUID` / `GetUINT32` / `MFGetAttributeSize` under
`ThrowIfError`: an attribute that is not set makes the getter fail with
`MF_E_ATTRIBUTENOTFOUND`, which is thrown. -/
def GetAttribute {α : Type} (a : Option α) : Except Exn α :=
  match a with
  | some v => .ok v
  | none => .error (.hr .MF_E_ATTRIBUTENOTFOUND)

/-- The number of attributes a media type carries (`IMFAttributes::GetCount`). -/
def IMFMediaType.GetCount (t : IMFMediaType) : Nat :=
  (if t.MF_MT_MAJOR_TYPE.isSome then 1 else 0) + (if t.MF_MT_SUBTYPE.isSome then 1 else 0) +
  (if t.MF_MT_FRAME_SIZE.isSome then 1 else 0) +
  (if t.MF_MT_INTERLACE_MODE.isSome then 1 else 0) +
  (if t.MF_MT_DEFAULT_STRIDE.isSome then 1 else 0)

/-- Whether each attribute of `a` is present in `b` and has the same value. -/
def IMFMediaType.subsetOf (a b : IMFMediaType) : Bool :=
  (a.MF_MT_MAJOR_TYPE.isNone || decide (a.MF_MT_MAJOR_TYPE = b.MF_MT_MAJOR_TYPE)) &&
  (a.MF_MT_SUBTYPE.isNone || decide (a.MF_MT_SUBTYPE = b.MF_MT_SUBTYPE)) &&
  (a.MF_MT_FRAME_SIZE.isNone || decide (a.MF_MT_FRAME_SIZE = b.MF_MT_FRAME_SIZE)) &&
  (a.MF_MT_INTERLACE_MODE.isNone ||
    decide (a.MF_MT_INTERLACE_MODE = b.MF_MT_INTERLACE_MODE)) &&
  (a.MF_MT_DEFAULT_STRIDE.isNone ||
    decide (a.MF_MT_DEFAULT_STRIDE = b.MF_MT_DEFAULT_STRIDE))

/-- The platform method `pmt->IsEqual(pOther, &flags)` of `IMFMediaType`, which the
source calls and does not define; this is its documented contract.  Both media types
must have a major type, otherwise the method returns `E_INVALIDARG`.  It returns `S_OK`
when all comparison flags are set, `S_FALSE` otherwise: the major types are the same
(`MF_MEDIATYPE_EQUAL_MAJOR_TYPES`); the subtypes are the same, or neither media type has
a subtype (`MF_MEDIATYPE_EQUAL_FORMAT_TYPES`); and the attributes of the media type with
the smaller number of attributes are a subset of the attributes of the other, with the
same values (`MF_MEDIATYPE_EQUAL_FORMAT_DATA`).  The user data, the fourth flag, is not
among the attributes modelled. -/
def IsEqual (pmt pOther : IMFMediaType) : HRESULT :=
  match pmt.MF_MT_MAJOR_TYPE, pOther.MF_MT_MAJOR_TYPE with
  | some major, some majorOther =>
    let equalMajorTypes := decide (major = majorOther)
    let equalFormatTypes := decide (pmt.MF_MT_SUBTYPE = pOther.MF_MT_SUBTYPE)
    let equalFormatData :=
      if pmt.GetCount ≤ pOther.GetCount then pmt.subsetOf pOther else pOther.subsetOf pmt
    if equalMajorTypes && equalFormatTypes && equalFormatData then .S_OK else .S_FALSE
  | _, _ => .E_INVALIDARG

/-- The platform helper `MFGetAttributeUINT32(pmt, key, default)`. -/
def MFGetAttributeUINT32 (a : Option Nat) (defaultValue : Nat) : Nat :=
  match a with
  | some v => v
  | none => defaultValue

/-! ## Geometry -/

/-- Calculate the size of the buffer needed to store the image.
`fcc`: the FOURCC code of the video format. -/
def GetImageSize (fcc width height : Nat) : Except Exn Nat :=
  if fcc = FOURCC_YUY2 ∨ fcc = FOURCC_UYVY then
    -- check overflow: `(width > MAXDWORD / 2) || (width * 2 > MAXDWORD / height)`
    if width > MAXDWORD / 2 then .error (.hr .E_INVALIDARG)
    else
      match udiv MAXDWORD height with
      | .error e => .error e
      | .ok q =>
        if width * 2 % 4294967296 > q then .error (.hr .E_INVALIDARG)
        else
          -- 16 bpp
          .ok (width * height % 4294967296 * 2 % 4294967296)
  else if fcc = FOURCC_NV12 then
    -- check overflow: `(height/2 > MAXDWORD - height) || ((height + height/2) > MAXDWORD / width)`
    if height / 2 > MAXDWORD - height then .error (.hr .E_INVALIDARG)
    else
      match udiv MAXDWORD width with
      | .error e => .error e
      | .ok q =>
        if (height + height / 2) % 4294967296 > q then .error (.hr .E_INVALIDARG)
        else
          -- 12 bpp
          .ok (width * ((height + height / 2) % 4294967296) % 4294967296)
  else
    -- Unsupported type.
    .error (.hr .MF_E_INVALIDTYPE)

/-- The `LONG` whose 32-bit pattern is the given `UINT32`. -/
def toLONG (u : Nat) : Int :=
  if u % 4294967296 < 2147483648 then ((u % 4294967296 : Nat) : Int)
  else ((u % 4294967296 : Nat) : Int) - 4294967296

/-- The `UINT32` whose 32-bit pattern is the given `LONG`: `UINT32(lStride)`. -/
def toUINT32 (l : Int) : Nat := (l % 4294967296).toNat

/-- Get the default stride for a video format.  Returns the stride and the media type,
on which the computed stride has been set "for later reference". -/
def GetDefaultStride (pType : IMFMediaType) : Except Exn (Int × IMFMediaType) :=
  -- Try to get the default stride from the media type.
  match pType.MF_MT_DEFAULT_STRIDE with
  | some v => .ok (toLONG v, pType)
  | none =>
    -- Attribute not set. Try to calculate the default stride.
    -- Get the subtype and the image size.
    match GetAttribute pType.MF_MT_SUBTYPE with
    | .error e => .error e
    | .ok subtype =>
      match GetAttribute pType.MF_MT_FRAME_SIZE with
      | .error e => .error e
      | .ok (width, _) =>
        if subtype = MFVideoFormat_NV12 then
          let lStride := toLONG width
          -- Set the attribute for later reference.
          .ok (lStride, { pType with MF_MT_DEFAULT_STRIDE := some (toUINT32 lStride) })
        else if subtype = MFVideoFormat_YUY2 ∨ subtype = MFVideoFormat_UYVY then
          let lStride := toLONG (((width * 2 % 4294967296 + 3) % 4294967296) &&& 0xFFFFFFFC)
          .ok (lStride, { pType with MF_MT_DEFAULT_STRIDE := some (toUINT32 lStride) })
        else
          .error (.hr .E_INVALIDARG)

/-! ## The transform object -/

/-- The value of `m_pTransformFn`: which of the three image transforms is selected. -/
inductive TransformFn where
  | YUY2
  | UYVY
  | NV12
deriving DecidableEq, Repr

/-- Calling through `m_pTransformFn`. -/
def TransformFn.call (fn : TransformFn) (rcDest : D2D_RECT_U) (dest : Mem) (pDest : Int)
    (lDestStride : Int) (src : Mem) (pSrc : Int) (lSrcStride : Int)
    (dwWidthInPixels dwHeightInPixels : Nat) : Mem :=
  match fn with
  | .YUY2 => TransformImage_YUY2 rcDest dest pDest lDestStride src pSrc lSrcStride
      dwWidthInPixels dwHeightInPixels
  | .UYVY => TransformImage_UYVY rcDest dest pDest lDestStride src pSrc lSrcStride
      dwWidthInPixels dwHeightInPixels
  | .NV12 => TransformImage_NV12 rcDest dest pDest lDestStride src pSrc lSrcStride
      dwWidthInPixels dwHeightInPixels

/-- A media buffer as the transform sees it through `VideoBufferLock`: its bytes, the
result of locking it, the address of the top row a lock yields, the stride the buffer
reports (when it has a 2-D interface), its current length and its maximum length. -/
structure IMFMediaBuffer where
  mem : Mem
  hrLock : HRESULT
  pTopRow : Int
  lStride : Option Int
  cbCurrentLength : Nat
  cbMaxLength : Nat

/-- A sample: the buffer `ConvertToContiguousBuffer` yields (`none` when it fails), and
the duration and time stamp, each of which may be absent. -/
structure IMFSample where
  buffer : Option IMFMediaBuffer
  hnsDuration : Option Int
  hnsTime : Option Int

/-- The data members of `CGrayscaleEffect` that the negotiation and the streaming
methods use. -/
structure CGrayscaleEffect where
  m_spSample : Option IMFSample
  m_spInputType : Option IMFMediaType
  m_spOutputType : Option IMFMediaType
  m_pTransformFn : Option TransformFn
  m_imageWidthInPixels : Nat
  m_imageHeightInPixels : Nat
  m_cbImageSize : Nat
  m_rcDest : D2D_RECT_U
  m_fStreamingInitialized : Bool

/-- The constructor `CGrayscaleEffect::CGrayscaleEffect()`. -/
def CGrayscaleEffect.new : CGrayscaleEffect :=
  { m_spSample := none
    m_spInputType := none
    m_spOutputType := none
    m_pTransformFn := none
    m_imageWidthInPixels := 0
    m_imageHeightInPixels := 0
    m_cbImageSize := 0
    m_rcDest := ⟨0, 0, 0, 0⟩
    m_fStreamingInitialized := false }

/-- How a public method ends: it returns an `HRESULT` and leaves the object in some
state, or it does not return (a hardware fault inside the call). -/
inductive Outcome where
  | returned (hr : HRESULT) (s : CGrayscaleEffect)
  | crashed

/-- The `HRESULT` a call returned, if it returned. -/
def Outcome.hr? : Outcome → Option HRESULT
  | .returned hr _ => some hr
  | .crashed => none

/-- The state a call left, if it returned. -/
def Outcome.state? : Outcome → Option CGrayscaleEffect
  | .returned _ s => some s
  | .crashed => none

/-- The `try { ... } catch (Exception ^exc) { hr = exc->HResult; } return hr;` frame of
the public methods, applied to the result of the guarded block and the state it left. -/
def catchException (r : Except Exn Unit × CGrayscaleEffect) : Outcome :=
  match r with
  | (.ok _, s) => .returned .S_OK s
  | (.error (.hr code), s) => .returned code s
  | (.error .divideByZero, _) => .crashed
  | (.error .accessViolation, _) => .crashed

/-- Modelled from the spec: `IsValidInputStream`, declared in `Grayscale.h`; the
transform has the single input stream 0 ("stream index outside the fixed {0}" is
invalid). -/
def IsValidInputStream (dwInputStreamID : Nat) : Bool := dwInputStreamID == 0

/-- Modelled from the spec: `IsValidOutputStream`, declared in `Grayscale.h`; the
transform has the single output stream 0. -/
def IsValidOutputStream (dwOutputStreamID : Nat) : Bool := dwOutputStreamID == 0

/-- Modelled from the spec: `HasPendingOutput`, declared in `Grayscale.h`; output is
ready "iff one [frame is] pending". -/
def HasPendingOutput (s : CGrayscaleEffect) : Bool := s.m_spSample.isSome

/-- The flag `MFT_SET_TYPE_TEST_ONLY`. -/
def MFT_SET_TYPE_TEST_ONLY : Nat := 1

/-- Validate a media type (input or output). -/
def OnCheckMediaType (pmt : IMFMediaType) : Except Exn Unit :=
  -- Major type must be video.
  match GetAttribute pmt.MF_MT_MAJOR_TYPE with
  | .error e => .error e
  | .ok major_type =>
    if major_type ≠ MFMediaType_Video then .error (.hr .MF_E_INVALIDMEDIATYPE)
    else
      -- Subtype must be one of the subtypes in our global list.
      match GetAttribute pmt.MF_MT_SUBTYPE with
      | .error e => .error e
      | .ok subtype =>
        let fFoundMatchingSubtype := g_MediaSubtypes.any (fun g => decide (subtype = g))
        if !fFoundMatchingSubtype then .error (.hr .MF_E_INVALIDMEDIATYPE)
        else
          -- Reject single-field media types.
          let interlace :=
            MFGetAttributeUINT32 pmt.MF_MT_INTERLACE_MODE MFVideoInterlace_Progressive
          if interlace = MFVideoInterlace_FieldSingleUpper ∨
              interlace = MFVideoInterlace_FieldSingleLower then
            .error (.hr .MF_E_INVALIDMEDIATYPE)
          else .ok ()

/-- Validate an input media type.  When the output type is set the comparison with it
is commented out in the source ("MP! removed"), so nothing is checked. -/
def OnCheckInputType (s : CGrayscaleEffect) (pmt : IMFMediaType) : Except Exn Unit :=
  match s.m_spOutputType with
  | some _ => .ok ()
  | none => OnCheckMediaType pmt

/-- Validate an output media type. -/
def OnCheckOutputType (s : CGrayscaleEffect) (pmt : IMFMediaType) : Except Exn Unit :=
  -- If the input type is set, see if they match.
  match s.m_spInputType with
  | some inputType =>
    -- IsEqual can return S_FALSE. Treat this as failure.
    if IsEqual pmt inputType ≠ .S_OK then .error (.hr .MF_E_INVALIDMEDIATYPE) else .ok ()
  -- Input type is not set. Just check this type.
  | none => OnCheckMediaType pmt

/-- Update the format information. This method is called whenever the input type is
set.  The second component is the object as the method leaves it, also when it throws. -/
def UpdateFormatInfo (s : CGrayscaleEffect) : Except Exn Unit × CGrayscaleEffect :=
  let s0 := { s with
    m_imageWidthInPixels := 0
    m_imageHeightInPixels := 0
    m_cbImageSize := 0
    m_pTransformFn := none }
  match s0.m_spInputType with
  | none => (.ok (), s0)
  | some inputType =>
    match GetAttribute inputType.MF_MT_SUBTYPE with
    | .error e => (.error e, s0)
    | .ok subtype =>
      let fn? : Option TransformFn :=
        if subtype = MFVideoFormat_YUY2 then some .YUY2
        else if subtype = MFVideoFormat_UYVY then some .UYVY
        else if subtype = MFVideoFormat_NV12 then some .NV12
        else none
      match fn? with
      | none => (.error (.hr .E_UNEXPECTED), s0)
      | some fn =>
        let s1 := { s0 with m_pTransformFn := some fn }
        match GetAttribute inputType.MF_MT_FRAME_SIZE with
        | .error e => (.error e, s1)
        | .ok (width, height) =>
          let s2 := { s1 with m_imageWidthInPixels := width, m_imageHeightInPixels := height }
          -- Calculate the image size (not including padding)
          match GetImageSize subtype.Data1 width height with
          | .error e => (.error e, s2)
          | .ok cb => (.ok (), { s2 with m_cbImageSize := cb })

/-- Set or clear the input media type. -/
def OnSetInputType (s : CGrayscaleEffect) (pmt : Option IMFMediaType) :
    Except Exn Unit × CGrayscaleEffect :=
  UpdateFormatInfo { s with m_spInputType := pmt }

/-- Set or clears the output media type. -/
def OnSetOutputType (s : CGrayscaleEffect) (pmt : Option IMFMediaType) : CGrayscaleEffect :=
  { s with m_spOutputType := pmt }

/-- Initialize streaming parameters. -/
def BeginStreaming (s : CGrayscaleEffect) : CGrayscaleEffect :=
  if !s.m_fStreamingInitialized then
    { s with
      m_rcDest := ⟨0, 0, s.m_imageWidthInPixels, s.m_imageHeightInPixels⟩
      m_fStreamingInitialized := true }
  else s

/-- End streaming. -/
def EndStreaming (s : CGrayscaleEffect) : CGrayscaleEffect :=
  { s with m_fStreamingInitialized := false }

/-- The method `CGrayscaleEffect::SetInputType`. -/
def SetInputType (s : CGrayscaleEffect) (dwInputStreamID : Nat) (pType : Option IMFMediaType)
    (dwFlags : Nat) : Outcome :=
  catchException <|
    -- Validate flags.
    if dwFlags &&& (0xFFFFFFFF - MFT_SET_TYPE_TEST_ONLY) ≠ 0 then (.error (.hr .E_INVALIDARG), s)
    else if !IsValidInputStream dwInputStreamID then (.error (.hr .MF_E_INVALIDSTREAMNUMBER), s)
    else
      -- Does the caller want us to set the type, or just test it?
      let fReallySet := (dwFlags &&& MFT_SET_TYPE_TEST_ONLY) = 0
      -- If we have an input sample, the client cannot change the type now.
      if HasPendingOutput s then
        (.error (.hr .MF_E_TRANSFORM_CANNOT_CHANGE_MEDIATYPE_WHILE_PROCESSING), s)
      else
        -- Validate the type, if non-nullptr.
        let checked : Except Exn Unit :=
          match pType with
          | some pmt => OnCheckInputType s pmt
          | none => .ok ()
        match checked with
        | .error e => (.error e, s)
        | .ok _ =>
          -- The type is OK. Set the type, unless the caller was just testing.
          if fReallySet then
            match OnSetInputType s pType with
            | (.error e, s1) => (.error e, s1)
            | (.ok _, s1) =>
              -- When the type changes, end streaming.
              (.ok (), EndStreaming s1)
          else (.ok (), s)

/-- The method `CGrayscaleEffect::SetOutputType`. -/
def SetOutputType (s : CGrayscaleEffect) (dwOutputStreamID : Nat)
    (pType : Option IMFMediaType) (dwFlags : Nat) : Outcome :=
  if !IsValidOutputStream dwOutputStreamID then .returned .MF_E_INVALIDSTREAMNUMBER s
  -- Validate flags.
  else if dwFlags &&& (0xFFFFFFFF - MFT_SET_TYPE_TEST_ONLY) ≠ 0 then .returned .E_INVALIDARG s
  else
    catchException <|
      -- Does the caller want us to set the type, or just test it?
      let fReallySet := (dwFlags &&& MFT_SET_TYPE_TEST_ONLY) = 0
      -- If we have an input sample, the client cannot change the type now.
      if HasPendingOutput s then
        (.error (.hr .MF_E_TRANSFORM_CANNOT_CHANGE_MEDIATYPE_WHILE_PROCESSING), s)
      else
        -- Validate the type, if non-nullptr.
        let checked : Except Exn Unit :=
          match pType with
          | some pmt => OnCheckOutputType s pmt
          | none => .ok ()
        match checked with
        | .error e => (.error e, s)
        | .ok _ =>
          if fReallySet then
            -- The type is OK. Set the type, unless the caller was just testing.
            (.ok (), EndStreaming (OnSetOutputType s pType))
          else (.ok (), s)

/-! ## Preferred types -/

/-- Create a partial media type from our list.
`dwTypeIndex`: index into the list of preferred media types.  The error is the
`HRESULT` thrown when the index is past the end of the list. -/
def OnGetPartialType (dwTypeIndex : Nat) : Except HRESULT IMFMediaType :=
  match g_MediaSubtypes.get? dwTypeIndex with
  | none => .error .MF_E_NO_MORE_TYPES
  | some subtype =>
    .ok { MF_MT_MAJOR_TYPE := some MFMediaType_Video
          MF_MT_SUBTYPE := some subtype
          MF_MT_FRAME_SIZE := none
          MF_MT_INTERLACE_MODE := none
          MF_MT_DEFAULT_STRIDE := none }

/-- What a type query leaves: the `HRESULT`, the type stored through `ppType` (if any),
and the object. -/
structure TypeQuery where
  hr : HRESULT
  ppType : Option IMFMediaType
  s : CGrayscaleEffect

/-- The method `CGrayscaleEffect::GetInputAvailableType`; `ppType` tells whether the
pointer argument is non-null. -/
def GetInputAvailableType (s : CGrayscaleEffect) (dwInputStreamID dwTypeIndex : Nat)
    (ppType : Bool) : TypeQuery :=
  if !ppType then { hr := .E_INVALIDARG, ppType := none, s := s }
  else if !IsValidInputStream dwInputStreamID then
    { hr := .MF_E_INVALIDSTREAMNUMBER, ppType := none, s := s }
  else
    -- If the output type is set, return that type as our preferred input type.
    match s.m_spOutputType with
    | none =>
      -- The output type is not set. Create a partial media type.
      match OnGetPartialType dwTypeIndex with
      | .ok mt => { hr := .S_OK, ppType := some mt, s := s }
      | .error code => { hr := code, ppType := none, s := s }
    | some outputType =>
      if dwTypeIndex > 0 then { hr := .MF_E_NO_MORE_TYPES, ppType := none, s := s }
      else { hr := .S_OK, ppType := some outputType, s := s }

/-- The method `CGrayscaleEffect::GetOutputAvailableType`; `ppType` tells whether the
pointer argument is non-null. -/
def GetOutputAvailableType (s : CGrayscaleEffect) (dwOutputStreamID dwTypeIndex : Nat)
    (ppType : Bool) : TypeQuery :=
  if !ppType then { hr := .E_INVALIDARG, ppType := none, s := s }
  else if !IsValidOutputStream dwOutputStreamID then
    { hr := .MF_E_INVALIDSTREAMNUMBER, ppType := none, s := s }
  else
    match s.m_spInputType with
    | none =>
      -- The input type is not set. Create a partial media type.
      match OnGetPartialType dwTypeIndex with
      | .ok mt => { hr := .S_OK, ppType := some mt, s := s }
      | .error code => { hr := code, ppType := none, s := s }
    | some inputType =>
      if dwTypeIndex > 0 then { hr := .MF_E_NO_MORE_TYPES, ppType := none, s := s }
      else { hr := .S_OK, ppType := some inputType, s := s }

/-! ## Streaming -/

/-- The flag `MFT_INPUT_STATUS_ACCEPT_DATA`. -/
def MFT_INPUT_STATUS_ACCEPT_DATA : Nat := 1

/-- The flag `MFT_OUTPUT_STATUS_SAMPLE_READY`. -/
def MFT_OUTPUT_STATUS_SAMPLE_READY : Nat := 1

/-- The method `CGrayscaleEffect::GetInputStatus`: the `HRESULT` and the flags stored
through `pdwFlags` (if any); `pdwFlags` tells whether the pointer argument is non-null. -/
def GetInputStatus (s : CGrayscaleEffect) (dwInputStreamID : Nat) (pdwFlags : Bool) :
    HRESULT × Option Nat :=
  if !pdwFlags then (.E_POINTER, none)
  else if !IsValidInputStream dwInputStreamID then (.MF_E_INVALIDSTREAMNUMBER, none)
  -- If an input sample is already queued, do not accept another sample until the
  -- client calls ProcessOutput or Flush.
  else if s.m_spSample.isNone then (.S_OK, some MFT_INPUT_STATUS_ACCEPT_DATA)
  else (.S_OK, some 0)

/-- The method `CGrayscaleEffect::GetOutputStatus`: the `HRESULT` and the flags stored
through `pdwFlags` (if any); `pdwFlags` tells whether the pointer argument is non-null. -/
def GetOutputStatus (s : CGrayscaleEffect) (pdwFlags : Bool) : HRESULT × Option Nat :=
  if !pdwFlags then (.E_POINTER, none)
  -- The MFT can produce an output sample if (and only if) there an input sample.
  else if s.m_spSample.isSome then (.S_OK, some MFT_OUTPUT_STATUS_SAMPLE_READY)
  else (.S_OK, some 0)

/-- The method `CGrayscaleEffect::ProcessInput`; `pSample` is `none` for a null pointer. -/
def ProcessInput (s : CGrayscaleEffect) (dwInputStreamID : Nat) (pSample : Option IMFSample)
    (dwFlags : Nat) : Outcome :=
  catchException <|
    -- Check input parameters.
    match pSample with
    | none => (.error (.hr .E_INVALIDARG), s)
    | some sample =>
      -- dwFlags is reserved and must be zero.
      if dwFlags ≠ 0 then (.error (.hr .E_INVALIDARG), s)
      -- Validate the input stream number.
      else if !IsValidInputStream dwInputStreamID then
        (.error (.hr .MF_E_INVALIDSTREAMNUMBER), s)
      -- The client must set input and output types before calling ProcessInput.
      else if s.m_spInputType.isNone || s.m_spOutputType.isNone then
        (.error (.hr .MF_E_NOTACCEPTING), s)
      -- Check if an input sample is already queued.
      else if s.m_spSample.isSome then (.error (.hr .MF_E_NOTACCEPTING), s)
      else
        -- Initialize streaming.  Cache the sample.
        (.ok (), { BeginStreaming s with m_spSample := some sample })

/-- Modelled from the spec: `VideoBufferLock`, declared in `VideoBufferLock.h`; locking a
buffer "yields a top-row pointer and an effective stride", "falling back to the
negotiator's computed default stride when the buffer exposes none", and can fail. -/
def VideoBufferLock (pBuffer : IMFMediaBuffer) (lDefaultStride : Int) : Except Exn (Int × Int) :=
  if pBuffer.hrLock ≠ .S_OK then .error (.hr pBuffer.hrLock)
  else .ok (pBuffer.pTopRow, pBuffer.lStride.getD lDefaultStride)

/-- Generate output data.  The result is what was thrown (if anything), the object, and
the output buffer as the method leaves them. -/
def OnProcessOutput (s : CGrayscaleEffect) (pIn pOut : IMFMediaBuffer) :
    Except Exn Unit × CGrayscaleEffect × IMFMediaBuffer :=
  -- Stride if the buffer does not support IMF2DBuffer
  match s.m_spInputType with
  | none => (.error .accessViolation, s, pOut)
  | some inputType =>
    match GetDefaultStride inputType with
    | .error e => (.error e, s, pOut)
    | .ok (lDefaultStride, cached) =>
      let s1 := { s with m_spInputType := some cached }
      -- Helper objects to lock the buffers.
      match VideoBufferLock pIn lDefaultStride with
      | .error e => (.error e, s1, pOut)
      | .ok inputLock =>
        match VideoBufferLock pOut lDefaultStride with
        | .error e => (.error e, s1, pOut)
        | .ok outputLock =>
          -- Invoke the image transform function.
          match s.m_pTransformFn with
          | none => (.error (.hr .E_UNEXPECTED), s1, pOut)
          | some fn =>
            let pOut1 := { pOut with
              mem := fn.call s.m_rcDest pOut.mem outputLock.1 outputLock.2
                pIn.mem inputLock.1 inputLock.2
                s.m_imageWidthInPixels s.m_imageHeightInPixels }
            -- Set the data size on the output buffer.
            if s.m_cbImageSize > pOut.cbMaxLength then (.error (.hr .E_INVALIDARG), s1, pOut1)
            else (.ok (), s1, { pOut1 with cbCurrentLength := s.m_cbImageSize })

/-- One element of the `pOutputSamples` array. -/
structure MFT_OUTPUT_DATA_BUFFER where
  pSample : Option IMFSample
  dwStatus : Nat

/-- What `ProcessOutput` leaves when it returns: the `HRESULT`, the object, element 0 of
the `pOutputSamples` array and the word behind `pdwStatus` (`none` for a null pointer). -/
structure ProcessOutputReturn where
  hr : HRESULT
  s : CGrayscaleEffect
  pOutputSamples : Option MFT_OUTPUT_DATA_BUFFER
  pdwStatus : Option Nat

/-- The end of `ProcessOutput` after the `try` block: `m_spSample.Reset(); return hr;`. -/
def releaseInputSample (hr : HRESULT) (s : CGrayscaleEffect)
    (pOutputSamples : Option MFT_OUTPUT_DATA_BUFFER) (pdwStatus : Option Nat) :
    ProcessOutputReturn :=
  { hr := hr, s := { s with m_spSample := none }, pOutputSamples := pOutputSamples,
    pdwStatus := pdwStatus }

/-- The method `CGrayscaleEffect::ProcessOutput`.  `pOutputSamples` is element 0 of the
array (`none` for a null pointer), `pdwStatus` the word behind the pointer (`none` for a
null pointer).  The result is `none` when the call does not return.
`ConvertToContiguousBuffer` fails with `E_UNEXPECTED` on a sample without a buffer. -/
def ProcessOutput (s : CGrayscaleEffect) (dwFlags cOutputBufferCount : Nat)
    (pOutputSamples : Option MFT_OUTPUT_DATA_BUFFER) (pdwStatus : Option Nat) :
    Option ProcessOutputReturn :=
  -- This MFT does not accept any flags for the dwFlags parameter.
  if dwFlags ≠ 0 then some (releaseInputSample .E_INVALIDARG s pOutputSamples pdwStatus)
  else
    match pOutputSamples, pdwStatus with
    | none, _ => some (releaseInputSample .E_INVALIDARG s pOutputSamples pdwStatus)
    | some _, none => some (releaseInputSample .E_INVALIDARG s pOutputSamples pdwStatus)
    | some out0, some _ =>
      -- There must be exactly one output buffer.
      if cOutputBufferCount ≠ 1 then
        some (releaseInputSample .E_INVALIDARG s pOutputSamples pdwStatus)
      else
        -- It must contain a sample.
        match out0.pSample with
        | none => some (releaseInputSample .E_INVALIDARG s pOutputSamples pdwStatus)
        | some outSample =>
          -- There must be an input sample available for processing.
          match s.m_spSample with
          | none =>
            some { hr := .MF_E_TRANSFORM_NEED_MORE_INPUT, s := s,
                   pOutputSamples := pOutputSamples, pdwStatus := pdwStatus }
          | some inSample =>
            -- Initialize streaming.
            let s1 := BeginStreaming s
            -- Get the input buffer.
            match inSample.buffer with
            | none => some (releaseInputSample .E_UNEXPECTED s1 pOutputSamples pdwStatus)
            | some spInput =>
              -- Get the output buffer.
              match outSample.buffer with
              | none => some (releaseInputSample .E_UNEXPECTED s1 pOutputSamples pdwStatus)
              | some spOutput =>
                match OnProcessOutput s1 spInput spOutput with
                | (.error (.hr code), s2, spOutput1) =>
                  some (releaseInputSample code s2
                    (some { out0 with pSample := some { outSample with buffer := some spOutput1 } })
                    pdwStatus)
                | (.error _, _, _) => none
                | (.ok _, s2, spOutput1) =>
                  -- Set status flags.
                  -- Copy the duration and time stamp from the input sample, if present.
                  let outSample1 : IMFSample :=
                    { buffer := some spOutput1
                      hnsDuration :=
                        match inSample.hnsDuration with
                        | some d => some d
                        | none => outSample.hnsDuration
                      hnsTime :=
                        match inSample.hnsTime with
                        | some t => some t
                        | none => outSample.hnsTime }
                  some (releaseInputSample .S_OK s2
                    (some { pSample := some outSample1, dwStatus := 0 }) (some 0))

/-! ## Messages and stream information -/

/-- The message `MFT_MESSAGE_COMMAND_FLUSH`. -/
def MFT_MESSAGE_COMMAND_FLUSH : Nat := 0

/-- The message `MFT_MESSAGE_COMMAND_DRAIN`. -/
def MFT_MESSAGE_COMMAND_DRAIN : Nat := 1

/-- The message `MFT_MESSAGE_SET_D3D_MANAGER`. -/
def MFT_MESSAGE_SET_D3D_MANAGER : Nat := 2

/-- The message `MFT_MESSAGE_NOTIFY_BEGIN_STREAMING`. -/
def MFT_MESSAGE_NOTIFY_BEGIN_STREAMING : Nat := 0x10000000

/-- The message `MFT_MESSAGE_NOTIFY_END_STREAMING`. -/
def MFT_MESSAGE_NOTIFY_END_STREAMING : Nat := 0x10000001

/-- The message `MFT_MESSAGE_NOTIFY_END_OF_STREAM`. -/
def MFT_MESSAGE_NOTIFY_END_OF_STREAM : Nat := 0x10000002

/-- The message `MFT_MESSAGE_NOTIFY_START_OF_STREAM`. -/
def MFT_MESSAGE_NOTIFY_START_OF_STREAM : Nat := 0x10000003

/-- Flush the MFT.  For this MFT, flushing just means releasing the input sample. -/
def OnFlush (s : CGrayscaleEffect) : CGrayscaleEffect :=
  { s with m_spSample := none }

/-- The method `CGrayscaleEffect::ProcessMessage`.  The `switch` has no `default:` label,
so a message that none of the labels names does nothing. -/
def ProcessMessage (s : CGrayscaleEffect) (eMessage : Nat) (_ulParam : Nat) : Outcome :=
  catchException <|
    -- Flush the MFT.
    if eMessage = MFT_MESSAGE_COMMAND_FLUSH then (.ok (), OnFlush s)
    -- Drain: that is our default behavior already, so there is nothing to do.
    else if eMessage = MFT_MESSAGE_COMMAND_DRAIN then (.ok (), s)
    -- It is an error to send the MFT_MESSAGE_SET_D3D_MANAGER message to the MFT.
    else if eMessage = MFT_MESSAGE_SET_D3D_MANAGER then (.error (.hr .E_NOTIMPL), s)
    else if eMessage = MFT_MESSAGE_NOTIFY_BEGIN_STREAMING then (.ok (), BeginStreaming s)
    else if eMessage = MFT_MESSAGE_NOTIFY_END_STREAMING then (.ok (), EndStreaming s)
    -- The next two messages do not require any action from this MFT.
    else if eMessage = MFT_MESSAGE_NOTIFY_END_OF_STREAM then (.ok (), s)
    else if eMessage = MFT_MESSAGE_NOTIFY_START_OF_STREAM then (.ok (), s)
    else (.ok (), s)

/-- The flag `MFT_INPUT_STREAM_WHOLE_SAMPLES`. -/
def MFT_INPUT_STREAM_WHOLE_SAMPLES : Nat := 0x1

/-- The flag `MFT_INPUT_STREAM_SINGLE_SAMPLE_PER_BUFFER`. -/
def MFT_INPUT_STREAM_SINGLE_SAMPLE_PER_BUFFER : Nat := 0x2

/-- The flag `MFT_OUTPUT_STREAM_WHOLE_SAMPLES`. -/
def MFT_OUTPUT_STREAM_WHOLE_SAMPLES : Nat := 0x1

/-- The flag `MFT_OUTPUT_STREAM_SINGLE_SAMPLE_PER_BUFFER`. -/
def MFT_OUTPUT_STREAM_SINGLE_SAMPLE_PER_BUFFER : Nat := 0x2

/-- The flag `MFT_OUTPUT_STREAM_FIXED_SAMPLE_SIZE`. -/
def MFT_OUTPUT_STREAM_FIXED_SAMPLE_SIZE : Nat := 0x4

/-- The structure `MFT_INPUT_STREAM_INFO`. -/
structure MFT_INPUT_STREAM_INFO where
  hnsMaxLatency : Int
  dwFlags : Nat
  cbSize : Nat
  cbMaxLookahead : Nat
  cbAlignment : Nat
deriving DecidableEq, Repr

/-- The structure `MFT_OUTPUT_STREAM_INFO`. -/
structure MFT_OUTPUT_STREAM_INFO where
  dwFlags : Nat
  cbSize : Nat
  cbAlignment : Nat
deriving DecidableEq, Repr

/-- What `GetInputStreamInfo` leaves: the `HRESULT`, the structure stored through
`pStreamInfo` (if any), and the object. -/
structure InputStreamInfoQuery where
  hr : HRESULT
  pStreamInfo : Option MFT_INPUT_STREAM_INFO
  s : CGrayscaleEffect

/-- What `GetOutputStreamInfo` leaves: the `HRESULT`, the structure stored through
`pStreamInfo` (if any), and the object. -/
structure OutputStreamInfoQuery where
  hr : HRESULT
  pStreamInfo : Option MFT_OUTPUT_STREAM_INFO
  s : CGrayscaleEffect

/-- The method `CGrayscaleEffect::GetInputStreamInfo`; `pStreamInfo` tells whether the
pointer argument is non-null. -/
def GetInputStreamInfo (s : CGrayscaleEffect) (dwInputStreamID : Nat) (pStreamInfo : Bool) :
    InputStreamInfoQuery :=
  if !pStreamInfo then { hr := .E_POINTER, pStreamInfo := none, s := s }
  else if !IsValidInputStream dwInputStreamID then
    { hr := .MF_E_INVALIDSTREAMNUMBER, pStreamInfo := none, s := s }
  else
    { hr := .S_OK
      pStreamInfo := some
        { hnsMaxLatency := 0
          dwFlags := MFT_INPUT_STREAM_WHOLE_SAMPLES ||| MFT_INPUT_STREAM_SINGLE_SAMPLE_PER_BUFFER
          cbSize := if s.m_spInputType.isNone then 0 else s.m_cbImageSize
          cbMaxLookahead := 0
          cbAlignment := 0 }
      s := s }

/-- The method `CGrayscaleEffect::GetOutputStreamInfo`; `pStreamInfo` tells whether the
pointer argument is non-null. -/
def GetOutputStreamInfo (s : CGrayscaleEffect) (dwOutputStreamID : Nat) (pStreamInfo : Bool) :
    OutputStreamInfoQuery :=
  if !pStreamInfo then { hr := .E_POINTER, pStreamInfo := none, s := s }
  else if !IsValidOutputStream dwOutputStreamID then
    { hr := .MF_E_INVALIDSTREAMNUMBER, pStreamInfo := none, s := s }
  else
    { hr := .S_OK
      pStreamInfo := some
        { dwFlags := MFT_OUTPUT_STREAM_WHOLE_SAMPLES |||
            MFT_OUTPUT_STREAM_SINGLE_SAMPLE_PER_BUFFER ||| MFT_OUTPUT_STREAM_FIXED_SAMPLE_SIZE
          cbSize := if s.m_spOutputType.isNone then 0 else s.m_cbImageSize
          cbAlignment := 0 }
      s := s }

/-! ## Sequences of calls -/

/-- One call of a public method that can change the object, with its arguments. -/
inductive Call where
  | SetInputType (dwInputStreamID : Nat) (pType : Option IMFMediaType) (dwFlags : Nat)
  | SetOutputType (dwOutputStreamID : Nat) (pType : Option IMFMediaType) (dwFlags : Nat)
  | ProcessMessage (eMessage : Nat) (ulParam : Nat)
  | ProcessInput (dwInputStreamID : Nat) (pSample : Option IMFSample) (dwFlags : Nat)
  | ProcessOutput (dwFlags cOutputBufferCount : Nat)
      (pOutputSamples : Option MFT_OUTPUT_DATA_BUFFER) (pdwStatus : Option Nat)

/-- The object after one call, whatever the call returned (`none` when the call does not
return). -/
def Call.run (c : Call) (s : CGrayscaleEffect) : Option CGrayscaleEffect :=
  match c with
  | .SetInputType id pType dwFlags => (Grayscale.SetInputType s id pType dwFlags).state?
  | .SetOutputType id pType dwFlags => (Grayscale.SetOutputType s id pType dwFlags).state?
  | .ProcessMessage eMessage ulParam => (Grayscale.ProcessMessage s eMessage ulParam).state?
  | .ProcessInput id pSample dwFlags => (Grayscale.ProcessInput s id pSample dwFlags).state?
  | .ProcessOutput dwFlags n pOutputSamples pdwStatus =>
    (Grayscale.ProcessOutput s dwFlags n pOutputSamples pdwStatus).map (fun r => r.s)

/-- The object after a sequence of calls, the first call first. -/
def runCalls : List Call → CGrayscaleEffect → Option CGrayscaleEffect
  | [], s => some s
  | c :: cs, s =>
    match c.run s with
    | none => none
    | some s1 => runCalls cs s1

/-! ## Memory accesses of the transforms -/

/-- One access of a transform to a buffer: `cb` bytes starting at `p`, read from the
source buffer (`write = false`) or written to the destination buffer (`write = true`). -/
structure Access where
  write : Bool
  p : Int
  cb : Nat
deriving DecidableEq, Repr

/-- The accesses of `CopyMemory(pDest, pSrc, cb)`. -/
def CopyMemory_accesses (pDest pSrc : Int) (cb : Nat) : List Access :=
  [⟨false, pSrc, cb⟩, ⟨true, pDest, cb⟩]

/-- The accesses of `FillMemory(pDest, cb, fill)`. -/
def FillMemory_accesses (pDest : Int) (cb : Nat) : List Access :=
  [⟨true, pDest, cb⟩]

/-- The accesses of the inner loop of the packed transforms: each iteration loads one
`DWORD` from `&pSrc_Pixel[x]` and stores one `DWORD` to `&pDest_Pixel[x]`. -/
def forPixels_accesses (right : Nat) (pSrc pDest : Int) : Nat → Nat → List Access
  | 0, _ => []
  | fuel + 1, x =>
    if (x + 1) % 4294967296 < right then
      ⟨false, pSrc + 2 * (x : Int), 4⟩ :: ⟨true, pDest + 2 * (x : Int), 4⟩ ::
        forPixels_accesses right pSrc pDest fuel ((x + 2) % 4294967296)
    else []

/-- The accesses of one iteration of the "lines above" and "lines below" loops. -/
def copyLine_accesses (cb : Nat) (c : RowCursor) : List Access :=
  CopyMemory_accesses c.pDest c.pSrc cb

/-- The accesses of one iteration of the "lines within the destination rectangle" loop
of the packed transforms. -/
def rectLine_accesses (left right dwWidthInPixels : Nat) (c : RowCursor) : List Access :=
  CopyMemory_accesses c.pDest c.pSrc (left * 2 % 4294967296) ++
  forPixels_accesses right c.pSrc c.pDest (right - left) left ++
  CopyMemory_accesses (c.pDest + ((right * 2 % 4294967296 : Nat) : Int))
    (c.pSrc + ((right * 2 % 4294967296 : Nat) : Int))
    ((dwWidthInPixels + 4294967296 - right) % 4294967296 * 2 % 4294967296)

/-- The accesses of one iteration of the "lines within the destination rectangle" loop
of `TransformImage_NV12`. -/
def fillLine_accesses (rcDest : D2D_RECT_U) (dwWidthInPixels : Nat) (c : RowCursor) :
    List Access :=
  CopyMemory_accesses c.pDest c.pSrc rcDest.left ++
  FillMemory_accesses (c.pDest + (rcDest.left : Int))
    ((rcDest.right + 4294967296 - rcDest.left) % 4294967296) ++
  CopyMemory_accesses (c.pDest + (rcDest.right : Int)) (c.pSrc + (rcDest.right : Int))
    ((dwWidthInPixels + 4294967296 - rcDest.right) % 4294967296)

/-- The accesses of one `for ( ; y < bound; y++) body` loop over rows: those of each
iteration, at the cursor the iteration starts from, in order. -/
def forRows_accesses (bound : Nat) (body : RowCursor → RowCursor)
    (accesses : RowCursor → List Access) : Nat → RowCursor → List Access
  | 0, _ => []
  | fuel + 1, c =>
    if c.y < bound then
      let c1 := body c
      accesses c ++
        forRows_accesses bound body accesses fuel { c1 with y := (c1.y + 1) % 4294967296 }
    else []

/-- The accesses of `TransformImage_UYVY` and `TransformImage_YUY2`, loop by loop. -/
def TransformImage_packed_accesses (andMask orBits : Nat) (rcDest : D2D_RECT_U)
    (dest : Mem) (pDest : Int) (lDestStride : Int)
    (src : Mem) (pSrc : Int) (lSrcStride : Int)
    (dwWidthInPixels dwHeightInPixels : Nat) : List Access :=
  let left := rcDest.left &&& 0xFFFFFFFE
  let right := rcDest.right &&& 0xFFFFFFFE
  let y0 := min rcDest.bottom dwHeightInPixels
  let c0 : RowCursor := { y := 0, pSrc := pSrc, pDest := pDest, dest := dest }
  let copy := copyLine src lDestStride lSrcStride (dwWidthInPixels * 2 % 4294967296)
  let rect := rectLine andMask orBits left right dwWidthInPixels src lDestStride lSrcStride
  let c1 := forRows rcDest.top copy (rcDest.top - c0.y) c0
  let c2 := forRows y0 rect (y0 - c1.y) c1
  -- Lines above the destination rectangle.
  forRows_accesses rcDest.top copy (copyLine_accesses (dwWidthInPixels * 2 % 4294967296))
    (rcDest.top - c0.y) c0 ++
  -- Lines within the destination rectangle.
  forRows_accesses y0 rect (rectLine_accesses left right dwWidthInPixels) (y0 - c1.y) c1 ++
  -- Lines below the destination rectangle.
  forRows_accesses dwHeightInPixels copy
    (copyLine_accesses (dwWidthInPixels * 2 % 4294967296)) (dwHeightInPixels - c2.y) c2

/-- The accesses of `TransformImage_NV12`, loop by loop. -/
def TransformImage_NV12_accesses (rcDest : D2D_RECT_U) (dest : Mem) (pDest : Int)
    (lDestStride : Int) (src : Mem) (pSrc : Int) (lSrcStride : Int)
    (dwWidthInPixels dwHeightInPixels : Nat) : List Access :=
  let copy := copyLine src lDestStride lSrcStride dwWidthInPixels
  let fill := fillLine rcDest dwWidthInPixels src lDestStride lSrcStride
  let cStart : RowCursor := { y := 0, pSrc := pSrc, pDest := pDest, dest := dest }
  let cY := forRows dwHeightInPixels copy dwHeightInPixels cStart
  let c0 : RowCursor := { cY with y := 0 }
  let y0 := min rcDest.bottom dwHeightInPixels
  let c1 := forRows (rcDest.top / 2) copy (rcDest.top / 2 - c0.y) c0
  let c2 := forRows (y0 / 2) fill (y0 / 2 - c1.y) c1
  -- Y plane
  forRows_accesses dwHeightInPixels copy (copyLine_accesses dwWidthInPixels)
    dwHeightInPixels cStart ++
  -- Lines above the destination rectangle.
  forRows_accesses (rcDest.top / 2) copy (copyLine_accesses dwWidthInPixels)
    (rcDest.top / 2 - c0.y) c0 ++
  -- Lines within the destination rectangle.
  forRows_accesses (y0 / 2) fill (fillLine_accesses rcDest dwWidthInPixels)
    (y0 / 2 - c1.y) c1 ++
  -- Lines below the destination rectangle.
  forRows_accesses (dwHeightInPixels / 2) copy (copyLine_accesses dwWidthInPixels)
    (dwHeightInPixels / 2 - c2.y) c2

/-- The accesses of a call through `m_pTransformFn`. -/
def TransformFn.accesses (fn : TransformFn) (rcDest : D2D_RECT_U) (dest : Mem) (pDest : Int)
    (lDestStride : Int) (src : Mem) (pSrc : Int) (lSrcStride : Int)
    (dwWidthInPixels dwHeightInPixels : Nat) : List Access :=
  match fn with
  | .YUY2 => TransformImage_packed_accesses 0x00FF00FF 0x80008000 rcDest dest pDest lDestStride
      src pSrc lSrcStride dwWidthInPixels dwHeightInPixels
  | .UYVY => TransformImage_packed_accesses 0xFF00FF00 0x00800080 rcDest dest pDest lDestStride
      src pSrc lSrcStride dwWidthInPixels dwHeightInPixels
  | .NV12 => TransformImage_NV12_accesses rcDest dest pDest lDestStride src pSrc lSrcStride
      dwWidthInPixels dwHeightInPixels

/-! ## Vocabulary of the proofs -/

/-- What the masking statement does to one byte: byte `i` of `(tmp & andMask) | orBits`
as a function of byte `i` of `tmp`. -/
def maskByte (andMask orBits : Nat) (i : Nat) (b : BYTE) : BYTE :=
  ⟨(b.val &&& (andMask / 256 ^ i % 256)) ||| (orBits / 256 ^ i % 256),
    Nat.or_lt_two_pow (n := 8) (Nat.and_lt_two_pow (n := 8) _ (Nat.mod_lt _ (by decide)))
      (Nat.mod_lt _ (by decide))⟩

/-- A loop body that handles one row: it leaves `y` alone, advances both pointers by
their strides, and rewrites exactly the `rb` bytes of the current destination row,
byte `k` becoming `F pSrc k`. -/
structure RowBody (body : RowCursor → RowCursor) (lDestStride lSrcStride : Int) (rb : Nat)
    (F : Int → Int → BYTE) : Prop where
  y_eq : ∀ c, (body c).y = c.y
  pSrc_eq : ∀ c, (body c).pSrc = c.pSrc + lSrcStride
  pDest_eq : ∀ c, (body c).pDest = c.pDest + lDestStride
  dest_eq : ∀ c a, (body c).dest a =
    if c.pDest ≤ a ∧ a < c.pDest + (rb : Int) then F c.pSrc (a - c.pDest) else c.dest a

/-- What the "lines above" and "lines below" loops put into a row. -/
def copyF (src : Mem) : Int → Int → BYTE := fun ps k => src (ps + k)

/-- What the "lines within" loop of a packed transform puts into a row: the bytes of
the pixel pairs in `[L, R)` are masked, the others copied. -/
def rectF (andMask orBits : Nat) (L R : Nat) (src : Mem) : Int → Int → BYTE := fun ps k =>
  if 2 * (L : Int) ≤ k ∧ k < 2 * (R : Int) then maskByte andMask orBits (k % 4).toNat (src (ps + k))
  else src (ps + k)

/-- What the "lines within" loop of the NV12 transform puts into a chroma row. -/
def fillF (rc : D2D_RECT_U) (src : Mem) : Int → Int → BYTE := fun ps k =>
  if (rc.left : Int) ≤ k ∧ k < (rc.right : Int) then 128 else src (ps + k)

/-- The number of image bytes in a row of a frame `w` pixels wide: two per pixel in the
packed formats, one in each plane of NV12. -/
def TransformFn.rowBytes (fn : TransformFn) (w : Nat) : Nat :=
  match fn with
  | .YUY2 => 2 * w
  | .UYVY => 2 * w
  | .NV12 => w

/-- The number of rows of a frame `h` pixels high: in NV12 the chroma plane adds `h / 2`
rows below the `h` luma rows. -/
def TransformFn.rows (fn : TransformFn) (h : Nat) : Nat :=
  match fn with
  | .YUY2 => h
  | .UYVY => h
  | .NV12 => h + h / 2

/-- Whether byte `k` of row `y` of a frame `h` pixels high holds a chroma value (U or V):
the even offsets of a UYVY row, the odd offsets of a YUY2 row, the rows of the chroma
plane of NV12. -/
def TransformFn.isChroma (fn : TransformFn) (h y k : Nat) : Bool :=
  match fn with
  | .YUY2 => k % 2 == 1
  | .UYVY => k % 2 == 0
  | .NV12 => decide (h ≤ y)

/-- An access that stays inside one row: it is at most `rb` bytes long, a read touches
only the `rb` bytes at `pSrc`, and a write touches only the `rb` bytes at `pDest`. -/
def Access.inRow (x : Access) (pSrc pDest : Int) (rb : Nat) : Prop :=
  x.cb ≤ rb ∧ ∀ a : Int, x.p ≤ a → a < x.p + (x.cb : Int) →
    if x.write then pDest ≤ a ∧ a < pDest + (rb : Int) else pSrc ≤ a ∧ a < pSrc + (rb : Int)

/-- A state of the object that some sequence of calls of the public methods produces
from the freshly constructed object.  The methods left out (the queries, and the methods
that return `E_NOTIMPL` or touch only the attribute store) assign to no data member. -/
def Reachable (s : CGrayscaleEffect) : Prop :=
  ∃ calls : List Call, runCalls calls CGrayscaleEffect.new = some s

/-! # Theorems -/

/-! ## Bitwise arithmetic on bytes of a word -/

theorem land_div_two_pow (a b n : Nat) : (a &&& b) / 2 ^ n = (a / 2 ^ n) &&& (b / 2 ^ n) := by
  apply Nat.eq_of_testBit_eq
  intro i
  simp [← Nat.shiftRight_eq_div_pow, Nat.testBit_shiftRight, Nat.testBit_and]

theorem lor_div_two_pow (a b n : Nat) : (a ||| b) / 2 ^ n = (a / 2 ^ n) ||| (b / 2 ^ n) := by
  apply Nat.eq_of_testBit_eq
  intro i
  simp [← Nat.shiftRight_eq_div_pow, Nat.testBit_shiftRight, Nat.testBit_or]

theorem land_mod_two_pow (a b n : Nat) : (a &&& b) % 2 ^ n = (a % 2 ^ n) &&& (b % 2 ^ n) := by
  apply Nat.eq_of_testBit_eq
  intro i
  simp [Nat.testBit_mod_two_pow, Nat.testBit_and]
  by_cases h : i < n <;> simp [h]

theorem lor_mod_two_pow (a b n : Nat) : (a ||| b) % 2 ^ n = (a % 2 ^ n) ||| (b % 2 ^ n) := by
  apply Nat.eq_of_testBit_eq
  intro i
  simp [Nat.testBit_mod_two_pow, Nat.testBit_or]
  by_cases h : i < n <;> simp [h]

theorem byteOf_mask (t m o i : Nat) :
    byteOf ((t &&& m) ||| o) i = maskByte m o i (byteOf t i) := by
  apply Fin.ext
  have h256 : (256 : Nat) ^ i = 2 ^ (8 * i) := by
    rw [pow_mul]; norm_num
  have h8 : (256 : Nat) = 2 ^ 8 := by norm_num
  simp only [byteOf, maskByte]
  rw [h256, lor_div_two_pow, land_div_two_pow]
  conv_lhs => rw [h8, lor_mod_two_pow, land_mod_two_pow]
  norm_num

theorem byteOf_readDWORD (m : Mem) (p : Int) :
    byteOf (readDWORD m p) 0 = m p ∧ byteOf (readDWORD m p) 1 = m (p + 1) ∧
    byteOf (readDWORD m p) 2 = m (p + 2) ∧ byteOf (readDWORD m p) 3 = m (p + 3) := by
  have h0 := (m p).isLt
  have h1 := (m (p + 1)).isLt
  have h2 := (m (p + 2)).isLt
  have h3 := (m (p + 3)).isLt
  refine ⟨?_, ?_, ?_, ?_⟩ <;> apply Fin.ext <;> simp only [byteOf, readDWORD] <;> omega


/-! ## The rows of the packed transforms -/

theorem writeDWORD_mask (dest src : Mem) (m o : Nat) (pd ps a : Int) :
    writeDWORD dest pd ((readDWORD src ps &&& m) ||| o) a =
      if pd ≤ a ∧ a < pd + 4 then maskByte m o (a - pd).toNat (src (ps + (a - pd))) else dest a := by
  obtain ⟨h0, h1, h2, h3⟩ := byteOf_readDWORD src ps
  simp only [writeDWORD, byteOf_mask]
  by_cases e0 : a = pd
  · subst e0; simp [h0]
  by_cases e1 : a = pd + 1
  · subst e1; simp [h1]
  by_cases e2 : a = pd + 2
  · subst e2; simp [h2]
  by_cases e3 : a = pd + 3
  · subst e3; simp [h3]
  have : ¬ (pd ≤ a ∧ a < pd + 4) := by omega
  simp [e0, e1, e2, e3, this]

theorem forPixels_spec (m o R : Nat) (src : Mem) (pSrc pDest : Int)
    (hR : R % 2 = 0) (hR32 : R < 4294967296) :
    ∀ (fuel x : Nat) (dest : Mem), x % 2 = 0 → x ≤ R → R ≤ x + 2 * fuel →
      ∀ a : Int, forPixels m o R src pSrc pDest fuel x dest a =
        if pDest + 2 * (x : Int) ≤ a ∧ a < pDest + 2 * (R : Int) then
          maskByte m o ((a - pDest) % 4).toNat (src (pSrc + (a - pDest)))
        else dest a := by
  intro fuel
  induction fuel with
  | zero =>
    intro x dest _ hxR hfuel a
    have : ¬ (pDest + 2 * (x : Int) ≤ a ∧ a < pDest + 2 * (R : Int)) := by omega
    simp [forPixels, this]
  | succ fuel ih =>
    intro x dest hx hxR hfuel a
    by_cases hlt : (x + 1) % 4294967296 < R
    · have hx2 : (x + 2) % 4294967296 = x + 2 := by omega
      simp only [forPixels, hlt, if_true]
      rw [hx2, ih (x + 2) _ (by omega) (by omega) (by omega) a, writeDWORD_mask]
      by_cases hin : pDest + 2 * ((x + 2 : Nat) : Int) ≤ a ∧ a < pDest + 2 * (R : Int)
      · have : pDest + 2 * (x : Int) ≤ a ∧ a < pDest + 2 * (R : Int) := by omega
        rw [if_pos hin, if_pos this]
      · rw [if_neg hin]
        by_cases hw : pDest + 2 * (x : Int) ≤ a ∧ a < pDest + 2 * (x : Int) + 4
        · have h1 : pDest + 2 * (x : Int) ≤ a ∧ a < pDest + 2 * (R : Int) := by omega
          have h2 : (a - (pDest + 2 * (x : Int))).toNat = ((a - pDest) % 4).toNat := by omega
          have h3 : pSrc + 2 * (x : Int) + (a - (pDest + 2 * (x : Int))) = pSrc + (a - pDest) := by
            ring
          rw [if_pos hw, if_pos h1, h2, h3]
        · have h1 : ¬ (pDest + 2 * (x : Int) ≤ a ∧ a < pDest + 2 * (R : Int)) := by omega
          rw [if_neg hw, if_neg h1]
    · have : ¬ (pDest + 2 * (x : Int) ≤ a ∧ a < pDest + 2 * (R : Int)) := by omega
      simp [forPixels, hlt, this]


theorem land_even_mask (x : Nat) (hx : x < 4294967296) : x &&& 0xFFFFFFFE = x - x % 2 := by
  have hm : (x &&& 0xFFFFFFFE) % 2 ^ 1 = 0 := by
    rw [land_mod_two_pow]; norm_num
  have hd : (x &&& 0xFFFFFFFE) / 2 ^ 1 = x / 2 := by
    rw [land_div_two_pow]
    have h := Nat.and_pow_two_sub_one_eq_mod (x / 2) 31
    norm_num at h ⊢
    rw [h]
    omega
  omega

/-! ## Row loops -/

/-- Rows that are a nonzero number of strides apart do not meet when the stride is at
least a row long. -/
theorem stride_far (d dS rb : Int) (hd : d ≠ 0) (h : rb ≤ |dS|) :
    rb ≤ d * dS ∨ d * dS ≤ -rb := by
  rcases lt_or_gt_of_ne hd with hneg | hpos
  · rcases abs_cases dS with ⟨he, _⟩ | ⟨he, _⟩
    · right
      have : 0 ≤ (-d - 1) * dS := mul_nonneg (by omega) (by omega)
      nlinarith
    · left
      have : 0 ≤ (-d - 1) * (-dS) := mul_nonneg (by omega) (by omega)
      nlinarith
  · rcases abs_cases dS with ⟨he, _⟩ | ⟨he, _⟩
    · left
      have : 0 ≤ (d - 1) * dS := mul_nonneg (by omega) (by omega)
      nlinarith
    · right
      have : 0 ≤ (d - 1) * (-dS) := mul_nonneg (by omega) (by omega)
      nlinarith

theorem rows_disjoint (p dS : Int) (rb : Nat) (h : (rb : Int) ≤ |dS|) (y y' : Int) (hy : y ≠ y')
    (k : Int) (hk0 : 0 ≤ k) (hk : k < rb) :
    ¬ (p + y' * dS ≤ p + y * dS + k ∧ p + y * dS + k < p + y' * dS + rb) := by
  have hfar := stride_far (y - y') dS rb (by omega) h
  have e : (y - y') * dS = y * dS - y' * dS := by ring
  rw [e] at hfar
  omega

theorem forRows_spec {body : RowCursor → RowCursor} {dS sS : Int} {rb : Nat}
    {F : Int → Int → BYTE} (hb : RowBody body dS sS rb F) (hrb : (rb : Int) ≤ |dS|)
    (bound : Nat) (hbound : bound < 4294967296) :
    ∀ (n : Nat) (c : RowCursor), c.y + n = bound →
      (forRows bound body n c).y = bound ∧
      (forRows bound body n c).pSrc = c.pSrc + (n : Int) * sS ∧
      (forRows bound body n c).pDest = c.pDest + (n : Int) * dS ∧
      (∀ j : Nat, j < n → ∀ k : Nat, k < rb →
        (forRows bound body n c).dest (c.pDest + (j : Int) * dS + (k : Int))
          = F (c.pSrc + (j : Int) * sS) (k : Int)) ∧
      (∀ a : Int, (∀ j : Nat, j < n →
          ¬ (c.pDest + (j : Int) * dS ≤ a ∧ a < c.pDest + (j : Int) * dS + (rb : Int))) →
        (forRows bound body n c).dest a = c.dest a) := by
  intro n
  induction n with
  | zero =>
    intro c hc
    refine ⟨by simpa [forRows] using hc, by simp [forRows], by simp [forRows], ?_, ?_⟩
    · intro j hj; omega
    · intro a _; simp [forRows]
  | succ n ih =>
    intro c hc
    have hlt : c.y < bound := by omega
    obtain ⟨c1, hc1⟩ : ∃ c1 : RowCursor,
        c1 = { body c with y := ((body c).y + 1) % 4294967296 } := ⟨_, rfl⟩
    have hstep : forRows bound body (n + 1) c = forRows bound body n c1 := by
      simp [forRows, hlt, hc1]
    have h1y : c1.y = c.y + 1 := by
      rw [hc1]; show ((body c).y + 1) % 4294967296 = _
      rw [hb.y_eq]; omega
    have h1s : c1.pSrc = c.pSrc + sS := by rw [hc1]; exact hb.pSrc_eq c
    have h1d : c1.pDest = c.pDest + dS := by rw [hc1]; exact hb.pDest_eq c
    have h1m : c1.dest = (body c).dest := by rw [hc1]
    obtain ⟨ihy, ihs, ihd, ih1, ih2⟩ := ih c1 (by omega)
    rw [h1s] at ihs ih1
    rw [h1d] at ihd ih1 ih2
    rw [h1m] at ih2
    rw [hstep]
    refine ⟨ihy, ?_, ?_, ?_, ?_⟩
    · rw [ihs]; push_cast; ring
    · rw [ihd]; push_cast; ring
    · intro j hj k hk
      rcases Nat.eq_zero_or_pos j with hj0 | hjpos
      · subst hj0
        rw [ih2]
        · show (body c).dest _ = _
          rw [hb.dest_eq]
          have : c.pDest ≤ c.pDest + ((0 : Nat) : Int) * dS + (k : Int) ∧
              c.pDest + ((0 : Nat) : Int) * dS + (k : Int) < c.pDest + (rb : Int) := by
            simp; omega
          rw [if_pos this]
          congr 1 <;> simp
        · intro j' _
          have := rows_disjoint c.pDest dS rb hrb 0 ((j' : Int) + 1) (by omega) k (by omega)
            (by omega)
          intro hcon
          apply this
          have e : ((j' : Int) + 1) * dS = dS + (j' : Int) * dS := by ring
          rw [e]
          simp only [Nat.cast_zero, zero_mul, add_zero] at hcon ⊢
          omega
      · obtain ⟨j', rfl⟩ : ∃ j', j = j' + 1 := ⟨j - 1, by omega⟩
        have := ih1 j' (by omega) k hk
        have e1 : c.pDest + ((j' + 1 : Nat) : Int) * dS + (k : Int)
            = c.pDest + dS + (j' : Int) * dS + (k : Int) := by push_cast; ring
        have e2 : c.pSrc + ((j' + 1 : Nat) : Int) * sS = c.pSrc + sS + (j' : Int) * sS := by
          push_cast; ring
        rw [e1, e2]
        exact this
    · intro a ha
      rw [ih2]
      · show (body c).dest a = _
        rw [hb.dest_eq]
        have h0 := ha 0 (by omega)
        simp only [Nat.cast_zero, zero_mul, add_zero] at h0
        rw [if_neg h0]
      · intro j' hj'
        have h1 := ha (j' + 1) (by omega)
        have e : ((j' + 1 : Nat) : Int) * dS = dS + (j' : Int) * dS := by push_cast; ring
        rw [e] at h1
        intro hcon
        apply h1
        omega


theorem copyLine_rowBody (src : Mem) (dS sS : Int) (cb : Nat) :
    RowBody (copyLine src dS sS cb) dS sS cb (copyF src) where
  y_eq := fun _ => rfl
  pSrc_eq := fun _ => rfl
  pDest_eq := fun _ => rfl
  dest_eq := fun _ _ => rfl

theorem rectLine_rowBody (m o L R w : Nat) (src : Mem) (dS sS : Int)
    (hL : L % 2 = 0) (hR : R % 2 = 0) (hLR : L ≤ R) (hRw : R ≤ w) (hw : 2 * w < 4294967296) :
    RowBody (rectLine m o L R w src dS sS) dS sS (2 * w) (rectF m o L R src) where
  y_eq := fun _ => rfl
  pSrc_eq := fun _ => rfl
  pDest_eq := fun _ => rfl
  dest_eq := by
    intro c a
    have e1 : L * 2 % 4294967296 = 2 * L := by omega
    have e2 : R * 2 % 4294967296 = 2 * R := by omega
    have e3 : (w + 4294967296 - R) % 4294967296 * 2 % 4294967296 = 2 * (w - R) := by omega
    show CopyMemory _ _ _ _ _ a = _
    rw [e1, e2, e3]
    simp only [CopyMemory, rectF]
    rw [forPixels_spec m o R src c.pSrc c.pDest hR (by omega) (R - L) L _ hL hLR (by omega) a]
    simp only [CopyMemory]
    by_cases h3 : c.pDest + ((2 * R : Nat) : Int) ≤ a ∧
        a < c.pDest + ((2 * R : Nat) : Int) + ((2 * (w - R) : Nat) : Int)
    · have hin : c.pDest ≤ a ∧ a < c.pDest + ((2 * w : Nat) : Int) := by omega
      have hnot : ¬ (2 * (L : Int) ≤ a - c.pDest ∧ a - c.pDest < 2 * (R : Int)) := by omega
      rw [if_pos h3, if_pos hin, if_neg hnot]
      congr 1; omega
    · rw [if_neg h3]
      by_cases h2 : c.pDest + 2 * (L : Int) ≤ a ∧ a < c.pDest + 2 * (R : Int)
      · have hin : c.pDest ≤ a ∧ a < c.pDest + ((2 * w : Nat) : Int) := by omega
        have hyes : 2 * (L : Int) ≤ a - c.pDest ∧ a - c.pDest < 2 * (R : Int) := by omega
        rw [if_pos h2, if_pos hin, if_pos hyes]
      · rw [if_neg h2]
        by_cases h1 : c.pDest ≤ a ∧ a < c.pDest + ((2 * L : Nat) : Int)
        · have hin : c.pDest ≤ a ∧ a < c.pDest + ((2 * w : Nat) : Int) := by omega
          have hnot : ¬ (2 * (L : Int) ≤ a - c.pDest ∧ a - c.pDest < 2 * (R : Int)) := by omega
          rw [if_pos h1, if_pos hin, if_neg hnot]
        · have hin : ¬ (c.pDest ≤ a ∧ a < c.pDest + ((2 * w : Nat) : Int)) := by omega
          rw [if_neg h1, if_neg hin]

theorem fillLine_rowBody (rc : D2D_RECT_U) (w : Nat) (src : Mem) (dS sS : Int)
    (hLR : rc.left ≤ rc.right) (hRw : rc.right ≤ w) (hw : w < 4294967296) :
    RowBody (fillLine rc w src dS sS) dS sS w (fillF rc src) where
  y_eq := fun _ => rfl
  pSrc_eq := fun _ => rfl
  pDest_eq := fun _ => rfl
  dest_eq := by
    intro c a
    have e2 : (rc.right + 4294967296 - rc.left) % 4294967296 = rc.right - rc.left := by omega
    have e3 : (w + 4294967296 - rc.right) % 4294967296 = w - rc.right := by omega
    show CopyMemory _ _ _ _ _ a = _
    rw [e2, e3]
    simp only [CopyMemory, FillMemory, fillF]
    by_cases h3 : c.pDest + (rc.right : Int) ≤ a ∧
        a < c.pDest + (rc.right : Int) + ((w - rc.right : Nat) : Int)
    · have hin : c.pDest ≤ a ∧ a < c.pDest + (w : Int) := by omega
      have hnot : ¬ ((rc.left : Int) ≤ a - c.pDest ∧ a - c.pDest < (rc.right : Int)) := by omega
      rw [if_pos h3, if_pos hin, if_neg hnot]
      congr 1; omega
    · rw [if_neg h3]
      by_cases h2 : c.pDest + (rc.left : Int) ≤ a ∧
          a < c.pDest + (rc.left : Int) + ((rc.right - rc.left : Nat) : Int)
      · have hin : c.pDest ≤ a ∧ a < c.pDest + (w : Int) := by omega
        have hyes : (rc.left : Int) ≤ a - c.pDest ∧ a - c.pDest < (rc.right : Int) := by omega
        rw [if_pos h2, if_pos hin, if_pos hyes]
      · rw [if_neg h2]
        by_cases h1 : c.pDest ≤ a ∧ a < c.pDest + (rc.left : Int)
        · have hin : c.pDest ≤ a ∧ a < c.pDest + (w : Int) := by omega
          have hnot : ¬ ((rc.left : Int) ≤ a - c.pDest ∧ a - c.pDest < (rc.right : Int)) := by
            omega
          rw [if_pos h1, if_pos hin, if_neg hnot]
        · have hin : ¬ (c.pDest ≤ a ∧ a < c.pDest + (w : Int)) := by omega
          rw [if_neg h1, if_neg hin]


/-- One row loop, with rows numbered from the top of the plane: the loop started at
row `c.y` handles the rows `c.y ≤ y < bound` and nothing else. -/
theorem forRows_abs {body : RowCursor → RowCursor} {dS sS : Int} {rb : Nat}
    {F : Int → Int → BYTE} (hb : RowBody body dS sS rb F) (hrb : (rb : Int) ≤ |dS|)
    (bound : Nat) (hbound : bound < 4294967296) (p0 s0 : Int) (c : RowCursor)
    (hd : c.pDest = p0 + (c.y : Int) * dS) (hs : c.pSrc = s0 + (c.y : Int) * sS) :
    (forRows bound body (bound - c.y) c).y = max c.y bound ∧
    (forRows bound body (bound - c.y) c).pDest
      = p0 + ((forRows bound body (bound - c.y) c).y : Int) * dS ∧
    (forRows bound body (bound - c.y) c).pSrc
      = s0 + ((forRows bound body (bound - c.y) c).y : Int) * sS ∧
    (∀ y : Nat, c.y ≤ y → y < bound → ∀ k : Nat, k < rb →
      (forRows bound body (bound - c.y) c).dest (p0 + (y : Int) * dS + (k : Int))
        = F (s0 + (y : Int) * sS) (k : Int)) ∧
    (∀ a : Int, (∀ y : Nat, c.y ≤ y → y < bound →
        ¬ (p0 + (y : Int) * dS ≤ a ∧ a < p0 + (y : Int) * dS + (rb : Int))) →
      (forRows bound body (bound - c.y) c).dest a = c.dest a) := by
  rcases Nat.lt_or_ge bound c.y with hgt | hle
  · have h0 : bound - c.y = 0 := by omega
    rw [h0]
    refine ⟨?_, hd, hs, ?_, ?_⟩
    · show c.y = _
      omega
    · intro y h1 h2; omega
    · intro a _; rfl
  · obtain ⟨hy, hps, hpd, h1, h2⟩ := forRows_spec hb hrb bound hbound (bound - c.y) c (by omega)
    refine ⟨by omega, ?_, ?_, ?_, ?_⟩
    · rw [hpd, hy, hd]
      have : ((bound - c.y : Nat) : Int) = (bound : Int) - (c.y : Int) := by omega
      rw [this]; ring
    · rw [hps, hy, hs]
      have : ((bound - c.y : Nat) : Int) = (bound : Int) - (c.y : Int) := by omega
      rw [this]; ring
    · intro y hy1 hy2 k hk
      have := h1 (y - c.y) (by omega) k hk
      have ec : ((y - c.y : Nat) : Int) = (y : Int) - (c.y : Int) := by omega
      rw [ec, hd, hs] at this
      have e1 : p0 + (c.y : Int) * dS + ((y : Int) - (c.y : Int)) * dS + (k : Int)
          = p0 + (y : Int) * dS + (k : Int) := by ring
      have e2 : s0 + (c.y : Int) * sS + ((y : Int) - (c.y : Int)) * sS = s0 + (y : Int) * sS := by
        ring
      rw [e1, e2] at this
      exact this
    · intro a ha
      apply h2
      intro j hj
      have := ha (c.y + j) (by omega) (by omega)
      have e1 : p0 + ((c.y + j : Nat) : Int) * dS = c.pDest + (j : Int) * dS := by
        rw [hd]; push_cast; ring
      rw [e1] at this
      exact this

/-- The three consecutive row loops of a transform ("above", "within", "below"):
rows `t ≤ y < b` get the "within" treatment `FB`, every other row below `H` gets `FA`,
and no address outside the `H` rows of `rb` bytes is written. -/
theorem three_loops {bodyA bodyB : RowCursor → RowCursor} {dS sS : Int} {rb : Nat}
    {FA FB : Int → Int → BYTE} (hA : RowBody bodyA dS sS rb FA)
    (hB : RowBody bodyB dS sS rb FB) (hrb : (rb : Int) ≤ |dS|)
    (t b H : Nat) (hH : H < 4294967296) (ht : t ≤ H) (hbH : b ≤ H)
    (c0 : RowCursor) (hc0 : c0.y = 0) :
    (∀ y : Nat, y < H → ∀ k : Nat, k < rb →
      (forRows H bodyA (H - (forRows b bodyB (b - (forRows t bodyA (t - c0.y) c0).y)
          (forRows t bodyA (t - c0.y) c0)).y)
        (forRows b bodyB (b - (forRows t bodyA (t - c0.y) c0).y)
          (forRows t bodyA (t - c0.y) c0))).dest (c0.pDest + (y : Int) * dS + (k : Int))
        = if t ≤ y ∧ y < b then FB (c0.pSrc + (y : Int) * sS) (k : Int)
          else FA (c0.pSrc + (y : Int) * sS) (k : Int)) ∧
    (∀ a : Int, (∀ y : Nat, y < H →
        ¬ (c0.pDest + (y : Int) * dS ≤ a ∧ a < c0.pDest + (y : Int) * dS + (rb : Int))) →
      (forRows H bodyA (H - (forRows b bodyB (b - (forRows t bodyA (t - c0.y) c0).y)
          (forRows t bodyA (t - c0.y) c0)).y)
        (forRows b bodyB (b - (forRows t bodyA (t - c0.y) c0).y)
          (forRows t bodyA (t - c0.y) c0))).dest a = c0.dest a) := by
  obtain ⟨y1, d1, s1, i1, o1⟩ := forRows_abs hA hrb t (by omega) c0.pDest c0.pSrc c0
    (by rw [hc0]; simp) (by rw [hc0]; simp)
  generalize forRows t bodyA (t - c0.y) c0 = c1 at y1 d1 s1 i1 o1 ⊢
  obtain ⟨y2, d2, s2, i2, o2⟩ := forRows_abs hB hrb b (by omega) c0.pDest c0.pSrc c1 d1 s1
  generalize forRows b bodyB (b - c1.y) c1 = c2 at y2 d2 s2 i2 o2 ⊢
  obtain ⟨_, _, _, i3, o3⟩ := forRows_abs hA hrb H hH c0.pDest c0.pSrc c2 d2 s2
  generalize forRows H bodyA (H - c2.y) c2 = c3 at i3 o3 ⊢
  have hy1 : c1.y = t := by omega
  have hy2 : c2.y = max t b := by omega
  constructor
  · intro y hy k hk
    by_cases h3 : c2.y ≤ y
    · rw [i3 y h3 hy k hk, if_neg (by omega)]
    · rw [o3]
      · by_cases h2 : c1.y ≤ y
        · rw [i2 y h2 (by omega) k hk, if_pos (by omega)]
        · rw [o2]
          · rw [i1 y (by omega) (by omega) k hk, if_neg (by omega)]
          · intro y' hy1' _
            exact rows_disjoint c0.pDest dS rb hrb y y' (by omega) k (by omega) (by omega)
      · intro y' hy2' _
        exact rows_disjoint c0.pDest dS rb hrb y y' (by omega) k (by omega) (by omega)
  · intro a ha
    rw [o3, o2, o1]
    · intro y _ hy; exact ha y (by omega)
    · intro y _ hy; exact ha y (by omega)
    · intro y _ hy; exact ha y (by omega)


/-! ## What the transforms compute -/

/-- The packed transforms, byte by byte: inside the rows `top ≤ y < bottom` the bytes at
offsets `2L ≤ k < 2R` (`L`, `R` the even roundings of `left`, `right`) are masked, every
other byte of the image is the source byte, and nothing outside the image rows is
written. -/
theorem TransformImage_packed_spec (m o : Nat) (rc : D2D_RECT_U) (dest : Mem) (pDest dS : Int)
    (src : Mem) (pSrc sS : Int) (w h : Nat)
    (hw : 2 * w < 4294967296) (hh : h < 4294967296) (hstride : ((2 * w : Nat) : Int) ≤ |dS|)
    (hLR : rc.left ≤ rc.right) (hRw : rc.right ≤ w) (ht : rc.top ≤ h) :
    (∀ y : Nat, y < h → ∀ k : Nat, k < 2 * w →
      TransformImage_packed m o rc dest pDest dS src pSrc sS w h (pDest + (y : Int) * dS + (k : Int))
        = if rc.top ≤ y ∧ y < rc.bottom ∧ 2 * (rc.left - rc.left % 2) ≤ k ∧
              k < 2 * (rc.right - rc.right % 2)
          then maskByte m o (k % 4) (src (pSrc + (y : Int) * sS + (k : Int)))
          else src (pSrc + (y : Int) * sS + (k : Int))) ∧
    (∀ a : Int, (∀ y : Nat, y < h →
        ¬ (pDest + (y : Int) * dS ≤ a ∧ a < pDest + (y : Int) * dS + ((2 * w : Nat) : Int))) →
      TransformImage_packed m o rc dest pDest dS src pSrc sS w h a = dest a) := by
  have eL : rc.left &&& 0xFFFFFFFE = rc.left - rc.left % 2 := land_even_mask _ (by omega)
  have eR : rc.right &&& 0xFFFFFFFE = rc.right - rc.right % 2 := land_even_mask _ (by omega)
  have ew : w * 2 % 4294967296 = 2 * w := by omega
  have key := three_loops (copyLine_rowBody src dS sS (2 * w))
    (rectLine_rowBody m o (rc.left - rc.left % 2) (rc.right - rc.right % 2) w src dS sS
      (by omega) (by omega) (by omega) (by omega) hw)
    hstride rc.top (min rc.bottom h) h hh ht (Nat.min_le_right _ _)
    { y := 0, pSrc := pSrc, pDest := pDest, dest := dest } rfl
  unfold TransformImage_packed
  rw [eL, eR, ew]
  refine ⟨?_, key.2⟩
  intro y hy k hk
  refine (key.1 y hy k hk).trans ?_
  simp only [rectF, copyF]
  have ek : (((k : Int) % 4).toNat) = k % 4 := by omega
  rw [ek]
  by_cases hrow : rc.top ≤ y ∧ y < min rc.bottom h
  · rw [if_pos hrow]
    by_cases hcol : 2 * ((rc.left - rc.left % 2 : Nat) : Int) ≤ (k : Int) ∧
        (k : Int) < 2 * ((rc.right - rc.right % 2 : Nat) : Int)
    · rw [if_pos hcol, if_pos (by omega)]
    · rw [if_neg hcol, if_neg (by omega)]
  · rw [if_neg hrow, if_neg (by omega)]

theorem maskByte_UYVY (b : BYTE) :
    maskByte 0xFF00FF00 0x00800080 0 b = 128 ∧ maskByte 0xFF00FF00 0x00800080 1 b = b ∧
    maskByte 0xFF00FF00 0x00800080 2 b = 128 ∧ maskByte 0xFF00FF00 0x00800080 3 b = b := by
  have h := Nat.and_pow_two_sub_one_eq_mod b.val 8
  have hb := b.isLt
  norm_num at h
  refine ⟨?_, ?_, ?_, ?_⟩ <;> apply Fin.ext <;> simp [maskByte, h]

theorem maskByte_YUY2 (b : BYTE) :
    maskByte 0x00FF00FF 0x80008000 0 b = b ∧ maskByte 0x00FF00FF 0x80008000 1 b = 128 ∧
    maskByte 0x00FF00FF 0x80008000 2 b = b ∧ maskByte 0x00FF00FF 0x80008000 3 b = 128 := by
  have h := Nat.and_pow_two_sub_one_eq_mod b.val 8
  have hb := b.isLt
  norm_num at h
  refine ⟨?_, ?_, ?_, ?_⟩ <;> apply Fin.ext <;> simp [maskByte, h]


/-- The NV12 transform, byte by byte: the `h` luma rows are the source rows; in the
chroma plane (the `h / 2` rows that follow) the rows `top / 2 ≤ r < min bottom h / 2`
have the columns `left ≤ k < right` set to 128 and every other chroma byte is the source
byte; nothing outside the `h + h / 2` rows of `w` bytes is written. -/
theorem TransformImage_NV12_spec (rc : D2D_RECT_U) (dest : Mem) (pDest dS : Int)
    (src : Mem) (pSrc sS : Int) (w h : Nat)
    (hw : w < 4294967296) (hh : h < 4294967296) (hstride : (w : Int) ≤ |dS|)
    (hLR : rc.left ≤ rc.right) (hRw : rc.right ≤ w) (ht : rc.top ≤ h) :
    (∀ y : Nat, y < h → ∀ k : Nat, k < w →
      TransformImage_NV12 rc dest pDest dS src pSrc sS w h (pDest + (y : Int) * dS + (k : Int))
        = src (pSrc + (y : Int) * sS + (k : Int))) ∧
    (∀ r : Nat, r < h / 2 → ∀ k : Nat, k < w →
      TransformImage_NV12 rc dest pDest dS src pSrc sS w h
          (pDest + ((h + r : Nat) : Int) * dS + (k : Int))
        = if rc.top / 2 ≤ r ∧ r < min rc.bottom h / 2 ∧ rc.left ≤ k ∧ k < rc.right then 128
          else src (pSrc + ((h + r : Nat) : Int) * sS + (k : Int))) ∧
    (∀ a : Int, (∀ y : Nat, y < h + h / 2 →
        ¬ (pDest + (y : Int) * dS ≤ a ∧ a < pDest + (y : Int) * dS + (w : Int))) →
      TransformImage_NV12 rc dest pDest dS src pSrc sS w h a = dest a) := by
  obtain ⟨_, hYs, hYd, hY1, hY2⟩ := forRows_spec (copyLine_rowBody src dS sS w) hstride h hh h
    { y := 0, pSrc := pSrc, pDest := pDest, dest := dest } (by simp)
  unfold TransformImage_NV12
  generalize forRows h (copyLine src dS sS w) h
    { y := 0, pSrc := pSrc, pDest := pDest, dest := dest } = cY at hYs hYd hY1 hY2 ⊢
  obtain ⟨c0, hc0⟩ : ∃ c0 : RowCursor, c0 = { cY with y := 0 } := ⟨_, rfl⟩
  rw [← hc0]
  have key := three_loops (copyLine_rowBody src dS sS w)
    (fillLine_rowBody rc w src dS sS hLR hRw hw) hstride (rc.top / 2) (min rc.bottom h / 2)
    (h / 2) (by omega) (by omega) (by omega) c0 (by rw [hc0])
  have hpd : c0.pDest = pDest + (h : Int) * dS := by rw [hc0]; exact hYd
  have hps : c0.pSrc = pSrc + (h : Int) * sS := by rw [hc0]; exact hYs
  have hdm : c0.dest = cY.dest := by rw [hc0]
  rw [hpd, hps, hdm] at key
  refine ⟨?_, ?_, ?_⟩
  · intro y hy k hk
    refine (key.2 _ ?_).trans (hY1 y hy k hk)
    intro r _
    have := rows_disjoint pDest dS w hstride y ((h : Int) + (r : Int)) (by omega) k (by omega)
      (by omega)
    have e : ((h : Int) + (r : Int)) * dS = (h : Int) * dS + (r : Int) * dS := by ring
    rw [e] at this
    intro hcon
    apply this
    omega
  · intro r hr k hk
    have e1 : pDest + ((h + r : Nat) : Int) * dS + (k : Int)
        = pDest + (h : Int) * dS + (r : Int) * dS + (k : Int) := by push_cast; ring
    have e2 : pSrc + ((h + r : Nat) : Int) * sS = pSrc + (h : Int) * sS + (r : Int) * sS := by
      push_cast; ring
    rw [e1, e2]
    refine (key.1 r hr k hk).trans ?_
    simp only [fillF, copyF]
    by_cases hrow : rc.top / 2 ≤ r ∧ r < min rc.bottom h / 2
    · rw [if_pos hrow]
      by_cases hcol : (rc.left : Int) ≤ (k : Int) ∧ (k : Int) < (rc.right : Int)
      · rw [if_pos hcol, if_pos (by omega)]
      · rw [if_neg hcol, if_neg (by omega)]
    · rw [if_neg hrow, if_neg (by omega)]
  · intro a ha
    refine (key.2 a ?_).trans (hY2 a ?_)
    · intro r hr
      have := ha (h + r) (by omega)
      have e : ((h + r : Nat) : Int) * dS = (h : Int) * dS + (r : Int) * dS := by
        push_cast; ring
      rw [e] at this
      intro hcon
      apply this
      omega
    · intro y hy
      have := ha y (by omega)
      simpa using this


/-! ## The claims about the packed transforms -/

/-- C2: `TransformImage_UYVY`, for a rectangle with `top ≤ height` and
`left ≤ right ≤ width`: in every row `top ≤ y < min bottom height`, for every even `x`
with `L ≤ x < R` (`L`, `R` the even roundings of `left`, `right`), bytes 0 and 2 of the
group at offset `2x` are 0x80 and bytes 1 and 3 are the source bytes; every other byte
among the first `2 * width` bytes of every row is the source byte. -/
theorem TransformImage_UYVY_bytes (rc : D2D_RECT_U) (dest : Mem) (pDest dS : Int)
    (src : Mem) (pSrc sS : Int) (w h : Nat)
    (hh : h < 4294967296) (hLONG : |dS| ≤ 2147483648) (hstride : ((2 * w : Nat) : Int) ≤ |dS|)
    (hLR : rc.left ≤ rc.right) (hRw : rc.right ≤ w) (ht : rc.top ≤ h) :
    (∀ y x : Nat, rc.top ≤ y → y < min rc.bottom h → x % 2 = 0 →
      rc.left - rc.left % 2 ≤ x → x < rc.right - rc.right % 2 →
      TransformImage_UYVY rc dest pDest dS src pSrc sS w h
          (pDest + (y : Int) * dS + ((2 * x : Nat) : Int)) = 128 ∧
      TransformImage_UYVY rc dest pDest dS src pSrc sS w h
          (pDest + (y : Int) * dS + ((2 * x + 1 : Nat) : Int))
        = src (pSrc + (y : Int) * sS + ((2 * x + 1 : Nat) : Int)) ∧
      TransformImage_UYVY rc dest pDest dS src pSrc sS w h
          (pDest + (y : Int) * dS + ((2 * x + 2 : Nat) : Int)) = 128 ∧
      TransformImage_UYVY rc dest pDest dS src pSrc sS w h
          (pDest + (y : Int) * dS + ((2 * x + 3 : Nat) : Int))
        = src (pSrc + (y : Int) * sS + ((2 * x + 3 : Nat) : Int))) ∧
    (∀ y k : Nat, y < h → k < 2 * w →
      ¬ (rc.top ≤ y ∧ y < min rc.bottom h ∧ 2 * (rc.left - rc.left % 2) ≤ k ∧
          k < 2 * (rc.right - rc.right % 2)) →
      TransformImage_UYVY rc dest pDest dS src pSrc sS w h (pDest + (y : Int) * dS + (k : Int))
        = src (pSrc + (y : Int) * sS + (k : Int))) := by
  have hw : 2 * w < 4294967296 := by omega
  have key := (TransformImage_packed_spec 0xFF00FF00 0x00800080 rc dest pDest dS src pSrc sS w h
    hw hh hstride hLR hRw ht).1
  unfold TransformImage_UYVY
  constructor
  · intro y x hy1 hy2 hx hL hR
    have hin : ∀ k : Nat, 2 * x ≤ k → k < 2 * x + 4 →
        (rc.top ≤ y ∧ y < rc.bottom ∧ 2 * (rc.left - rc.left % 2) ≤ k ∧
          k < 2 * (rc.right - rc.right % 2)) := by
      intro k h1 h2; omega
    have e0 : (2 * x) % 4 = 0 := by omega
    have e1 : (2 * x + 1) % 4 = 1 := by omega
    have e2 : (2 * x + 2) % 4 = 2 := by omega
    have e3 : (2 * x + 3) % 4 = 3 := by omega
    rw [key y (by omega) (2 * x) (by omega), key y (by omega) (2 * x + 1) (by omega),
      key y (by omega) (2 * x + 2) (by omega), key y (by omega) (2 * x + 3) (by omega),
      if_pos (hin _ (by omega) (by omega)), if_pos (hin _ (by omega) (by omega)),
      if_pos (hin _ (by omega) (by omega)), if_pos (hin _ (by omega) (by omega)), e0, e1, e2, e3]
    exact ⟨(maskByte_UYVY _).1, (maskByte_UYVY _).2.1, (maskByte_UYVY _).2.2.1,
      (maskByte_UYVY _).2.2.2⟩
  · intro y k hy hk hnot
    rw [key y hy k hk, if_neg (by omega)]

theorem TransformImage_UYVY_bytes_witness :
    TransformImage_UYVY ⟨1, 0, 3, 2⟩ (fun _ => 0) 0 8 (fun _ => 7) 0 8 4 2 (0 + ((1 : Nat) : Int) * 8 + ((2 * 0 : Nat) : Int)) = 128 :=
  ((TransformImage_UYVY_bytes ⟨1, 0, 3, 2⟩ (fun _ => 0) 0 8 (fun _ => 7) 0 8 4 2
    (by decide) (by decide) (by decide) (by decide) (by decide) (by decide)).1 1 0
    (by decide) (by decide) (by decide) (by decide) (by decide)).1


/-- C3: `TransformImage_YUY2`, for a rectangle with `top ≤ height` and
`left ≤ right ≤ width`: in every row `top ≤ y < min bottom height`, for every even `x`
with `L ≤ x < R` (`L`, `R` the even roundings of `left`, `right`), bytes 1 and 3 of the
group at offset `2x` are 0x80 and bytes 0 and 2 are the source bytes; every other byte
among the first `2 * width` bytes of every row is the source byte. -/
theorem TransformImage_YUY2_bytes (rc : D2D_RECT_U) (dest : Mem) (pDest dS : Int)
    (src : Mem) (pSrc sS : Int) (w h : Nat)
    (hh : h < 4294967296) (hLONG : |dS| ≤ 2147483648) (hstride : ((2 * w : Nat) : Int) ≤ |dS|)
    (hLR : rc.left ≤ rc.right) (hRw : rc.right ≤ w) (ht : rc.top ≤ h) :
    (∀ y x : Nat, rc.top ≤ y → y < min rc.bottom h → x % 2 = 0 →
      rc.left - rc.left % 2 ≤ x → x < rc.right - rc.right % 2 →
      TransformImage_YUY2 rc dest pDest dS src pSrc sS w h
          (pDest + (y : Int) * dS + ((2 * x : Nat) : Int))
        = src (pSrc + (y : Int) * sS + ((2 * x : Nat) : Int)) ∧
      TransformImage_YUY2 rc dest pDest dS src pSrc sS w h
          (pDest + (y : Int) * dS + ((2 * x + 1 : Nat) : Int)) = 128 ∧
      TransformImage_YUY2 rc dest pDest dS src pSrc sS w h
          (pDest + (y : Int) * dS + ((2 * x + 2 : Nat) : Int))
        = src (pSrc + (y : Int) * sS + ((2 * x + 2 : Nat) : Int)) ∧
      TransformImage_YUY2 rc dest pDest dS src pSrc sS w h
          (pDest + (y : Int) * dS + ((2 * x + 3 : Nat) : Int)) = 128) ∧
    (∀ y k : Nat, y < h → k < 2 * w →
      ¬ (rc.top ≤ y ∧ y < min rc.bottom h ∧ 2 * (rc.left - rc.left % 2) ≤ k ∧
          k < 2 * (rc.right - rc.right % 2)) →
      TransformImage_YUY2 rc dest pDest dS src pSrc sS w h (pDest + (y : Int) * dS + (k : Int))
        = src (pSrc + (y : Int) * sS + (k : Int))) := by
  have hw : 2 * w < 4294967296 := by omega
  have key := (TransformImage_packed_spec 0x00FF00FF 0x80008000 rc dest pDest dS src pSrc sS w h
    hw hh hstride hLR hRw ht).1
  unfold TransformImage_YUY2
  constructor
  · intro y x hy1 hy2 hx hL hR
    have hin : ∀ k : Nat, 2 * x ≤ k → k < 2 * x + 4 →
        (rc.top ≤ y ∧ y < rc.bottom ∧ 2 * (rc.left - rc.left % 2) ≤ k ∧
          k < 2 * (rc.right - rc.right % 2)) := by
      intro k h1 h2; omega
    have e0 : (2 * x) % 4 = 0 := by omega
    have e1 : (2 * x + 1) % 4 = 1 := by omega
    have e2 : (2 * x + 2) % 4 = 2 := by omega
    have e3 : (2 * x + 3) % 4 = 3 := by omega
    rw [key y (by omega) (2 * x) (by omega), key y (by omega) (2 * x + 1) (by omega),
      key y (by omega) (2 * x + 2) (by omega), key y (by omega) (2 * x + 3) (by omega),
      if_pos (hin _ (by omega) (by omega)), if_pos (hin _ (by omega) (by omega)),
      if_pos (hin _ (by omega) (by omega)), if_pos (hin _ (by omega) (by omega)), e0, e1, e2, e3]
    exact ⟨(maskByte_YUY2 _).1, (maskByte_YUY2 _).2.1, (maskByte_YUY2 _).2.2.1,
      (maskByte_YUY2 _).2.2.2⟩
  · intro y k hy hk hnot
    rw [key y hy k hk, if_neg (by omega)]

theorem TransformImage_YUY2_bytes_witness :
    TransformImage_YUY2 ⟨1, 0, 3, 2⟩ (fun _ => 0) 0 8 (fun _ => 7) 0 8 4 2
      (0 + ((1 : Nat) : Int) * 8 + ((2 * 0 + 1 : Nat) : Int)) = 128 :=
  ((TransformImage_YUY2_bytes ⟨1, 0, 3, 2⟩ (fun _ => 0) 0 8 (fun _ => 7) 0 8 4 2
    (by decide) (by decide) (by decide) (by decide) (by decide) (by decide)).1 1 0
    (by decide) (by decide) (by decide) (by decide) (by decide)).2.1

/-- The masked bytes of a packed row in terms of the parity of the offset, UYVY. -/
theorem maskByte_UYVY_parity (k : Nat) (b : BYTE) :
    maskByte 0xFF00FF00 0x00800080 (k % 4) b = if k % 2 = 0 then 128 else b := by
  have h4 : k % 4 = 0 ∨ k % 4 = 1 ∨ k % 4 = 2 ∨ k % 4 = 3 := by omega
  obtain ⟨m0, m1, m2, m3⟩ := maskByte_UYVY b
  rcases h4 with e | e | e | e <;> rw [e]
  · rw [m0, if_pos (by omega)]
  · rw [m1, if_neg (by omega)]
  · rw [m2, if_pos (by omega)]
  · rw [m3, if_neg (by omega)]

/-- The masked bytes of a packed row in terms of the parity of the offset, YUY2. -/
theorem maskByte_YUY2_parity (k : Nat) (b : BYTE) :
    maskByte 0x00FF00FF 0x80008000 (k % 4) b = if k % 2 = 1 then 128 else b := by
  have h4 : k % 4 = 0 ∨ k % 4 = 1 ∨ k % 4 = 2 ∨ k % 4 = 3 := by omega
  obtain ⟨m0, m1, m2, m3⟩ := maskByte_YUY2 b
  rcases h4 with e | e | e | e <;> rw [e]
  · rw [m0, if_neg (by omega)]
  · rw [m1, if_pos (by omega)]
  · rw [m2, if_neg (by omega)]
  · rw [m3, if_pos (by omega)]

/-- UYVY byte by byte, in terms of the parity of the offset in the row. -/
theorem TransformImage_UYVY_spec (rc : D2D_RECT_U) (dest : Mem) (pDest dS : Int)
    (src : Mem) (pSrc sS : Int) (w h : Nat)
    (hw : 2 * w < 4294967296) (hh : h < 4294967296) (hstride : ((2 * w : Nat) : Int) ≤ |dS|)
    (hLR : rc.left ≤ rc.right) (hRw : rc.right ≤ w) (ht : rc.top ≤ h)
    (y : Nat) (hy : y < h) (k : Nat) (hk : k < 2 * w) :
    TransformImage_UYVY rc dest pDest dS src pSrc sS w h (pDest + (y : Int) * dS + (k : Int))
      = if rc.top ≤ y ∧ y < rc.bottom ∧ 2 * (rc.left - rc.left % 2) ≤ k ∧
            k < 2 * (rc.right - rc.right % 2) ∧ k % 2 = 0
        then 128 else src (pSrc + (y : Int) * sS + (k : Int)) := by
  unfold TransformImage_UYVY
  rw [(TransformImage_packed_spec 0xFF00FF00 0x00800080 rc dest pDest dS src pSrc sS w h
    hw hh hstride hLR hRw ht).1 y hy k hk, maskByte_UYVY_parity]
  by_cases hc : rc.top ≤ y ∧ y < rc.bottom ∧ 2 * (rc.left - rc.left % 2) ≤ k ∧
      k < 2 * (rc.right - rc.right % 2)
  · rw [if_pos hc]
    by_cases hp : k % 2 = 0
    · rw [if_pos hp, if_pos ⟨hc.1, hc.2.1, hc.2.2.1, hc.2.2.2, hp⟩]
    · rw [if_neg hp, if_neg (fun hcon => hp hcon.2.2.2.2)]
  · rw [if_neg hc, if_neg (fun hcon => hc ⟨hcon.1, hcon.2.1, hcon.2.2.1, hcon.2.2.2.1⟩)]

/-- YUY2 byte by byte, in terms of the parity of the offset in the row. -/
theorem TransformImage_YUY2_spec (rc : D2D_RECT_U) (dest : Mem) (pDest dS : Int)
    (src : Mem) (pSrc sS : Int) (w h : Nat)
    (hw : 2 * w < 4294967296) (hh : h < 4294967296) (hstride : ((2 * w : Nat) : Int) ≤ |dS|)
    (hLR : rc.left ≤ rc.right) (hRw : rc.right ≤ w) (ht : rc.top ≤ h)
    (y : Nat) (hy : y < h) (k : Nat) (hk : k < 2 * w) :
    TransformImage_YUY2 rc dest pDest dS src pSrc sS w h (pDest + (y : Int) * dS + (k : Int))
      = if rc.top ≤ y ∧ y < rc.bottom ∧ 2 * (rc.left - rc.left % 2) ≤ k ∧
            k < 2 * (rc.right - rc.right % 2) ∧ k % 2 = 1
        then 128 else src (pSrc + (y : Int) * sS + (k : Int)) := by
  unfold TransformImage_YUY2
  rw [(TransformImage_packed_spec 0x00FF00FF 0x80008000 rc dest pDest dS src pSrc sS w h
    hw hh hstride hLR hRw ht).1 y hy k hk, maskByte_YUY2_parity]
  by_cases hc : rc.top ≤ y ∧ y < rc.bottom ∧ 2 * (rc.left - rc.left % 2) ≤ k ∧
      k < 2 * (rc.right - rc.right % 2)
  · rw [if_pos hc]
    by_cases hp : k % 2 = 1
    · rw [if_pos hp, if_pos ⟨hc.1, hc.2.1, hc.2.2.1, hc.2.2.2, hp⟩]
    · rw [if_neg hp, if_neg (fun hcon => hp hcon.2.2.2.2)]
  · rw [if_neg hc, if_neg (fun hcon => hc ⟨hcon.1, hcon.2.1, hcon.2.2.1, hcon.2.2.2.1⟩)]

/-- C1: with the full-frame rectangle `(0, 0, width, height)` and an even width, each
of the three transforms leaves every luma byte equal to the source byte and makes every
chroma byte 0x80.  In a UYVY row the chroma bytes are the even offsets and the luma
bytes the odd ones; in a YUY2 row it is the other way round; in NV12 the luma plane is
the first `height` rows and the chroma plane the `height / 2` rows after it. -/
theorem full_frame_grayscale (dest : Mem) (pDest dS : Int) (src : Mem) (pSrc sS : Int)
    (w h : Nat) (hwe : w % 2 = 0) (hw : w < 4294967296) (hh : h < 4294967296)
    (hLONG : |dS| ≤ 2147483648) :
    (((2 * w : Nat) : Int) ≤ |dS| → ∀ y k : Nat, y < h → k < 2 * w →
      TransformImage_UYVY ⟨0, 0, w, h⟩ dest pDest dS src pSrc sS w h
          (pDest + (y : Int) * dS + (k : Int))
        = if k % 2 = 0 then 128 else src (pSrc + (y : Int) * sS + (k : Int))) ∧
    (((2 * w : Nat) : Int) ≤ |dS| → ∀ y k : Nat, y < h → k < 2 * w →
      TransformImage_YUY2 ⟨0, 0, w, h⟩ dest pDest dS src pSrc sS w h
          (pDest + (y : Int) * dS + (k : Int))
        = if k % 2 = 1 then 128 else src (pSrc + (y : Int) * sS + (k : Int))) ∧
    ((w : Int) ≤ |dS| →
      (∀ y k : Nat, y < h → k < w →
        TransformImage_NV12 ⟨0, 0, w, h⟩ dest pDest dS src pSrc sS w h
            (pDest + (y : Int) * dS + (k : Int))
          = src (pSrc + (y : Int) * sS + (k : Int))) ∧
      (∀ r k : Nat, r < h / 2 → k < w →
        TransformImage_NV12 ⟨0, 0, w, h⟩ dest pDest dS src pSrc sS w h
            (pDest + ((h + r : Nat) : Int) * dS + (k : Int)) = 128)) := by
  refine ⟨?_, ?_, ?_⟩
  · intro hs y k hy hk
    rw [TransformImage_UYVY_spec ⟨0, 0, w, h⟩ dest pDest dS src pSrc sS w h (by omega) hh hs
      (Nat.zero_le _) (Nat.le_refl _) (Nat.zero_le _) y hy k hk]
    by_cases hp : k % 2 = 0
    · rw [if_pos hp, if_pos (by simp only []; omega)]
    · rw [if_neg hp, if_neg (by simp only []; omega)]
  · intro hs y k hy hk
    rw [TransformImage_YUY2_spec ⟨0, 0, w, h⟩ dest pDest dS src pSrc sS w h (by omega) hh hs
      (Nat.zero_le _) (Nat.le_refl _) (Nat.zero_le _) y hy k hk]
    by_cases hp : k % 2 = 1
    · rw [if_pos hp, if_pos (by simp only []; omega)]
    · rw [if_neg hp, if_neg (by simp only []; omega)]
  · intro hs
    obtain ⟨hl, hc, _⟩ := TransformImage_NV12_spec ⟨0, 0, w, h⟩ dest pDest dS src pSrc sS w h
      hw hh hs (Nat.zero_le _) (Nat.le_refl _) (Nat.zero_le _)
    refine ⟨fun y k hy hk => hl y hy k hk, ?_⟩
    intro r k hr hk
    rw [hc r hr k hk, if_pos (by simp only [Nat.min_self]; omega)]

theorem full_frame_grayscale_witness :
    TransformImage_NV12 ⟨0, 0, 4, 2⟩ (fun _ => 0) 0 4 (fun _ => 7) 0 4 4 2
      (0 + ((2 + 0 : Nat) : Int) * 4 + ((1 : Nat) : Int)) = 128 :=
  ((full_frame_grayscale (fun _ => 0) 0 4 (fun _ => 7) 0 4 4 2 (by decide) (by decide)
    (by decide) (by decide)).2.2 (by decide)).2 0 1 (by decide) (by decide)


/-! ## NV12 -/

/-- C4 as stated fails: frame 2 x 2, rectangle `(0, 0, 2, 1)`.  The claim puts chroma
row 0 in the filled range (`0 / 2 ≤ 0 < ceil (1 / 2) = 1`), the code fills the rows
below `min bottom height / 2 = 0`, that is none, and copies the row. -/
theorem TransformImage_NV12_ceil_counterexample :
    ¬ (∀ r k : Nat, r < 2 / 2 → 0 / 2 ≤ r → r < (1 + 1) / 2 → 0 ≤ k → k < 2 →
        TransformImage_NV12 ⟨0, 0, 2, 1⟩ (fun _ => 0) 0 2 (fun _ => 7) 0 2 2 2
          (0 + ((2 + r : Nat) : Int) * 2 + (k : Int)) = 128) := by
  intro hall
  have h := hall 0 0 (by decide) (by decide) (by decide) (by decide) (by decide)
  revert h
  decide

/-- C4, amended: `TransformImage_NV12`, for a rectangle inside the frame: all `height`
luma rows equal the source; in the chroma plane (`height / 2` rows) every row `r` with
`top / 2 ≤ r < bottom / 2` (both rounded down) has the columns `[left, right)` equal to
0x80 and the other columns equal to the source, and every other chroma row equals the
source row. -/
theorem TransformImage_NV12_bytes (rc : D2D_RECT_U) (dest : Mem) (pDest dS : Int)
    (src : Mem) (pSrc sS : Int) (w h : Nat)
    (hw : w < 4294967296) (hh : h < 4294967296) (hstride : (w : Int) ≤ |dS|)
    (hLR : rc.left ≤ rc.right) (hRw : rc.right ≤ w) (hTB : rc.top ≤ rc.bottom)
    (hBh : rc.bottom ≤ h) :
    (∀ y k : Nat, y < h → k < w →
      TransformImage_NV12 rc dest pDest dS src pSrc sS w h (pDest + (y : Int) * dS + (k : Int))
        = src (pSrc + (y : Int) * sS + (k : Int))) ∧
    (∀ r k : Nat, r < h / 2 → k < w → rc.top / 2 ≤ r → r < rc.bottom / 2 →
      (rc.left ≤ k → k < rc.right →
        TransformImage_NV12 rc dest pDest dS src pSrc sS w h
          (pDest + ((h + r : Nat) : Int) * dS + (k : Int)) = 128) ∧
      (k < rc.left ∨ rc.right ≤ k →
        TransformImage_NV12 rc dest pDest dS src pSrc sS w h
            (pDest + ((h + r : Nat) : Int) * dS + (k : Int))
          = src (pSrc + ((h + r : Nat) : Int) * sS + (k : Int)))) ∧
    (∀ r k : Nat, r < h / 2 → k < w → r < rc.top / 2 ∨ rc.bottom / 2 ≤ r →
      TransformImage_NV12 rc dest pDest dS src pSrc sS w h
          (pDest + ((h + r : Nat) : Int) * dS + (k : Int))
        = src (pSrc + ((h + r : Nat) : Int) * sS + (k : Int))) := by
  obtain ⟨hl, hc, _⟩ := TransformImage_NV12_spec rc dest pDest dS src pSrc sS w h
    hw hh hstride hLR hRw (by omega)
  have hmin : min rc.bottom h = rc.bottom := Nat.min_eq_left hBh
  rw [hmin] at hc
  refine ⟨fun y k hy hk => hl y hy k hk, ?_, ?_⟩
  · intro r k hr hk h1 h2
    constructor
    · intro h3 h4
      rw [hc r hr k hk, if_pos ⟨h1, h2, h3, h4⟩]
    · intro h3
      rw [hc r hr k hk, if_neg (by omega)]
  · intro r k hr hk h1
    rw [hc r hr k hk, if_neg (by omega)]

theorem TransformImage_NV12_bytes_witness :
    TransformImage_NV12 ⟨0, 0, 2, 2⟩ (fun _ => 0) 0 2 (fun _ => 7) 0 2 2 2
      (0 + ((2 + 0 : Nat) : Int) * 2 + ((1 : Nat) : Int)) = 128 :=
  ((TransformImage_NV12_bytes ⟨0, 0, 2, 2⟩ (fun _ => 0) 0 2 (fun _ => 7) 0 2 2 2
    (by decide) (by decide) (by decide) (by decide) (by decide) (by decide) (by decide)).2.1
    0 1 (by decide) (by decide) (by decide) (by decide)).1 (by decide) (by decide)


/-! ## Pixels inside and outside the rectangle -/

/-- C5 as stated fails: UYVY frame 4 x 1, rectangle `(1, 0, 3, 1)`.  Pixel 0 is outside
the rectangle, but `left` is rounded down to 0, so the pixel pair `(0, 1)` is processed
and the U byte of pixel 0 (offset 0) is overwritten. -/
theorem outside_pixel_counterexample :
    ¬ (∀ x y : Nat, x < 4 → y < 1 → ¬ (1 ≤ x ∧ x < 3 ∧ 0 ≤ y ∧ y < 1) →
        TransformImage_UYVY ⟨1, 0, 3, 1⟩ (fun _ => 0) 0 8 (fun _ => 7) 0 8 4 1
            (0 + (y : Int) * 8 + ((2 * x + 1 : Nat) : Int))
          = (fun _ => 7) (0 + (y : Int) * 8 + ((2 * x + 1 : Nat) : Int)) ∧
        TransformImage_UYVY ⟨1, 0, 3, 1⟩ (fun _ => 0) 0 8 (fun _ => 7) 0 8 4 1
            (0 + (y : Int) * 8 + ((4 * (x / 2) : Nat) : Int))
          = (fun _ => 7) (0 + (y : Int) * 8 + ((4 * (x / 2) : Nat) : Int)) ∧
        TransformImage_UYVY ⟨1, 0, 3, 1⟩ (fun _ => 0) 0 8 (fun _ => 7) 0 8 4 1
            (0 + (y : Int) * 8 + ((4 * (x / 2) + 2 : Nat) : Int))
          = (fun _ => 7) (0 + (y : Int) * 8 + ((4 * (x / 2) + 2 : Nat) : Int))) := by
  intro hall
  have h := (hall 0 0 (by decide) (by decide) (by decide)).2.1
  revert h
  decide

/-- C5, amended: for a rectangle inside the frame whose `left` and `right` are even (and,
for NV12, whose `top` and `bottom` are even too, the frame height being even), in a frame
of even width: every pixel keeps its luma byte, every pixel inside the rectangle has both
chroma bytes equal to 0x80, and every pixel outside it has both chroma bytes equal to the
source.  Pixel `(x, y)` has its luma at offset `2x + 1` and its chroma at offsets
`4 (x / 2)` and `4 (x / 2) + 2` of row `y` in UYVY, its luma at `2x` and its chroma at
`4 (x / 2) + 1` and `4 (x / 2) + 3` in YUY2, and in NV12 its luma at column `x` of row `y`
and its chroma at columns `2 (x / 2)` and `2 (x / 2) + 1` of row `height + y / 2`. -/
theorem pixels_inside_outside (rc : D2D_RECT_U) (dest : Mem) (pDest dS : Int)
    (src : Mem) (pSrc sS : Int) (w h : Nat)
    (hwe : w % 2 = 0) (hw : w < 4294967296) (hh : h < 4294967296) (hLONG : |dS| ≤ 2147483648)
    (hLR : rc.left ≤ rc.right) (hRw : rc.right ≤ w) (hTB : rc.top ≤ rc.bottom)
    (hBh : rc.bottom ≤ h) (hLe : rc.left % 2 = 0) (hRe : rc.right % 2 = 0) :
    (((2 * w : Nat) : Int) ≤ |dS| → ∀ x y : Nat, x < w → y < h →
      TransformImage_UYVY rc dest pDest dS src pSrc sS w h
          (pDest + (y : Int) * dS + ((2 * x + 1 : Nat) : Int))
        = src (pSrc + (y : Int) * sS + ((2 * x + 1 : Nat) : Int)) ∧
      ((rc.left ≤ x ∧ x < rc.right ∧ rc.top ≤ y ∧ y < rc.bottom) →
        TransformImage_UYVY rc dest pDest dS src pSrc sS w h
            (pDest + (y : Int) * dS + ((4 * (x / 2) : Nat) : Int)) = 128 ∧
        TransformImage_UYVY rc dest pDest dS src pSrc sS w h
            (pDest + (y : Int) * dS + ((4 * (x / 2) + 2 : Nat) : Int)) = 128) ∧
      (¬ (rc.left ≤ x ∧ x < rc.right ∧ rc.top ≤ y ∧ y < rc.bottom) →
        TransformImage_UYVY rc dest pDest dS src pSrc sS w h
            (pDest + (y : Int) * dS + ((4 * (x / 2) : Nat) : Int))
          = src (pSrc + (y : Int) * sS + ((4 * (x / 2) : Nat) : Int)) ∧
        TransformImage_UYVY rc dest pDest dS src pSrc sS w h
            (pDest + (y : Int) * dS + ((4 * (x / 2) + 2 : Nat) : Int))
          = src (pSrc + (y : Int) * sS + ((4 * (x / 2) + 2 : Nat) : Int)))) ∧
    (((2 * w : Nat) : Int) ≤ |dS| → ∀ x y : Nat, x < w → y < h →
      TransformImage_YUY2 rc dest pDest dS src pSrc sS w h
          (pDest + (y : Int) * dS + ((2 * x : Nat) : Int))
        = src (pSrc + (y : Int) * sS + ((2 * x : Nat) : Int)) ∧
      ((rc.left ≤ x ∧ x < rc.right ∧ rc.top ≤ y ∧ y < rc.bottom) →
        TransformImage_YUY2 rc dest pDest dS src pSrc sS w h
            (pDest + (y : Int) * dS + ((4 * (x / 2) + 1 : Nat) : Int)) = 128 ∧
        TransformImage_YUY2 rc dest pDest dS src pSrc sS w h
            (pDest + (y : Int) * dS + ((4 * (x / 2) + 3 : Nat) : Int)) = 128) ∧
      (¬ (rc.left ≤ x ∧ x < rc.right ∧ rc.top ≤ y ∧ y < rc.bottom) →
        TransformImage_YUY2 rc dest pDest dS src pSrc sS w h
            (pDest + (y : Int) * dS + ((4 * (x / 2) + 1 : Nat) : Int))
          = src (pSrc + (y : Int) * sS + ((4 * (x / 2) + 1 : Nat) : Int)) ∧
        TransformImage_YUY2 rc dest pDest dS src pSrc sS w h
            (pDest + (y : Int) * dS + ((4 * (x / 2) + 3 : Nat) : Int))
          = src (pSrc + (y : Int) * sS + ((4 * (x / 2) + 3 : Nat) : Int)))) ∧
    ((w : Int) ≤ |dS| → rc.top % 2 = 0 → rc.bottom % 2 = 0 → h % 2 = 0 →
      ∀ x y : Nat, x < w → y < h →
      TransformImage_NV12 rc dest pDest dS src pSrc sS w h
          (pDest + (y : Int) * dS + (x : Int))
        = src (pSrc + (y : Int) * sS + (x : Int)) ∧
      ((rc.left ≤ x ∧ x < rc.right ∧ rc.top ≤ y ∧ y < rc.bottom) →
        TransformImage_NV12 rc dest pDest dS src pSrc sS w h
            (pDest + ((h + y / 2 : Nat) : Int) * dS + ((2 * (x / 2) : Nat) : Int)) = 128 ∧
        TransformImage_NV12 rc dest pDest dS src pSrc sS w h
            (pDest + ((h + y / 2 : Nat) : Int) * dS + ((2 * (x / 2) + 1 : Nat) : Int)) = 128) ∧
      (¬ (rc.left ≤ x ∧ x < rc.right ∧ rc.top ≤ y ∧ y < rc.bottom) →
        TransformImage_NV12 rc dest pDest dS src pSrc sS w h
            (pDest + ((h + y / 2 : Nat) : Int) * dS + ((2 * (x / 2) : Nat) : Int))
          = src (pSrc + ((h + y / 2 : Nat) : Int) * sS + ((2 * (x / 2) : Nat) : Int)) ∧
        TransformImage_NV12 rc dest pDest dS src pSrc sS w h
            (pDest + ((h + y / 2 : Nat) : Int) * dS + ((2 * (x / 2) + 1 : Nat) : Int))
          = src (pSrc + ((h + y / 2 : Nat) : Int) * sS + ((2 * (x / 2) + 1 : Nat) : Int)))) := by
  refine ⟨?_, ?_, ?_⟩
  · intro hs x y hx hy
    have key := TransformImage_UYVY_spec rc dest pDest dS src pSrc sS w h (by omega) hh hs
      hLR hRw (by omega) y hy
    refine ⟨?_, ?_, ?_⟩
    · rw [key (2 * x + 1) (by omega), if_neg (by omega)]
    · intro hin
      rw [key (4 * (x / 2)) (by omega), key (4 * (x / 2) + 2) (by omega), if_pos (by omega),
        if_pos (by omega)]
      exact ⟨rfl, rfl⟩
    · intro hout
      rw [key (4 * (x / 2)) (by omega), key (4 * (x / 2) + 2) (by omega), if_neg (by omega),
        if_neg (by omega)]
      exact ⟨rfl, rfl⟩
  · intro hs x y hx hy
    have key := TransformImage_YUY2_spec rc dest pDest dS src pSrc sS w h (by omega) hh hs
      hLR hRw (by omega) y hy
    refine ⟨?_, ?_, ?_⟩
    · rw [key (2 * x) (by omega), if_neg (by omega)]
    · intro hin
      rw [key (4 * (x / 2) + 1) (by omega), key (4 * (x / 2) + 3) (by omega),
        if_pos (by omega), if_pos (by omega)]
      exact ⟨rfl, rfl⟩
    · intro hout
      rw [key (4 * (x / 2) + 1) (by omega), key (4 * (x / 2) + 3) (by omega),
        if_neg (by omega), if_neg (by omega)]
      exact ⟨rfl, rfl⟩
  · intro hs hTe hBe hhe x y hx hy
    obtain ⟨hl, hc, _⟩ := TransformImage_NV12_spec rc dest pDest dS src pSrc sS w h
      hw hh hs hLR hRw (by omega)
    have hmin : min rc.bottom h = rc.bottom := Nat.min_eq_left hBh
    rw [hmin] at hc
    refine ⟨hl y hy x hx, ?_, ?_⟩
    · intro hin
      rw [hc (y / 2) (by omega) (2 * (x / 2)) (by omega),
        hc (y / 2) (by omega) (2 * (x / 2) + 1) (by omega), if_pos (by omega),
        if_pos (by omega)]
      exact ⟨rfl, rfl⟩
    · intro hout
      rw [hc (y / 2) (by omega) (2 * (x / 2)) (by omega),
        hc (y / 2) (by omega) (2 * (x / 2) + 1) (by omega), if_neg (by omega),
        if_neg (by omega)]
      exact ⟨rfl, rfl⟩

theorem pixels_inside_outside_witness :
    TransformImage_YUY2 ⟨2, 0, 4, 1⟩ (fun _ => 0) 0 8 (fun _ => 7) 0 8 4 1
      (0 + ((0 : Nat) : Int) * 8 + ((4 * (3 / 2) + 1 : Nat) : Int)) = 128 :=
  ((((pixels_inside_outside ⟨2, 0, 4, 1⟩ (fun _ => 0) 0 8 (fun _ => 7) 0 8 4 1
    (by decide) (by decide) (by decide) (by decide) (by decide) (by decide) (by decide)
    (by decide) (by decide) (by decide)).2.1 (by decide)) 3 0 (by decide) (by decide)).2.1
    (by decide)).1


/-! ## Idempotence -/

/-- C6: each of the three transforms is idempotent.  For a rectangle inside the frame,
running the transform on its own output (read with the stride it was written with, the
same rectangle, width and height, into any destination buffer) gives, on every image
byte, the byte of the first output. -/
theorem transform_idempotent (rc : D2D_RECT_U) (dest : Mem) (pDest dS : Int)
    (src : Mem) (pSrc sS : Int) (dest2 : Mem) (pDest2 dS2 : Int) (w h : Nat)
    (hw : w < 4294967296) (hh : h < 4294967296)
    (hLONG : |dS| ≤ 2147483648)
    (hLR : rc.left ≤ rc.right) (hRw : rc.right ≤ w) (hTB : rc.top ≤ rc.bottom)
    (hBh : rc.bottom ≤ h) :
    (((2 * w : Nat) : Int) ≤ |dS| → ((2 * w : Nat) : Int) ≤ |dS2| →
      ∀ y k : Nat, y < h → k < 2 * w →
      TransformImage_UYVY rc dest2 pDest2 dS2
          (TransformImage_UYVY rc dest pDest dS src pSrc sS w h) pDest dS w h
          (pDest2 + (y : Int) * dS2 + (k : Int))
        = TransformImage_UYVY rc dest pDest dS src pSrc sS w h
          (pDest + (y : Int) * dS + (k : Int))) ∧
    (((2 * w : Nat) : Int) ≤ |dS| → ((2 * w : Nat) : Int) ≤ |dS2| →
      ∀ y k : Nat, y < h → k < 2 * w →
      TransformImage_YUY2 rc dest2 pDest2 dS2
          (TransformImage_YUY2 rc dest pDest dS src pSrc sS w h) pDest dS w h
          (pDest2 + (y : Int) * dS2 + (k : Int))
        = TransformImage_YUY2 rc dest pDest dS src pSrc sS w h
          (pDest + (y : Int) * dS + (k : Int))) ∧
    ((w : Int) ≤ |dS| → (w : Int) ≤ |dS2| →
      ∀ y k : Nat, y < h + h / 2 → k < w →
      TransformImage_NV12 rc dest2 pDest2 dS2
          (TransformImage_NV12 rc dest pDest dS src pSrc sS w h) pDest dS w h
          (pDest2 + (y : Int) * dS2 + (k : Int))
        = TransformImage_NV12 rc dest pDest dS src pSrc sS w h
          (pDest + (y : Int) * dS + (k : Int))) := by
  refine ⟨?_, ?_, ?_⟩
  · intro hs hs2 y k hy hk
    rw [TransformImage_UYVY_spec rc dest2 pDest2 dS2 _ pDest dS w h (by omega) hh hs2 hLR hRw
      (by omega) y hy k hk]
    split
    · rename_i hc
      rw [TransformImage_UYVY_spec rc dest pDest dS src pSrc sS w h (by omega) hh hs hLR hRw
        (by omega) y hy k hk, if_pos hc]
    · rfl
  · intro hs hs2 y k hy hk
    rw [TransformImage_YUY2_spec rc dest2 pDest2 dS2 _ pDest dS w h (by omega) hh hs2 hLR hRw
      (by omega) y hy k hk]
    split
    · rename_i hc
      rw [TransformImage_YUY2_spec rc dest pDest dS src pSrc sS w h (by omega) hh hs hLR hRw
        (by omega) y hy k hk, if_pos hc]
    · rfl
  · intro hs hs2 y k hy hk
    obtain ⟨hl2, hc2, _⟩ := TransformImage_NV12_spec rc dest2 pDest2 dS2
      (TransformImage_NV12 rc dest pDest dS src pSrc sS w h) pDest dS w h hw hh hs2 hLR hRw
      (by omega)
    obtain ⟨_, hc1, _⟩ := TransformImage_NV12_spec rc dest pDest dS src pSrc sS w h hw hh hs
      hLR hRw (by omega)
    rcases Nat.lt_or_ge y h with hlt | hge
    · exact hl2 y hlt k hk
    · obtain ⟨r, rfl⟩ : ∃ r, y = h + r := ⟨y - h, by omega⟩
      rw [hc2 r (by omega) k hk]
      split
      · rename_i hc
        rw [hc1 r (by omega) k hk, if_pos hc]
      · rfl

theorem transform_idempotent_witness :
    TransformImage_NV12 ⟨0, 0, 2, 2⟩ (fun _ => 1) 0 2
        (TransformImage_NV12 ⟨0, 0, 2, 2⟩ (fun _ => 0) 0 2 (fun _ => 7) 0 2 2 2) 0 2 2 2
        (0 + ((2 : Nat) : Int) * 2 + ((1 : Nat) : Int))
      = TransformImage_NV12 ⟨0, 0, 2, 2⟩ (fun _ => 0) 0 2 (fun _ => 7) 0 2 2 2
        (0 + ((2 : Nat) : Int) * 2 + ((1 : Nat) : Int)) :=
  (transform_idempotent ⟨0, 0, 2, 2⟩ (fun _ => 0) 0 2 (fun _ => 7) 0 2 (fun _ => 1) 0 2 2 2
    (by decide) (by decide) (by decide) (by decide) (by decide) (by decide)
    (by decide)).2.2 (by decide) (by decide) 2 1 (by decide) (by decide)



/-! ## Image size -/

/-- C7: for YUY2 and UYVY, all 32-bit `width` and `height` with `height ≥ 1`:
`GetImageSize` returns exactly `width * height * 2` when that number is at most
`2^32 - 1` and throws `E_INVALIDARG` exactly when it is larger; 1920 x 1080 gives
4,147,200. -/
theorem GetImageSize_packed (fcc w h : Nat) (hfcc : fcc = FOURCC_YUY2 ∨ fcc = FOURCC_UYVY)
    (hw : w < 4294967296) (hh : h < 4294967296) (hpos : 1 ≤ h) :
    (w * h * 2 ≤ 4294967295 → GetImageSize fcc w h = .ok (w * h * 2)) ∧
    (4294967295 < w * h * 2 → GetImageSize fcc w h = .error (.hr .E_INVALIDARG)) ∧
    GetImageSize fcc 1920 1080 = .ok 4147200 := by
  have hne : h ≠ 0 := by omega
  have hdiv : 4294967295 / h < w * 2 ↔ 4294967295 < w * 2 * h := Nat.div_lt_iff_lt_mul hpos
  have hmul : w * 2 * h = w * h * 2 := by ring
  have hle : w * 2 ≤ w * h * 2 := by nlinarith
  refine ⟨?_, ?_, ?_⟩
  · intro hfit
    have h1 : ¬ (w > 4294967295 / 2) := by omega
    have h2 : ¬ (w * 2 % 4294967296 > 4294967295 / h) := by
      have : w * 2 % 4294967296 = w * 2 := by omega
      rw [this]; omega
    have h3 : w * h % 4294967296 * 2 % 4294967296 = w * h * 2 := by omega
    simp only [GetImageSize, hfcc, if_true, MAXDWORD, udiv, hne, if_false, h1, h2, h3]
  · intro hbig
    by_cases h1 : w > 4294967295 / 2
    · simp only [GetImageSize, hfcc, if_true, MAXDWORD, h1]
    · have h2 : w * 2 % 4294967296 > 4294967295 / h := by
        have : w * 2 % 4294967296 = w * 2 := by omega
        rw [this]; omega
      simp only [GetImageSize, hfcc, if_true, MAXDWORD, udiv, hne, if_false, h1, h2]
  · rcases hfcc with e | e <;> rw [e] <;> rfl

theorem GetImageSize_packed_witness :
    GetImageSize FOURCC_UYVY 4 2 = .ok (4 * 2 * 2) :=
  (GetImageSize_packed FOURCC_UYVY 4 2 (Or.inr rfl) (by decide) (by decide) (by decide)).1
    (by decide)

/-- C8: for NV12, all 32-bit `width` and `height` with `width ≥ 1`: `GetImageSize`
returns exactly `width * (height + height / 2)` when that number is at most `2^32 - 1`
and throws `E_INVALIDARG` exactly when it is larger; 1920 x 1080 gives 3,110,400. -/
theorem GetImageSize_NV12 (w h : Nat) (hw : w < 4294967296) (hh : h < 4294967296)
    (hpos : 1 ≤ w) :
    (w * (h + h / 2) ≤ 4294967295 →
      GetImageSize FOURCC_NV12 w h = .ok (w * (h + h / 2))) ∧
    (4294967295 < w * (h + h / 2) →
      GetImageSize FOURCC_NV12 w h = .error (.hr .E_INVALIDARG)) ∧
    GetImageSize FOURCC_NV12 1920 1080 = .ok 3110400 := by
  have hne : w ≠ 0 := by omega
  have hdiv : 4294967295 / w < h + h / 2 ↔ 4294967295 < (h + h / 2) * w :=
    Nat.div_lt_iff_lt_mul hpos
  have hmul : (h + h / 2) * w = w * (h + h / 2) := by ring
  have hle : h + h / 2 ≤ w * (h + h / 2) := Nat.le_mul_of_pos_left _ hpos
  have hf1 : ¬ (FOURCC_NV12 = FOURCC_YUY2 ∨ FOURCC_NV12 = FOURCC_UYVY) := by decide
  refine ⟨?_, ?_, ?_⟩
  · intro hfit
    have h1 : ¬ (h / 2 > 4294967295 - h) := by omega
    have e : (h + h / 2) % 4294967296 = h + h / 2 := by omega
    have h2 : ¬ ((h + h / 2) % 4294967296 > 4294967295 / w) := by
      rw [e]; omega
    have h3 : w * ((h + h / 2) % 4294967296) % 4294967296 = w * (h + h / 2) := by
      rw [e]; omega
    simp only [GetImageSize, hf1, if_true, MAXDWORD, udiv, hne, if_false, h1, h2, h3]
  · intro hbig
    by_cases h1 : h / 2 > 4294967295 - h
    · simp only [GetImageSize, hf1, if_true, if_false, MAXDWORD, h1]
    · have e : (h + h / 2) % 4294967296 = h + h / 2 := by omega
      have h2 : (h + h / 2) % 4294967296 > 4294967295 / w := by
        rw [e]; omega
      simp only [GetImageSize, hf1, if_true, MAXDWORD, udiv, hne, if_false, h1, h2]
  · rfl

theorem GetImageSize_NV12_witness :
    GetImageSize FOURCC_NV12 4 2 = .ok (4 * (2 + 2 / 2)) :=
  (GetImageSize_NV12 4 2 (by decide) (by decide) (by decide)).1 (by decide)


/-! ## Default stride -/

theorem land_mult4_mask (x : Nat) (hx : x < 4294967296) : x &&& 0xFFFFFFFC = x - x % 4 := by
  have hm : (x &&& 0xFFFFFFFC) % 2 ^ 2 = 0 := by
    rw [land_mod_two_pow]; norm_num
  have hd : (x &&& 0xFFFFFFFC) / 2 ^ 2 = x / 4 := by
    rw [land_div_two_pow]
    have h := Nat.and_pow_two_sub_one_eq_mod (x / 4) 30
    norm_num at h ⊢
    rw [h]
    omega
  omega

theorem toLONG_toUINT32 (x : Nat) : toLONG (toUINT32 (toLONG x)) = toLONG x := by
  unfold toLONG toUINT32
  split_ifs <;> omega

theorem toUINT32_toLONG (v : Nat) (hv : v < 4294967296) : toUINT32 (toLONG v) = v := by
  unfold toLONG toUINT32
  split_ifs <;> omega

/-- C9 as stated fails: an NV12 format of width `2^31` (height 1, no stride attribute).
`lStride = width` stores the width in a `LONG`, so the call returns `-2147483648`, not the
frame width. -/
theorem GetDefaultStride_width_counterexample :
    (GetDefaultStride
        ⟨some MFMediaType_Video, some MFVideoFormat_NV12, some (2147483648, 1), none, none⟩
      ).toOption.map Prod.fst = some (-2147483648) ∧
    (-2147483648 : Int) ≠ ((2147483648 : Nat) : Int) := by
  constructor
  · rfl
  · decide

/-- C9, amended: on a format with a subtype and a frame size and no stride attribute,
`GetDefaultStride` returns, for NV12, the frame width when `width < 2^31`, and for
YUY2/UYVY the smallest multiple of 4 that is `≥ 2 * width` when `2 * width + 3 < 2^31`
(the result is a `LONG`); it sets the result as the stride attribute of the format, and a
second call, on the format so updated, returns the same value; for any other subtype it
throws `E_INVALIDARG`.  A format that carries a stride attribute gets that value back, read
as a `LONG`, and is left as it is.  NV12 width 1920 gives 1920, YUY2 width 1921 gives
3844. -/
theorem GetDefaultStride_spec (t : IMFMediaType) (subtype : GUID) (w h : Nat) :
    (t.MF_MT_DEFAULT_STRIDE = none → t.MF_MT_SUBTYPE = some subtype →
      t.MF_MT_FRAME_SIZE = some (w, h) →
      (subtype = MFVideoFormat_NV12 → w < 2147483648 →
        GetDefaultStride t = .ok ((w : Int), { t with MF_MT_DEFAULT_STRIDE := some w })) ∧
      (subtype = MFVideoFormat_YUY2 ∨ subtype = MFVideoFormat_UYVY → 2 * w + 3 < 2147483648 →
        GetDefaultStride t = .ok ((((2 * w + 3) / 4 * 4 : Nat) : Int),
          { t with MF_MT_DEFAULT_STRIDE := some ((2 * w + 3) / 4 * 4) }) ∧
        4 ∣ (2 * w + 3) / 4 * 4 ∧ 2 * w ≤ (2 * w + 3) / 4 * 4 ∧
        ∀ m : Nat, 4 ∣ m → 2 * w ≤ m → (2 * w + 3) / 4 * 4 ≤ m) ∧
      (subtype ≠ MFVideoFormat_NV12 → subtype ≠ MFVideoFormat_YUY2 →
        subtype ≠ MFVideoFormat_UYVY → GetDefaultStride t = .error (.hr .E_INVALIDARG)) ∧
      (∀ (l : Int) (t' : IMFMediaType), GetDefaultStride t = .ok (l, t') →
        t'.MF_MT_DEFAULT_STRIDE = some (toUINT32 l) ∧ GetDefaultStride t' = .ok (l, t'))) ∧
    (∀ v : Nat, v < 4294967296 → t.MF_MT_DEFAULT_STRIDE = some v →
      GetDefaultStride t = .ok (toLONG v, t) ∧ toUINT32 (toLONG v) = v) ∧
    GetDefaultStride
        ⟨some MFMediaType_Video, some MFVideoFormat_NV12, some (1920, 1080), none, none⟩
      = .ok (1920,
        ⟨some MFMediaType_Video, some MFVideoFormat_NV12, some (1920, 1080), none, some 1920⟩) ∧
    GetDefaultStride
        ⟨some MFMediaType_Video, some MFVideoFormat_YUY2, some (1921, 1080), none, none⟩
      = .ok (3844,
        ⟨some MFMediaType_Video, some MFVideoFormat_YUY2, some (1921, 1080), none, some 3844⟩) := by
  refine ⟨?_, ?_, rfl, rfl⟩
  · intro hnone hsub hsize
    refine ⟨?_, ?_, ?_, ?_⟩
    · intro hs hw
      have e1 : toLONG w = (w : Int) := by unfold toLONG; split_ifs <;> omega
      have e2 : toUINT32 (w : Int) = w := by unfold toUINT32; omega
      simp only [GetDefaultStride, hnone, hsub, hsize, GetAttribute, hs, if_true, e1, e2]
    · intro hs hw
      have hne : subtype ≠ MFVideoFormat_NV12 := by
        rcases hs with e | e <;> rw [e] <;> decide
      have e0 : ((w * 2 % 4294967296 + 3) % 4294967296) &&& 0xFFFFFFFC = (2 * w + 3) / 4 * 4 := by
        rw [land_mult4_mask _ (Nat.mod_lt _ (by decide))]; omega
      have e1 : toLONG ((2 * w + 3) / 4 * 4) = (((2 * w + 3) / 4 * 4 : Nat) : Int) := by
        unfold toLONG; split_ifs <;> omega
      have e2 : toUINT32 (((2 * w + 3) / 4 * 4 : Nat) : Int) = (2 * w + 3) / 4 * 4 := by
        unfold toUINT32; omega
      refine ⟨?_, ?_, ?_, ?_⟩
      · simp only [GetDefaultStride, hnone, hsub, hsize, GetAttribute, hne, hs, if_true,
          if_false, e0, e1, e2]
      · exact Dvd.intro_left _ rfl
      · omega
      · intro m hm hle
        obtain ⟨c, rfl⟩ := hm
        omega
    · intro h1 h2 h3
      simp only [GetDefaultStride, hnone, hsub, hsize, GetAttribute, h1, h2, h3, if_false,
        or_self]
    · intro l t' hcall
      simp only [GetDefaultStride, hnone, hsub, hsize, GetAttribute] at hcall
      split_ifs at hcall with hs hs
      · simp only [Except.ok.injEq, Prod.mk.injEq] at hcall
        obtain ⟨hl, ht⟩ := hcall
        subst ht; subst hl
        refine ⟨rfl, ?_⟩
        simp only [GetDefaultStride, toLONG_toUINT32]
      · simp only [Except.ok.injEq, Prod.mk.injEq] at hcall
        obtain ⟨hl, ht⟩ := hcall
        subst ht; subst hl
        refine ⟨rfl, ?_⟩
        simp only [GetDefaultStride, toLONG_toUINT32]
  · intro v hv hsome
    refine ⟨?_, toUINT32_toLONG v hv⟩
    simp only [GetDefaultStride, hsome]

theorem GetDefaultStride_spec_witness :
    GetDefaultStride
        ⟨some MFMediaType_Video, some MFVideoFormat_UYVY, some (5, 2), none, none⟩
      = .ok ((((2 * 5 + 3) / 4 * 4 : Nat) : Int),
        ⟨some MFMediaType_Video, some MFVideoFormat_UYVY, some (5, 2), none,
          some ((2 * 5 + 3) / 4 * 4)⟩) :=
  (((GetDefaultStride_spec
    ⟨some MFMediaType_Video, some MFVideoFormat_UYVY, some (5, 2), none, none⟩
    MFVideoFormat_UYVY 5 2).1 rfl rfl rfl).2.1 (Or.inr rfl) (by decide)).1


/-! ## Validating a candidate type -/

theorem OnCheckMediaType_eq (pmt : IMFMediaType) (major subtype : GUID)
    (hmaj : pmt.MF_MT_MAJOR_TYPE = some major) (hsub : pmt.MF_MT_SUBTYPE = some subtype) :
    OnCheckMediaType pmt =
      if major ≠ MFMediaType_Video ∨ subtype ∉ g_MediaSubtypes ∨
          pmt.MF_MT_INTERLACE_MODE = some MFVideoInterlace_FieldSingleUpper ∨
          pmt.MF_MT_INTERLACE_MODE = some MFVideoInterlace_FieldSingleLower
      then .error (.hr .MF_E_INVALIDMEDIATYPE) else .ok () := by
  have hany : (g_MediaSubtypes.any (fun g => decide (subtype = g))) = true
      ↔ subtype ∈ g_MediaSubtypes := by
    simp [List.any_eq_true]
  have hint : (MFGetAttributeUINT32 pmt.MF_MT_INTERLACE_MODE MFVideoInterlace_Progressive
        = MFVideoInterlace_FieldSingleUpper ∨
      MFGetAttributeUINT32 pmt.MF_MT_INTERLACE_MODE MFVideoInterlace_Progressive
        = MFVideoInterlace_FieldSingleLower)
      ↔ (pmt.MF_MT_INTERLACE_MODE = some MFVideoInterlace_FieldSingleUpper ∨
        pmt.MF_MT_INTERLACE_MODE = some MFVideoInterlace_FieldSingleLower) := by
    cases hi : pmt.MF_MT_INTERLACE_MODE with
    | none => simp [MFGetAttributeUINT32, MFVideoInterlace_Progressive,
        MFVideoInterlace_FieldSingleUpper, MFVideoInterlace_FieldSingleLower]
    | some v => simp [MFGetAttributeUINT32]
  unfold OnCheckMediaType
  simp only [hmaj, hsub, GetAttribute]
  by_cases h1 : major ≠ MFMediaType_Video
  · rw [if_pos h1, if_pos (Or.inl h1)]
  · rw [if_neg h1]
    by_cases h2 : subtype ∈ g_MediaSubtypes
    · have h2' : ¬ ((!(g_MediaSubtypes.any (fun g => decide (subtype = g)))) = true) := by
        rw [hany.2 h2]; decide
      rw [if_neg h2']
      by_cases h3 : pmt.MF_MT_INTERLACE_MODE = some MFVideoInterlace_FieldSingleUpper ∨
          pmt.MF_MT_INTERLACE_MODE = some MFVideoInterlace_FieldSingleLower
      · rw [if_pos (hint.2 h3), if_pos (Or.inr (Or.inr h3))]
      · rw [if_neg (fun hcon => h3 (hint.1 hcon)), if_neg]
        rintro (hc | hc | hc)
        · exact h1 hc
        · exact hc h2
        · exact h3 hc
    · have h2' : (!(g_MediaSubtypes.any (fun g => decide (subtype = g)))) = true := by
        cases hb : g_MediaSubtypes.any (fun g => decide (subtype = g)) with
        | false => rfl
        | true => exact absurd (hany.1 hb) h2
      rw [if_pos h2', if_pos (Or.inr (Or.inl h2))]

theorem GetImageSize_ne_invalidmediatype (fcc w h : Nat) :
    GetImageSize fcc w h ≠ .error (.hr .MF_E_INVALIDMEDIATYPE) := by
  unfold GetImageSize udiv
  split_ifs <;> simp <;> split_ifs <;> simp

theorem UpdateFormatInfo_ne_invalidmediatype (s : CGrayscaleEffect) :
    (UpdateFormatInfo s).1 ≠ .error (.hr .MF_E_INVALIDMEDIATYPE) := by
  unfold UpdateFormatInfo
  simp only []
  cases s.m_spInputType with
  | none => simp
  | some ty =>
    simp only [GetAttribute]
    cases ty.MF_MT_SUBTYPE with
    | none => simp
    | some subtype =>
      simp only []
      split
      · simp
      · cases ty.MF_MT_FRAME_SIZE with
        | none => simp
        | some wh =>
          obtain ⟨w, h⟩ := wh
          simp only []
          have := GetImageSize_ne_invalidmediatype subtype.Data1 w h
          cases hg : GetImageSize subtype.Data1 w h with
          | error e =>
            rw [hg] at this
            simpa using this
          | ok cb => simp


theorem SetInputType_check (s : CGrayscaleEffect) (pmt : IMFMediaType) (dwFlags : Nat)
    (hflags : dwFlags = 0 ∨ dwFlags = MFT_SET_TYPE_TEST_ONLY) (hpend : s.m_spSample = none)
    (hout : s.m_spOutputType = none) :
    (∀ c, OnCheckMediaType pmt = .error (.hr c) →
      SetInputType s 0 (some pmt) dwFlags = .returned c s) ∧
    (OnCheckMediaType pmt = .ok () →
      (SetInputType s 0 (some pmt) dwFlags).hr? ≠ some .MF_E_INVALIDMEDIATYPE) := by
  have hf : ¬ (dwFlags &&& (0xFFFFFFFF - MFT_SET_TYPE_TEST_ONLY) ≠ 0) := by
    rcases hflags with e | e <;> rw [e] <;> decide
  have hp : HasPendingOutput s = false := by simp [HasPendingOutput, hpend]
  have hv : IsValidInputStream 0 = true := rfl
  constructor
  · intro c hc
    simp only [SetInputType, hf, if_false, hv, Bool.not_true, hp, OnCheckInputType, hout, hc,
      catchException, Bool.false_eq_true]
  · intro hok
    simp only [SetInputType, hf, if_false, hv, Bool.not_true, hp, OnCheckInputType, hout, hok,
      Bool.false_eq_true]
    split_ifs
    · have hne := UpdateFormatInfo_ne_invalidmediatype { s with m_spInputType := some pmt }
      unfold OnSetInputType
      rcases hu : UpdateFormatInfo { s with m_spInputType := some pmt } with ⟨r, s1⟩
      rw [hu] at hne
      cases r with
      | ok u => simp [catchException, Outcome.hr?]
      | error e =>
        cases e with
        | divideByZero => simp [catchException, Outcome.hr?]
        | accessViolation => simp [catchException, Outcome.hr?]
        | hr code =>
          simp only [catchException, Outcome.hr?]
          intro hcon
          apply hne
          simp only [Option.some.injEq] at hcon
          rw [hcon]
    · simp [catchException, Outcome.hr?]

theorem SetOutputType_check (s : CGrayscaleEffect) (pmt : IMFMediaType) (dwFlags : Nat)
    (hflags : dwFlags = 0 ∨ dwFlags = MFT_SET_TYPE_TEST_ONLY) (hpend : s.m_spSample = none)
    (hin : s.m_spInputType = none) :
    (∀ c, OnCheckMediaType pmt = .error (.hr c) →
      SetOutputType s 0 (some pmt) dwFlags = .returned c s) ∧
    (OnCheckMediaType pmt = .ok () →
      (SetOutputType s 0 (some pmt) dwFlags).hr? ≠ some .MF_E_INVALIDMEDIATYPE) := by
  have hf : ¬ (dwFlags &&& (0xFFFFFFFF - MFT_SET_TYPE_TEST_ONLY) ≠ 0) := by
    rcases hflags with e | e <;> rw [e] <;> decide
  have hp : HasPendingOutput s = false := by simp [HasPendingOutput, hpend]
  have hv : IsValidOutputStream 0 = true := rfl
  constructor
  · intro c hc
    simp only [SetOutputType, hf, if_false, hv, Bool.not_true, hp, OnCheckOutputType, hin, hc,
      catchException, Bool.false_eq_true]
  · intro hok
    simp only [SetOutputType, hf, if_false, hv, Bool.not_true, hp, OnCheckOutputType, hin, hok,
      Bool.false_eq_true]
    split_ifs <;> simp [catchException, Outcome.hr?]

/-- C10 as stated fails: a video candidate with no subtype attribute and interlace mode
single-field-upper.  The claim has it rejected with `MF_E_INVALIDMEDIATYPE` (its interlace
mode is single-field); `OnCheckMediaType` reads the subtype before the interlace mode, and
the failed `GetGUID` is thrown as `MF_E_ATTRIBUTENOTFOUND`. -/
theorem SetInputType_missing_subtype_counterexample :
    ¬ ((SetInputType CGrayscaleEffect.new 0
          (some ⟨some MFMediaType_Video, none, none, some MFVideoInterlace_FieldSingleUpper,
            none⟩) 0).hr? = some .MF_E_INVALIDMEDIATYPE ↔
        ((some MFMediaType_Video : Option GUID) ≠ some MFMediaType_Video ∨
          (none : Option GUID) ∉ g_MediaSubtypes.map some ∨
          (some MFVideoInterlace_FieldSingleUpper : Option Nat)
            = some MFVideoInterlace_FieldSingleUpper ∨
          (some MFVideoInterlace_FieldSingleUpper : Option Nat)
            = some MFVideoInterlace_FieldSingleLower)) := by
  intro hiff
  have h := hiff.2 (Or.inr (Or.inr (Or.inl rfl)))
  revert h
  decide

/-- C10, amended: when the type of the opposite role is unset, no frame is pending, and stream
id and flags are valid, `SetInputType` / `SetOutputType` with a candidate that carries a
major type and a subtype returns `MF_E_INVALIDMEDIATYPE` exactly when the major type is
not video, or the subtype is not one of NV12, YUY2, UYVY, or the interlace mode is
single-field-upper or single-field-lower (an absent interlace mode counts as
progressive); the state plays no part.  A candidate without a major type, or a video
candidate without a subtype, is rejected with `MF_E_ATTRIBUTENOTFOUND` instead. -/
theorem SetType_invalid_format (s : CGrayscaleEffect) (pmt : IMFMediaType) (dwFlags : Nat)
    (hflags : dwFlags = 0 ∨ dwFlags = MFT_SET_TYPE_TEST_ONLY) (hpend : s.m_spSample = none) :
    (∀ major subtype : GUID, pmt.MF_MT_MAJOR_TYPE = some major →
      pmt.MF_MT_SUBTYPE = some subtype →
      (s.m_spOutputType = none →
        ((SetInputType s 0 (some pmt) dwFlags).hr? = some .MF_E_INVALIDMEDIATYPE ↔
          (major ≠ MFMediaType_Video ∨ subtype ∉ g_MediaSubtypes ∨
            pmt.MF_MT_INTERLACE_MODE = some MFVideoInterlace_FieldSingleUpper ∨
            pmt.MF_MT_INTERLACE_MODE = some MFVideoInterlace_FieldSingleLower))) ∧
      (s.m_spInputType = none →
        ((SetOutputType s 0 (some pmt) dwFlags).hr? = some .MF_E_INVALIDMEDIATYPE ↔
          (major ≠ MFMediaType_Video ∨ subtype ∉ g_MediaSubtypes ∨
            pmt.MF_MT_INTERLACE_MODE = some MFVideoInterlace_FieldSingleUpper ∨
            pmt.MF_MT_INTERLACE_MODE = some MFVideoInterlace_FieldSingleLower)))) ∧
    (pmt.MF_MT_MAJOR_TYPE = none ∨
        (pmt.MF_MT_MAJOR_TYPE = some MFMediaType_Video ∧ pmt.MF_MT_SUBTYPE = none) →
      (s.m_spOutputType = none →
        SetInputType s 0 (some pmt) dwFlags = .returned .MF_E_ATTRIBUTENOTFOUND s) ∧
      (s.m_spInputType = none →
        SetOutputType s 0 (some pmt) dwFlags = .returned .MF_E_ATTRIBUTENOTFOUND s)) := by
  constructor
  · intro major subtype hmaj hsub
    have hck := OnCheckMediaType_eq pmt major subtype hmaj hsub
    constructor
    · intro hout
      obtain ⟨herr, hok⟩ := SetInputType_check s pmt dwFlags hflags hpend hout
      constructor
      · intro hhr
        by_contra hc
        rw [if_neg hc] at hck
        exact hok hck hhr
      · intro hc
        rw [if_pos hc] at hck
        rw [herr _ hck]
        rfl
    · intro hin
      obtain ⟨herr, hok⟩ := SetOutputType_check s pmt dwFlags hflags hpend hin
      constructor
      · intro hhr
        by_contra hc
        rw [if_neg hc] at hck
        exact hok hck hhr
      · intro hc
        rw [if_pos hc] at hck
        rw [herr _ hck]
        rfl
  · intro hmiss
    have hck : OnCheckMediaType pmt = .error (.hr .MF_E_ATTRIBUTENOTFOUND) := by
      unfold OnCheckMediaType
      rcases hmiss with h | ⟨h1, h2⟩
      · simp only [h, GetAttribute]
      · simp only [h1, h2, GetAttribute, ne_eq, not_true_eq_false, if_false]
    exact ⟨fun hout => (SetInputType_check s pmt dwFlags hflags hpend hout).1 _ hck,
      fun hin => (SetOutputType_check s pmt dwFlags hflags hpend hin).1 _ hck⟩

theorem SetType_invalid_format_witness :
    (SetOutputType CGrayscaleEffect.new 0
        (some ⟨some MFMediaType_Audio, some MFVideoFormat_NV12, none, none, none⟩)
        MFT_SET_TYPE_TEST_ONLY).hr? = some .MF_E_INVALIDMEDIATYPE :=
  ((((SetType_invalid_format CGrayscaleEffect.new
    ⟨some MFMediaType_Audio, some MFVideoFormat_NV12, none, none, none⟩ MFT_SET_TYPE_TEST_ONLY
    (Or.inr rfl) rfl).1 MFMediaType_Audio MFVideoFormat_NV12 rfl rfl).2 rfl).2
    (Or.inl (by decide)))

/-! ## Negotiation -/

theorem valid_flags (dwFlags : Nat) (h : dwFlags = 0 ∨ dwFlags = MFT_SET_TYPE_TEST_ONLY) :
    ¬ (dwFlags &&& (0xFFFFFFFF - MFT_SET_TYPE_TEST_ONLY) ≠ 0) := by
  rcases h with e | e <;> rw [e] <;> decide

theorem OnCheckMediaType_cases (pmt : IMFMediaType) :
    OnCheckMediaType pmt = .ok () ∨
      ∃ c, c ≠ .S_OK ∧ OnCheckMediaType pmt = .error (.hr c) := by
  unfold OnCheckMediaType GetAttribute
  cases pmt.MF_MT_MAJOR_TYPE <;> cases pmt.MF_MT_SUBTYPE <;> simp only [] <;>
    first
    | exact Or.inr ⟨_, by decide, rfl⟩
    | (split_ifs <;> first | exact Or.inl rfl | exact Or.inr ⟨_, by decide, rfl⟩)

theorem OnCheckInputType_cases (s : CGrayscaleEffect) (pmt : IMFMediaType) :
    OnCheckInputType s pmt = .ok () ∨
      ∃ c, c ≠ .S_OK ∧ OnCheckInputType s pmt = .error (.hr c) := by
  unfold OnCheckInputType
  cases s.m_spOutputType with
  | none => exact OnCheckMediaType_cases pmt
  | some t => exact Or.inl rfl

theorem OnCheckOutputType_cases (s : CGrayscaleEffect) (pmt : IMFMediaType) :
    OnCheckOutputType s pmt = .ok () ∨
      ∃ c, c ≠ .S_OK ∧ OnCheckOutputType s pmt = .error (.hr c) := by
  unfold OnCheckOutputType
  cases s.m_spInputType with
  | none => exact OnCheckMediaType_cases pmt
  | some t =>
    simp only []
    split_ifs
    · exact Or.inr ⟨_, by decide, rfl⟩
    · exact Or.inl rfl

/-- The comparison `IsEqual` returns `S_OK` exactly when both types have the same major
type, the same subtype (or both none), and each attribute of the type with the smaller
number of attributes is present in the other with the same value. -/
theorem IsEqual_eq_S_OK (pmt pOther : IMFMediaType) :
    IsEqual pmt pOther = .S_OK ↔
      pmt.MF_MT_MAJOR_TYPE.isSome = true ∧ pmt.MF_MT_MAJOR_TYPE = pOther.MF_MT_MAJOR_TYPE ∧
      pmt.MF_MT_SUBTYPE = pOther.MF_MT_SUBTYPE ∧
      (if pmt.GetCount ≤ pOther.GetCount then pmt.subsetOf pOther else pOther.subsetOf pmt)
        = true := by
  unfold IsEqual
  generalize (if pmt.GetCount ≤ pOther.GetCount then pmt.subsetOf pOther
    else pOther.subsetOf pmt) = d
  cases h1 : pmt.MF_MT_MAJOR_TYPE with
  | none => simp
  | some major =>
    cases h2 : pOther.MF_MT_MAJOR_TYPE with
    | none => simp
    | some majorOther =>
      simp only []
      by_cases hm : major = majorOther <;>
        by_cases hs : pmt.MF_MT_SUBTYPE = pOther.MF_MT_SUBTYPE <;> cases d <;> simp [hm, hs]

/-- A type that has a major type is equal to itself. -/
theorem IsEqual_self (t : IMFMediaType) (h : t.MF_MT_MAJOR_TYPE.isSome = true) :
    IsEqual t t = .S_OK := by
  rw [IsEqual_eq_S_OK]
  refine ⟨h, rfl, rfl, ?_⟩
  simp [IMFMediaType.subsetOf]

/-- With an input type set, no frame pending and valid flags, `SetOutputType` rejects a
candidate with `MF_E_INVALIDMEDIATYPE`, leaving the object as it was, exactly when
`IsEqual` of the candidate and the input type is not `S_OK`; otherwise the committing call
stores the candidate and ends streaming. -/
theorem SetOutputType_with_input (s : CGrayscaleEffect) (pmt inputType : IMFMediaType)
    (hpend : s.m_spSample = none) (hin : s.m_spInputType = some inputType) :
    (∀ dwFlags : Nat, (dwFlags = 0 ∨ dwFlags = MFT_SET_TYPE_TEST_ONLY) →
      IsEqual pmt inputType ≠ .S_OK →
      SetOutputType s 0 (some pmt) dwFlags = .returned .MF_E_INVALIDMEDIATYPE s) ∧
    (IsEqual pmt inputType = .S_OK →
      SetOutputType s 0 (some pmt) 0
        = .returned .S_OK
            { s with m_spOutputType := some pmt, m_fStreamingInitialized := false }) := by
  have hp : HasPendingOutput s = false := by simp [HasPendingOutput, hpend]
  have hv : IsValidOutputStream 0 = true := rfl
  constructor
  · intro dwFlags hflags h
    have hf := valid_flags dwFlags hflags
    simp only [SetOutputType, hf, if_false, hv, Bool.not_true, hp, OnCheckOutputType, hin, h,
      ne_eq, not_false_eq_true, if_true, catchException, Bool.false_eq_true]
  · intro h
    have hf : ¬ ((0 : Nat) &&& (0xFFFFFFFF - MFT_SET_TYPE_TEST_ONLY) ≠ 0) := by decide
    have hset : ((0 : Nat) &&& MFT_SET_TYPE_TEST_ONLY) = 0 := by decide
    simp only [SetOutputType, hf, if_false, hv, Bool.not_true, hp, OnCheckOutputType, hin, h,
      ne_eq, not_true_eq_false, hset, if_true, catchException, Bool.false_eq_true,
      EndStreaming, OnSetOutputType]

/-- C11 as stated fails: after `SetInputType` with the UYVY type of frame size 4 x 2 on
the freshly constructed transform, the candidate with major type video and subtype UYVY
and no frame size is not equal to the input type, yet `IsEqual` reports `S_OK` (its
attributes are a subset of those of the input type) and the committing `SetOutputType`
returns `S_OK` and stores the candidate as the output type. -/
theorem SetOutputType_subset_counterexample :
    ∃ s : CGrayscaleEffect, Reachable s ∧ s.m_spSample = none ∧
      s.m_spInputType
        = some ⟨some MFMediaType_Video, some MFVideoFormat_UYVY, some (4, 2), none, none⟩ ∧
      (⟨some MFMediaType_Video, some MFVideoFormat_UYVY, none, none, none⟩ : IMFMediaType)
        ≠ ⟨some MFMediaType_Video, some MFVideoFormat_UYVY, some (4, 2), none, none⟩ ∧
      SetOutputType s 0
          (some ⟨some MFMediaType_Video, some MFVideoFormat_UYVY, none, none, none⟩) 0
        = .returned .S_OK { s with
            m_spOutputType := some ⟨some MFMediaType_Video, some MFVideoFormat_UYVY, none, none,
              none⟩ } :=
  ⟨_, ⟨[.SetInputType 0
      (some ⟨some MFMediaType_Video, some MFVideoFormat_UYVY, some (4, 2), none, none⟩) 0], rfl⟩,
    rfl, rfl, by decide, rfl⟩

/-- C11, amended: with no frame pending and valid stream id and flags, whenever an input
type is set, `SetOutputType` with a candidate for which `IsEqual` with the input type is
not `S_OK` returns `MF_E_INVALIDMEDIATYPE` and leaves the object, the output type
included, as it was; this is every candidate without a major type, with a major type or a
subtype other than that of the input type (for instance subtype NV12 while the input
subtype is UYVY), or such that an attribute of the type with the smaller number of
attributes is missing from the other or has another value there.  When no input type is
set, a committing `SetOutputType` with a video NV12 candidate that is not single-field
succeeds and the candidate is the current output type afterwards. -/
theorem SetOutputType_negotiation (s : CGrayscaleEffect) (pmt : IMFMediaType)
    (hpend : s.m_spSample = none) :
    (∀ (inputType : IMFMediaType) (dwFlags : Nat),
      (dwFlags = 0 ∨ dwFlags = MFT_SET_TYPE_TEST_ONLY) → s.m_spInputType = some inputType →
      (IsEqual pmt inputType ≠ .S_OK →
        SetOutputType s 0 (some pmt) dwFlags = .returned .MF_E_INVALIDMEDIATYPE s) ∧
      (pmt.MF_MT_MAJOR_TYPE = none ∨ pmt.MF_MT_MAJOR_TYPE ≠ inputType.MF_MT_MAJOR_TYPE ∨
          pmt.MF_MT_SUBTYPE ≠ inputType.MF_MT_SUBTYPE ∨
          (if pmt.GetCount ≤ inputType.GetCount then pmt.subsetOf inputType
            else inputType.subsetOf pmt) = false →
        SetOutputType s 0 (some pmt) dwFlags = .returned .MF_E_INVALIDMEDIATYPE s) ∧
      (inputType.MF_MT_SUBTYPE = some MFVideoFormat_UYVY →
        pmt.MF_MT_SUBTYPE = some MFVideoFormat_NV12 →
        SetOutputType s 0 (some pmt) dwFlags = .returned .MF_E_INVALIDMEDIATYPE s)) ∧
    (s.m_spInputType = none → pmt.MF_MT_MAJOR_TYPE = some MFMediaType_Video →
      pmt.MF_MT_SUBTYPE = some MFVideoFormat_NV12 →
      pmt.MF_MT_INTERLACE_MODE ≠ some MFVideoInterlace_FieldSingleUpper →
      pmt.MF_MT_INTERLACE_MODE ≠ some MFVideoInterlace_FieldSingleLower →
      SetOutputType s 0 (some pmt) 0
        = .returned .S_OK { s with m_spOutputType := some pmt, m_fStreamingInitialized := false }
      ∧ ({ s with m_spOutputType := some pmt, m_fStreamingInitialized := false }
          : CGrayscaleEffect).m_spOutputType = some pmt) := by
  have hp : HasPendingOutput s = false := by simp [HasPendingOutput, hpend]
  have hv : IsValidOutputStream 0 = true := rfl
  constructor
  · intro inputType dwFlags hflags hin
    have hne := (SetOutputType_with_input s pmt inputType hpend hin).1 dwFlags hflags
    refine ⟨hne, ?_, ?_⟩
    · intro hcase
      apply hne
      rw [ne_eq, IsEqual_eq_S_OK]
      rintro ⟨h1, h2, h3, h4⟩
      rcases hcase with hc | hc | hc | hc
      · rw [hc] at h1; cases h1
      · exact hc h2
      · exact hc h3
      · rw [hc] at h4; cases h4
    · intro h1 h2
      apply hne
      rw [ne_eq, IsEqual_eq_S_OK]
      rintro ⟨_, _, h3, _⟩
      rw [h1, h2] at h3
      revert h3
      decide
  · intro hin hmaj hsub hi1 hi2
    have hf : ¬ ((0 : Nat) &&& (0xFFFFFFFF - MFT_SET_TYPE_TEST_ONLY) ≠ 0) := by decide
    have hck := OnCheckMediaType_eq pmt _ _ hmaj hsub
    rw [if_neg] at hck
    · refine ⟨?_, rfl⟩
      have hset : ((0 : Nat) &&& MFT_SET_TYPE_TEST_ONLY) = 0 := by decide
      simp only [SetOutputType, hf, if_false, hv, Bool.not_true, hp, OnCheckOutputType, hin, hck,
        hset, if_true, catchException, Bool.false_eq_true, EndStreaming, OnSetOutputType]
    · rintro (hc | hc | hc | hc)
      · exact hc rfl
      · exact hc (by decide)
      · exact hi1 hc
      · exact hi2 hc

theorem SetOutputType_negotiation_witness :
    SetOutputType
        { CGrayscaleEffect.new with
          m_spInputType := some ⟨some MFMediaType_Video, some MFVideoFormat_UYVY, some (4, 2),
            none, none⟩ } 0
        (some ⟨some MFMediaType_Video, some MFVideoFormat_NV12, some (4, 2), none, none⟩) 0
      = .returned .MF_E_INVALIDMEDIATYPE
        { CGrayscaleEffect.new with
          m_spInputType := some ⟨some MFMediaType_Video, some MFVideoFormat_UYVY, some (4, 2),
            none, none⟩ } :=
  ((SetOutputType_negotiation
    { CGrayscaleEffect.new with
      m_spInputType := some ⟨some MFMediaType_Video, some MFVideoFormat_UYVY, some (4, 2),
        none, none⟩ }
    ⟨some MFMediaType_Video, some MFVideoFormat_NV12, some (4, 2), none, none⟩ rfl).1
    ⟨some MFMediaType_Video, some MFVideoFormat_UYVY, some (4, 2), none, none⟩ 0
    (Or.inl rfl) rfl).2.2 rfl rfl

/-- C12 fails on the code: with the output type set to a UYVY type, `SetInputType` with
an NV12 candidate succeeds and commits it (the comparison in `OnCheckInputType` is
commented out), and a probe with an audio candidate succeeds too; the mirrored
`SetOutputType` call is rejected with `MF_E_INVALIDMEDIATYPE`. -/
theorem SetInputType_mismatch_accepted :
    (SetInputType
        { CGrayscaleEffect.new with
          m_spOutputType := some ⟨some MFMediaType_Video, some MFVideoFormat_UYVY, some (4, 2),
            none, none⟩ } 0
        (some ⟨some MFMediaType_Video, some MFVideoFormat_NV12, some (4, 2), none, none⟩) 0).hr?
      = some .S_OK ∧
    ((SetInputType
        { CGrayscaleEffect.new with
          m_spOutputType := some ⟨some MFMediaType_Video, some MFVideoFormat_UYVY, some (4, 2),
            none, none⟩ } 0
        (some ⟨some MFMediaType_Video, some MFVideoFormat_NV12, some (4, 2), none, none⟩)
        0).state?.map (fun s => (s.m_spInputType, s.m_spOutputType)))
      = some (some ⟨some MFMediaType_Video, some MFVideoFormat_NV12, some (4, 2), none, none⟩,
          some ⟨some MFMediaType_Video, some MFVideoFormat_UYVY, some (4, 2), none, none⟩) ∧
    (SetInputType
        { CGrayscaleEffect.new with
          m_spOutputType := some ⟨some MFMediaType_Video, some MFVideoFormat_UYVY, some (4, 2),
            none, none⟩ } 0
        (some ⟨some MFMediaType_Audio, none, none, none, none⟩) MFT_SET_TYPE_TEST_ONLY).hr?
      = some .S_OK ∧
    (SetOutputType
        { CGrayscaleEffect.new with
          m_spInputType := some ⟨some MFMediaType_Video, some MFVideoFormat_UYVY, some (4, 2),
            none, none⟩ } 0
        (some ⟨some MFMediaType_Video, some MFVideoFormat_NV12, some (4, 2), none, none⟩) 0).hr?
      = some .MF_E_INVALIDMEDIATYPE := by
  refine ⟨?_, ?_, ?_, ?_⟩ <;> decide

/-- C13: `GetInputAvailableType` / `GetOutputAvailableType` on stream 0.  If the type of
the opposite role is set, index 0 returns exactly that type and every index above 0
returns `MF_E_NO_MORE_TYPES`; if it is unset, indices 0, 1, 2 return the partial type
with major type video and subtype NV12, YUY2, UYVY in that order, and every index from 3
on returns `MF_E_NO_MORE_TYPES`.  Neither call changes the object, whatever its
arguments. -/
theorem available_types (s : CGrayscaleEffect) :
    (∀ t : IMFMediaType, s.m_spOutputType = some t →
      GetInputAvailableType s 0 0 true = TypeQuery.mk .S_OK (some t) s ∧
      ∀ i : Nat, 0 < i →
        GetInputAvailableType s 0 i true = TypeQuery.mk .MF_E_NO_MORE_TYPES none s) ∧
    (s.m_spOutputType = none →
      GetInputAvailableType s 0 0 true = TypeQuery.mk .S_OK
        (some ⟨some MFMediaType_Video, some MFVideoFormat_NV12, none, none, none⟩) s ∧
      GetInputAvailableType s 0 1 true = TypeQuery.mk .S_OK
        (some ⟨some MFMediaType_Video, some MFVideoFormat_YUY2, none, none, none⟩) s ∧
      GetInputAvailableType s 0 2 true = TypeQuery.mk .S_OK
        (some ⟨some MFMediaType_Video, some MFVideoFormat_UYVY, none, none, none⟩) s ∧
      ∀ i : Nat, 3 ≤ i →
        GetInputAvailableType s 0 i true = TypeQuery.mk .MF_E_NO_MORE_TYPES none s) ∧
    (∀ t : IMFMediaType, s.m_spInputType = some t →
      GetOutputAvailableType s 0 0 true = TypeQuery.mk .S_OK (some t) s ∧
      ∀ i : Nat, 0 < i →
        GetOutputAvailableType s 0 i true
          = TypeQuery.mk .MF_E_NO_MORE_TYPES none s) ∧
    (s.m_spInputType = none →
      GetOutputAvailableType s 0 0 true = TypeQuery.mk .S_OK
        (some ⟨some MFMediaType_Video, some MFVideoFormat_NV12, none, none, none⟩) s ∧
      GetOutputAvailableType s 0 1 true = TypeQuery.mk .S_OK
        (some ⟨some MFMediaType_Video, some MFVideoFormat_YUY2, none, none, none⟩) s ∧
      GetOutputAvailableType s 0 2 true = TypeQuery.mk .S_OK
        (some ⟨some MFMediaType_Video, some MFVideoFormat_UYVY, none, none, none⟩) s ∧
      ∀ i : Nat, 3 ≤ i →
        GetOutputAvailableType s 0 i true
          = TypeQuery.mk .MF_E_NO_MORE_TYPES none s) ∧
    (∀ (id i : Nat) (p : Bool),
      (GetInputAvailableType s id i p).s = s ∧ (GetOutputAvailableType s id i p).s = s) := by
  have hvi : IsValidInputStream 0 = true := rfl
  have hvo : IsValidOutputStream 0 = true := rfl
  have hpast : ∀ i : Nat, 3 ≤ i → OnGetPartialType i = .error .MF_E_NO_MORE_TYPES := by
    intro i hi
    have : g_MediaSubtypes.get? i = none := by
      apply List.get?_eq_none.2
      simpa [g_MediaSubtypes] using hi
    simp only [OnGetPartialType, this]
  refine ⟨?_, ?_, ?_, ?_, ?_⟩
  · intro t ht
    constructor
    · simp [GetInputAvailableType, hvi, ht]
    · intro i hi
      simp [GetInputAvailableType, hvi, ht, hi]
  · intro hn
    refine ⟨?_, ?_, ?_, ?_⟩
    · simp [GetInputAvailableType, hvi, hn, OnGetPartialType, g_MediaSubtypes]
    · simp [GetInputAvailableType, hvi, hn, OnGetPartialType, g_MediaSubtypes]
    · simp [GetInputAvailableType, hvi, hn, OnGetPartialType, g_MediaSubtypes]
    · intro i hi
      simp [GetInputAvailableType, hvi, hn, hpast i hi]
  · intro t ht
    constructor
    · simp [GetOutputAvailableType, hvo, ht]
    · intro i hi
      simp [GetOutputAvailableType, hvo, ht, hi]
  · intro hn
    refine ⟨?_, ?_, ?_, ?_⟩
    · simp [GetOutputAvailableType, hvo, hn, OnGetPartialType, g_MediaSubtypes]
    · simp [GetOutputAvailableType, hvo, hn, OnGetPartialType, g_MediaSubtypes]
    · simp [GetOutputAvailableType, hvo, hn, OnGetPartialType, g_MediaSubtypes]
    · intro i hi
      simp [GetOutputAvailableType, hvo, hn, hpast i hi]
  · intro id i p
    constructor
    · unfold GetInputAvailableType
      cases s.m_spOutputType <;> cases OnGetPartialType i <;> simp only [] <;>
        split_ifs <;> rfl
    · unfold GetOutputAvailableType
      cases s.m_spInputType <;> cases OnGetPartialType i <;> simp only [] <;>
        split_ifs <;> rfl

theorem available_types_witness :
    GetInputAvailableType CGrayscaleEffect.new 0 1 true = TypeQuery.mk .S_OK
        (some ⟨some MFMediaType_Video, some MFVideoFormat_YUY2, none, none, none⟩) CGrayscaleEffect.new :=
  ((available_types CGrayscaleEffect.new).2.1 rfl).2.1

/-- C14: a `SetInputType` or `SetOutputType` call made with the test-only flag returns
and leaves the object exactly as it was (both types, geometry, selected transform,
streaming flag, destination rectangle, pending frame), for every state, stream id,
candidate (a type or none) and value of the other flag bits, whether it succeeds or
fails. -/
theorem test_only_commits_nothing (s : CGrayscaleEffect) (id : Nat)
    (pType : Option IMFMediaType) (dwFlags : Nat)
    (htest : dwFlags &&& MFT_SET_TYPE_TEST_ONLY ≠ 0) :
    (∃ hr, SetInputType s id pType dwFlags = .returned hr s) ∧
    (∃ hr, SetOutputType s id pType dwFlags = .returned hr s) := by
  constructor
  · simp only [SetInputType, htest, if_false]
    split_ifs
    · exact ⟨_, rfl⟩
    · exact ⟨_, rfl⟩
    · exact ⟨_, rfl⟩
    · cases pType with
      | none => exact ⟨_, rfl⟩
      | some pmt =>
        simp only []
        rcases OnCheckInputType_cases s pmt with h | ⟨c, _, h⟩ <;> rw [h] <;> exact ⟨_, rfl⟩
  · simp only [SetOutputType, htest, if_false]
    split_ifs
    · exact ⟨_, rfl⟩
    · exact ⟨_, rfl⟩
    · exact ⟨_, rfl⟩
    · cases pType with
      | none => exact ⟨_, rfl⟩
      | some pmt =>
        simp only []
        rcases OnCheckOutputType_cases s pmt with h | ⟨c, _, h⟩ <;> rw [h] <;> exact ⟨_, rfl⟩

theorem test_only_commits_nothing_witness :
    ∃ hr, SetInputType CGrayscaleEffect.new 0
      (some ⟨some MFMediaType_Video, some MFVideoFormat_NV12, some (4, 2), none, none⟩)
      MFT_SET_TYPE_TEST_ONLY = .returned hr CGrayscaleEffect.new :=
  (test_only_commits_nothing CGrayscaleEffect.new 0
    (some ⟨some MFMediaType_Video, some MFVideoFormat_NV12, some (4, 2), none, none⟩)
    MFT_SET_TYPE_TEST_ONLY (by decide)).1

/-- C20: while a frame is pending, `SetInputType` and `SetOutputType` on stream 0 with
valid flags return `MF_E_TRANSFORM_CANNOT_CHANGE_MEDIATYPE_WHILE_PROCESSING` and leave
the object (pending frame, both types, geometry, selected transform, session state) as it
was, for every candidate (a type or none) and either value of the test-only flag. -/
theorem pending_frame_blocks_type_change (s : CGrayscaleEffect) (sample : IMFSample)
    (pType : Option IMFMediaType) (dwFlags : Nat)
    (hflags : dwFlags = 0 ∨ dwFlags = MFT_SET_TYPE_TEST_ONLY)
    (hpend : s.m_spSample = some sample) :
    SetInputType s 0 pType dwFlags
      = .returned .MF_E_TRANSFORM_CANNOT_CHANGE_MEDIATYPE_WHILE_PROCESSING s ∧
    SetOutputType s 0 pType dwFlags
      = .returned .MF_E_TRANSFORM_CANNOT_CHANGE_MEDIATYPE_WHILE_PROCESSING s := by
  have hf := valid_flags dwFlags hflags
  have hp : HasPendingOutput s = true := by simp [HasPendingOutput, hpend]
  have hvi : IsValidInputStream 0 = true := rfl
  have hvo : IsValidOutputStream 0 = true := rfl
  constructor
  · simp only [SetInputType, hf, if_false, hvi, Bool.not_true, hp, if_true, catchException,
      Bool.false_eq_true]
  · simp only [SetOutputType, hf, if_false, hvo, Bool.not_true, hp, if_true, catchException,
      Bool.false_eq_true]

theorem pending_frame_blocks_type_change_witness :
    (SetInputType { CGrayscaleEffect.new with m_spSample := some ⟨none, none, none⟩ } 0 none 0).hr?
      = some .MF_E_TRANSFORM_CANNOT_CHANGE_MEDIATYPE_WHILE_PROCESSING :=
  congrArg Outcome.hr? (pending_frame_blocks_type_change
    { CGrayscaleEffect.new with m_spSample := some ⟨none, none, none⟩ } ⟨none, none, none⟩ none 0
    (Or.inl rfl) rfl).1

/-! ## Committing an input type -/

theorem GetImageSize_ne_ok (fcc w h : Nat) :
    GetImageSize fcc w h ≠ .error (.hr .S_OK) := by
  unfold GetImageSize udiv
  split_ifs <;> simp <;> split_ifs <;> simp

theorem UpdateFormatInfo_ne_ok (s : CGrayscaleEffect) :
    (UpdateFormatInfo s).1 ≠ .error (.hr .S_OK) := by
  unfold UpdateFormatInfo
  simp only []
  cases s.m_spInputType with
  | none => simp
  | some ty =>
    simp only [GetAttribute]
    cases ty.MF_MT_SUBTYPE with
    | none => simp
    | some subtype =>
      simp only []
      split
      · simp
      · cases ty.MF_MT_FRAME_SIZE with
        | none => simp
        | some wh =>
          obtain ⟨w, h⟩ := wh
          simp only []
          have := GetImageSize_ne_ok subtype.Data1 w h
          cases hg : GetImageSize subtype.Data1 w h with
          | error e =>
            rw [hg] at this
            simpa using this
          | ok cb => simp

/-- What `UpdateFormatInfo` leaves when it does not throw, for an input type with the
given subtype and frame size. -/
theorem UpdateFormatInfo_ok (s s1 : CGrayscaleEffect) (pmt : IMFMediaType) (subtype : GUID)
    (w h : Nat) (hin : s.m_spInputType = some pmt) (hsub : pmt.MF_MT_SUBTYPE = some subtype)
    (hsize : pmt.MF_MT_FRAME_SIZE = some (w, h)) (hok : UpdateFormatInfo s = (.ok (), s1)) :
    s1.m_spInputType = some pmt ∧ s1.m_imageWidthInPixels = w ∧ s1.m_imageHeightInPixels = h ∧
    GetImageSize subtype.Data1 w h = .ok s1.m_cbImageSize ∧
    ((subtype = MFVideoFormat_YUY2 ∧ s1.m_pTransformFn = some .YUY2) ∨
      (subtype = MFVideoFormat_UYVY ∧ s1.m_pTransformFn = some .UYVY) ∨
      (subtype = MFVideoFormat_NV12 ∧ s1.m_pTransformFn = some .NV12)) ∧
    s1.m_fStreamingInitialized = s.m_fStreamingInitialized ∧ s1.m_rcDest = s.m_rcDest ∧
    s1.m_spOutputType = s.m_spOutputType ∧ s1.m_spSample = s.m_spSample := by
  unfold UpdateFormatInfo at hok
  simp only [hin, hsub, hsize, GetAttribute] at hok
  cases hg : GetImageSize subtype.Data1 w h with
  | error e =>
    rw [hg] at hok
    split at hok <;> simp at hok
  | ok cb =>
    rw [hg] at hok
    split at hok
    · simp at hok
    · rename_i fn hfn
      simp only [Prod.mk.injEq, true_and] at hok
      subst hok
      refine ⟨rfl, rfl, rfl, rfl, ?_, rfl, rfl, rfl, rfl⟩
      split_ifs at hfn with h1 h2 h3
      · exact Or.inl ⟨h1, by rw [← Option.some.inj hfn]⟩
      · exact Or.inr (Or.inl ⟨h2, by rw [← Option.some.inj hfn]⟩)
      · exact Or.inr (Or.inr ⟨h3, by rw [← Option.some.inj hfn]⟩)

/-- C16: after a successful committing `SetInputType` with a format of subtype `subtype`
and frame size `w x h`, the current input type is that format, the stored width and
height are `w` and `h`, the stored image size is `GetImageSize` of the subtype and frame
size, the selected transform is the one for the subtype, and the session is not
initialized.  A committing `SetInputType` with no type, with no frame pending, succeeds
and leaves the input type unset, width, height and image size 0, no transform selected
and the session not initialized.  In both cases the output type and the pending frame
are unchanged. -/
theorem SetInputType_commit (s : CGrayscaleEffect) :
    (∀ (id dwFlags : Nat) (pmt : IMFMediaType) (subtype : GUID) (w h : Nat)
        (s1 : CGrayscaleEffect),
      pmt.MF_MT_SUBTYPE = some subtype → pmt.MF_MT_FRAME_SIZE = some (w, h) →
      dwFlags &&& MFT_SET_TYPE_TEST_ONLY = 0 →
      SetInputType s id (some pmt) dwFlags = .returned .S_OK s1 →
      s1.m_spInputType = some pmt ∧ s1.m_imageWidthInPixels = w ∧
      s1.m_imageHeightInPixels = h ∧
      GetImageSize subtype.Data1 w h = .ok s1.m_cbImageSize ∧
      ((subtype = MFVideoFormat_YUY2 ∧ s1.m_pTransformFn = some .YUY2) ∨
        (subtype = MFVideoFormat_UYVY ∧ s1.m_pTransformFn = some .UYVY) ∨
        (subtype = MFVideoFormat_NV12 ∧ s1.m_pTransformFn = some .NV12)) ∧
      s1.m_fStreamingInitialized = false ∧
      s1.m_spOutputType = s.m_spOutputType ∧ s1.m_spSample = s.m_spSample) ∧
    (s.m_spSample = none →
      SetInputType s 0 none 0 = .returned .S_OK
        { s with
          m_spInputType := none
          m_imageWidthInPixels := 0
          m_imageHeightInPixels := 0
          m_cbImageSize := 0
          m_pTransformFn := none
          m_fStreamingInitialized := false }) := by
  constructor
  · intro id dwFlags pmt subtype w h s1 hsub hsize hset hret
    simp only [SetInputType, hset, if_true] at hret
    split_ifs at hret with hf hv hp
    · simp [catchException] at hret
    · simp [catchException] at hret
    · simp [catchException] at hret
    · rcases OnCheckInputType_cases s pmt with hc | ⟨c, hne, hc⟩
      · rw [hc] at hret
        simp only [OnSetInputType] at hret
        have hne := UpdateFormatInfo_ne_ok { s with m_spInputType := some pmt }
        rcases hu : UpdateFormatInfo { s with m_spInputType := some pmt } with ⟨r, s2⟩
        rw [hu] at hret hne
        cases r with
        | error e =>
          cases e with
          | hr code =>
            simp only [catchException, Outcome.returned.injEq] at hret
            exact absurd (by rw [hret.1]) hne
          | divideByZero => simp [catchException] at hret
          | accessViolation => simp [catchException] at hret
        | ok u =>
          simp only [catchException, Outcome.returned.injEq, true_and] at hret
          obtain ⟨h1, h2, h3, h4, h5, _, _, h8, h9⟩ :=
            UpdateFormatInfo_ok { s with m_spInputType := some pmt } s2 pmt subtype w h rfl hsub
              hsize hu
          subst hret
          exact ⟨h1, h2, h3, h4, h5, rfl, h8, h9⟩
      · rw [hc] at hret
        simp only [catchException, Outcome.returned.injEq] at hret
        exact absurd hret.1 hne
  · intro hpend
    have hp : HasPendingOutput s = false := by simp [HasPendingOutput, hpend]
    have hv : IsValidInputStream 0 = true := rfl
    have hf : ¬ ((0 : Nat) &&& (0xFFFFFFFF - MFT_SET_TYPE_TEST_ONLY) ≠ 0) := by decide
    have hset : ((0 : Nat) &&& MFT_SET_TYPE_TEST_ONLY) = 0 := by decide
    simp only [SetInputType, hf, if_false, hv, Bool.not_true, hp, hset, if_true, OnSetInputType,
      UpdateFormatInfo, catchException, EndStreaming, Bool.false_eq_true]

theorem SetInputType_commit_witness :
    GetImageSize MFVideoFormat_UYVY.Data1 4 2 = .ok 16 :=
  ((SetInputType_commit CGrayscaleEffect.new).1 0 0
      ⟨some MFMediaType_Video, some MFVideoFormat_UYVY, some (4, 2), none, none⟩
      MFVideoFormat_UYVY 4 2
      { CGrayscaleEffect.new with
        m_spInputType :=
          some ⟨some MFMediaType_Video, some MFVideoFormat_UYVY, some (4, 2), none, none⟩
        m_imageWidthInPixels := 4
        m_imageHeightInPixels := 2
        m_cbImageSize := 16
        m_pTransformFn := some .UYVY }
      rfl rfl (by decide) rfl).2.2.2.1

/-- C15 fails on the code: from the freshly constructed transform, with a video NV12
candidate that has no frame size, the probe (test-only flag) succeeds while the same call
without the flag fails with `MF_E_ATTRIBUTENOTFOUND`, after storing the candidate as the
input type; with a YUY2 candidate of 65536 x 65536 the probe succeeds while the committing
call fails with `E_INVALIDARG`. -/
theorem probe_succeeds_commit_fails :
    (SetInputType CGrayscaleEffect.new 0
        (some ⟨some MFMediaType_Video, some MFVideoFormat_NV12, none, none, none⟩)
        MFT_SET_TYPE_TEST_ONLY).hr? = some .S_OK ∧
    (SetInputType CGrayscaleEffect.new 0
        (some ⟨some MFMediaType_Video, some MFVideoFormat_NV12, none, none, none⟩) 0).hr?
      = some .MF_E_ATTRIBUTENOTFOUND ∧
    (SetInputType CGrayscaleEffect.new 0
        (some ⟨some MFMediaType_Video, some MFVideoFormat_NV12, none, none, none⟩)
        0).state?.map (fun s => s.m_spInputType)
      = some (some ⟨some MFMediaType_Video, some MFVideoFormat_NV12, none, none, none⟩) ∧
    (SetInputType CGrayscaleEffect.new 0
        (some ⟨some MFMediaType_Video, some MFVideoFormat_YUY2, some (65536, 65536), none, none⟩)
        MFT_SET_TYPE_TEST_ONLY).hr? = some .S_OK ∧
    (SetInputType CGrayscaleEffect.new 0
        (some ⟨some MFMediaType_Video, some MFVideoFormat_YUY2, some (65536, 65536), none, none⟩)
        0).hr? = some .E_INVALIDARG := by
  refine ⟨?_, ?_, ?_, ?_, ?_⟩ <;> decide

/-! ## Accepting input and producing output -/

/-- What `BeginStreaming` does to each data member. -/
theorem BeginStreaming_fields (s : CGrayscaleEffect) :
    (BeginStreaming s).m_fStreamingInitialized = true ∧
    (BeginStreaming s).m_rcDest = (if s.m_fStreamingInitialized then s.m_rcDest
      else ⟨0, 0, s.m_imageWidthInPixels, s.m_imageHeightInPixels⟩) ∧
    (BeginStreaming s).m_spInputType = s.m_spInputType ∧
    (BeginStreaming s).m_spOutputType = s.m_spOutputType ∧
    (BeginStreaming s).m_imageWidthInPixels = s.m_imageWidthInPixels ∧
    (BeginStreaming s).m_imageHeightInPixels = s.m_imageHeightInPixels ∧
    (BeginStreaming s).m_cbImageSize = s.m_cbImageSize ∧
    (BeginStreaming s).m_pTransformFn = s.m_pTransformFn := by
  unfold BeginStreaming
  cases hinit : s.m_fStreamingInitialized <;> simp [hinit]

/-- C17: with a frame, flags 0 and stream 0, `ProcessInput` succeeds exactly when both
types are set and no frame is pending; otherwise it returns `MF_E_NOTACCEPTING` and
leaves the object as it was, so a second `ProcessInput` right after a successful one
fails.  On success the frame is pending, the session is initialized, the destination
rectangle is `(0, 0, width, height)` if the session was not initialized and is untouched
if it was, and both types and the geometry are unchanged. -/
theorem ProcessInput_accepts (s : CGrayscaleEffect) (sample : IMFSample) :
    ((s.m_spInputType.isSome ∧ s.m_spOutputType.isSome ∧ s.m_spSample = none) →
      ∃ s1, ProcessInput s 0 (some sample) 0 = .returned .S_OK s1 ∧
        s1.m_spSample = some sample ∧ s1.m_fStreamingInitialized = true ∧
        s1.m_rcDest = (if s.m_fStreamingInitialized then s.m_rcDest
          else ⟨0, 0, s.m_imageWidthInPixels, s.m_imageHeightInPixels⟩) ∧
        s1.m_spInputType = s.m_spInputType ∧ s1.m_spOutputType = s.m_spOutputType ∧
        s1.m_imageWidthInPixels = s.m_imageWidthInPixels ∧
        s1.m_imageHeightInPixels = s.m_imageHeightInPixels ∧
        s1.m_cbImageSize = s.m_cbImageSize ∧ s1.m_pTransformFn = s.m_pTransformFn ∧
        ∀ sample2 : IMFSample,
          ProcessInput s1 0 (some sample2) 0 = .returned .MF_E_NOTACCEPTING s1) ∧
    (¬ (s.m_spInputType.isSome ∧ s.m_spOutputType.isSome ∧ s.m_spSample = none) →
      ProcessInput s 0 (some sample) 0 = .returned .MF_E_NOTACCEPTING s) := by
  have hv : IsValidInputStream 0 = true := rfl
  constructor
  · rintro ⟨hi, ho, hs⟩
    have hi' : s.m_spInputType.isNone = false := by
      cases h : s.m_spInputType <;> simp_all
    have ho' : s.m_spOutputType.isNone = false := by
      cases h : s.m_spOutputType <;> simp_all
    obtain ⟨b1, b2, b3, b4, b5, b6, b7, b8⟩ := BeginStreaming_fields s
    refine ⟨{ BeginStreaming s with m_spSample := some sample }, ?_, rfl, b1, b2, b3, b4, b5, b6,
      b7, b8, ?_⟩
    · simp [ProcessInput, hv, hi', ho', hs, catchException]
    · intro sample2
      have hi2 : ({ BeginStreaming s with m_spSample := some sample }
          : CGrayscaleEffect).m_spInputType.isNone = false := by
        show (BeginStreaming s).m_spInputType.isNone = false
        rw [b3]; exact hi'
      have ho2 : ({ BeginStreaming s with m_spSample := some sample }
          : CGrayscaleEffect).m_spOutputType.isNone = false := by
        show (BeginStreaming s).m_spOutputType.isNone = false
        rw [b4]; exact ho'
      simp only [ProcessInput, hv, hi2, ho2, catchException, Bool.not_true, Bool.or_self,
        Option.isSome_some, if_true, if_false, ne_eq, not_true_eq_false, Bool.false_eq_true]
  · intro hnot
    by_cases h1 : s.m_spInputType.isNone || s.m_spOutputType.isNone
    · simp [ProcessInput, hv, h1, catchException]
    · have h2 : s.m_spSample.isSome = true := by
        cases hs : s.m_spSample with
        | some x => rfl
        | none =>
          exfalso
          apply hnot
          cases hi : s.m_spInputType <;> cases ho : s.m_spOutputType <;> simp_all
      simp [ProcessInput, hv, h1, h2, catchException]

theorem ProcessInput_accepts_witness :
    ProcessInput CGrayscaleEffect.new 0 (some ⟨none, none, none⟩) 0
      = .returned .MF_E_NOTACCEPTING CGrayscaleEffect.new :=
  (ProcessInput_accepts CGrayscaleEffect.new ⟨none, none, none⟩).2
    (fun h => absurd h.1 (by decide))

/-- Every `ProcessOutput` call that returns leaves no pending frame. -/
theorem ProcessOutput_releases (s : CGrayscaleEffect) (dwFlags cOutputBufferCount : Nat)
    (pOutputSamples : Option MFT_OUTPUT_DATA_BUFFER) (pdwStatus : Option Nat)
    (r : ProcessOutputReturn)
    (hret : ProcessOutput s dwFlags cOutputBufferCount pOutputSamples pdwStatus = some r) :
    r.s.m_spSample = none := by
  unfold ProcessOutput at hret
  simp only [] at hret
  repeat' split at hret
  all_goals first
    | (simp only [Option.some.injEq] at hret; rw [← hret]; rfl)
    | (simp only [Option.some.injEq] at hret; rw [← hret]; assumption)
    | simp at hret

/-- C18: after any `ProcessOutput` call that returns, with any result and any arguments,
no input frame is pending: `GetInputStatus` reports accept-data, `GetOutputStatus` reports
not-ready, and a following `ProcessInput` (valid arguments) succeeds as soon as both
types are set. -/
theorem ProcessOutput_leaves_no_frame (s : CGrayscaleEffect)
    (dwFlags cOutputBufferCount : Nat) (pOutputSamples : Option MFT_OUTPUT_DATA_BUFFER)
    (pdwStatus : Option Nat) (r : ProcessOutputReturn)
    (hret : ProcessOutput s dwFlags cOutputBufferCount pOutputSamples pdwStatus = some r) :
    r.s.m_spSample = none ∧
    GetInputStatus r.s 0 true = (.S_OK, some MFT_INPUT_STATUS_ACCEPT_DATA) ∧
    GetOutputStatus r.s true = (.S_OK, some 0) ∧
    (∀ sample : IMFSample, r.s.m_spInputType.isSome → r.s.m_spOutputType.isSome →
      (ProcessInput r.s 0 (some sample) 0).hr? = some .S_OK) := by
  have hnone := ProcessOutput_releases s dwFlags cOutputBufferCount pOutputSamples pdwStatus r hret
  have hv : IsValidInputStream 0 = true := rfl
  refine ⟨hnone, ?_, ?_, ?_⟩
  · simp [GetInputStatus, hv, hnone]
  · simp [GetOutputStatus, hnone]
  · intro sample hi ho
    obtain ⟨s1, h1, _⟩ := (ProcessInput_accepts r.s sample).1 ⟨hi, ho, hnone⟩
    rw [h1]; rfl

theorem ProcessOutput_leaves_no_frame_witness :
    GetOutputStatus { CGrayscaleEffect.new with m_spSample := none } true = (.S_OK, some 0) :=
  (ProcessOutput_leaves_no_frame
    { CGrayscaleEffect.new with m_spSample := some ⟨none, none, none⟩ } 1 1 none none
    ⟨.E_INVALIDARG, { CGrayscaleEffect.new with m_spSample := none }, none, none⟩ rfl).2.2.1

/-- C19: with no frame pending, `ProcessOutput` with valid arguments (flags 0, exactly
one output slot holding a sample, non-null status pointer) returns
`MF_E_TRANSFORM_NEED_MORE_INPUT` and leaves the object exactly as it was (the session is
not initialized on this path), and leaves the output slot and the status word alone. -/
theorem ProcessOutput_need_more_input (s : CGrayscaleEffect) (outSample : IMFSample)
    (dwStatus status : Nat) (hpend : s.m_spSample = none) :
    ProcessOutput s 0 1 (some ⟨some outSample, dwStatus⟩) (some status)
      = some { hr := .MF_E_TRANSFORM_NEED_MORE_INPUT, s := s,
               pOutputSamples := some ⟨some outSample, dwStatus⟩, pdwStatus := some status } := by
  simp [ProcessOutput, hpend]

theorem ProcessOutput_need_more_input_witness :
    ProcessOutput CGrayscaleEffect.new 0 1 (some ⟨some ⟨none, none, none⟩, 7⟩) (some 9)
      = some { hr := .MF_E_TRANSFORM_NEED_MORE_INPUT, s := CGrayscaleEffect.new,
               pOutputSamples := some ⟨some ⟨none, none, none⟩, 7⟩, pdwStatus := some 9 } :=
  ProcessOutput_need_more_input CGrayscaleEffect.new ⟨none, none, none⟩ 7 9 rfl

theorem GetDefaultStride_cases (t : IMFMediaType) :
    (∃ r, GetDefaultStride t = .ok r) ∨ ∃ c, GetDefaultStride t = .error (.hr c) := by
  unfold GetDefaultStride GetAttribute
  cases t.MF_MT_DEFAULT_STRIDE <;> cases t.MF_MT_SUBTYPE <;> cases t.MF_MT_FRAME_SIZE <;>
    simp only [] <;>
    first
    | exact Or.inl ⟨_, rfl⟩
    | exact Or.inr ⟨_, rfl⟩
    | (split_ifs <;> first | exact Or.inl ⟨_, rfl⟩ | exact Or.inr ⟨_, rfl⟩)

theorem VideoBufferLock_cases (b : IMFMediaBuffer) (l : Int) :
    (∃ r, VideoBufferLock b l = .ok r) ∨ ∃ c, VideoBufferLock b l = .error (.hr c) := by
  unfold VideoBufferLock
  split_ifs
  · exact Or.inr ⟨_, rfl⟩
  · exact Or.inl ⟨_, rfl⟩

/-- With an input type set, `OnProcessOutput` ends normally or with an exception that
carries an `HRESULT`. -/
theorem OnProcessOutput_cases (s : CGrayscaleEffect) (pIn pOut : IMFMediaBuffer)
    (t : IMFMediaType) (hin : s.m_spInputType = some t) :
    (OnProcessOutput s pIn pOut).1 = .ok () ∨
      ∃ c, (OnProcessOutput s pIn pOut).1 = .error (.hr c) := by
  unfold OnProcessOutput
  simp only [hin]
  rcases GetDefaultStride_cases t with ⟨⟨l, t1⟩, h⟩ | ⟨c, h⟩
  · rw [h]
    simp only []
    rcases VideoBufferLock_cases pIn l with ⟨r1, h1⟩ | ⟨c, h1⟩
    · rw [h1]
      simp only []
      rcases VideoBufferLock_cases pOut l with ⟨r2, h2⟩ | ⟨c, h2⟩
      · rw [h2]
        simp only []
        cases s.m_pTransformFn with
        | none => exact Or.inr ⟨_, rfl⟩
        | some fn =>
          simp only []
          split_ifs
          · exact Or.inr ⟨_, rfl⟩
          · exact Or.inl rfl
      · rw [h2]; exact Or.inr ⟨_, rfl⟩
    · rw [h1]; exact Or.inr ⟨_, rfl⟩
  · rw [h]; exact Or.inr ⟨_, rfl⟩

/-- The call `ProcessOutput` returns whenever no frame is pending or an input type is
set. -/
theorem ProcessOutput_returns (s : CGrayscaleEffect) (dwFlags cOutputBufferCount : Nat)
    (pOutputSamples : Option MFT_OUTPUT_DATA_BUFFER) (pdwStatus : Option Nat)
    (h : s.m_spSample = none ∨ s.m_spInputType.isSome) :
    ∃ r, ProcessOutput s dwFlags cOutputBufferCount pOutputSamples pdwStatus = some r := by
  unfold ProcessOutput
  simp only []
  repeat' split
  all_goals first
    | exact ⟨_, rfl⟩
    | skip
  rename_i p1 inSample hs x1 bufIn hbi x2 bufOut hbo x3 e s2 o2 hne hop
  rcases h with h | h
  · rw [h] at hs; cases hs
  · cases hi : s.m_spInputType with
    | none => rw [hi] at h; cases h
    | some t =>
      have hb : (BeginStreaming s).m_spInputType = some t := by
        rw [(BeginStreaming_fields s).2.2.1, hi]
      rcases OnProcessOutput_cases (BeginStreaming s) bufIn bufOut t hb with h1 | ⟨c, h1⟩
      · rw [hop] at h1; cases h1
      · rw [hop] at h1
        simp only [Except.error.injEq] at h1
        exact absurd h1 (hne c)

/-- What does hold between a probe and the committing call: for `SetOutputType` both
return the same `HRESULT`; for `SetInputType` a probe that fails fails in the same way
when committing, leaving the object as it was, and a committing call that succeeds means
the probe succeeds. -/
theorem probe_and_commit (s : CGrayscaleEffect) (id : Nat) (pType : Option IMFMediaType) :
    (SetOutputType s id pType MFT_SET_TYPE_TEST_ONLY).hr? = (SetOutputType s id pType 0).hr? ∧
    (∀ c, c ≠ .S_OK → SetInputType s id pType MFT_SET_TYPE_TEST_ONLY = .returned c s →
      SetInputType s id pType 0 = .returned c s) ∧
    ((SetInputType s id pType 0).hr? = some .S_OK →
      (SetInputType s id pType MFT_SET_TYPE_TEST_ONLY).hr? = some .S_OK) := by
  have hf0 : ¬ ((0 : Nat) &&& (0xFFFFFFFF - MFT_SET_TYPE_TEST_ONLY) ≠ 0) := by decide
  have hf1 : ¬ (MFT_SET_TYPE_TEST_ONLY &&& (0xFFFFFFFF - MFT_SET_TYPE_TEST_ONLY) ≠ 0) := by
    decide
  have hs0 : ((0 : Nat) &&& MFT_SET_TYPE_TEST_ONLY) = 0 := by decide
  have hs1 : ¬ (MFT_SET_TYPE_TEST_ONLY &&& MFT_SET_TYPE_TEST_ONLY) = 0 := by decide
  refine ⟨?_, ?_, ?_⟩
  · cases pType with
    | none =>
      simp only [SetOutputType, hf0, hf1, hs0, hs1, if_false, if_true]
      split_ifs <;> rfl
    | some pmt =>
      rcases OnCheckOutputType_cases s pmt with h | ⟨c, _, h⟩ <;>
        simp only [SetOutputType, hf0, hf1, hs0, hs1, if_false, if_true, h] <;>
        split_ifs <;> rfl
  · intro c hc hprobe
    cases pType with
    | none =>
      simp only [SetInputType, hf0, hf1, hs0, hs1, if_false, if_true] at hprobe ⊢
      split_ifs at hprobe ⊢
      · exact hprobe
      · exact hprobe
      · simp only [catchException, Outcome.returned.injEq, and_true] at hprobe
        exact absurd hprobe.symm hc
    | some pmt =>
      rcases OnCheckInputType_cases s pmt with h | ⟨c', _, h⟩
      · simp only [SetInputType, hf0, hf1, hs0, hs1, if_false, if_true, h] at hprobe ⊢
        split_ifs at hprobe ⊢
        · exact hprobe
        · exact hprobe
        · simp only [catchException, Outcome.returned.injEq, and_true] at hprobe
          exact absurd hprobe.symm hc
      · simp only [SetInputType, hf0, hf1, hs0, hs1, if_false, if_true, h] at hprobe ⊢
        split_ifs at hprobe ⊢ <;> exact hprobe
  · intro hcommit
    cases pType with
    | none =>
      simp only [SetInputType, hf0, hf1, hs0, hs1, if_false, if_true] at hcommit ⊢
      split_ifs at hcommit ⊢
      · exact hcommit
      · exact hcommit
      · rfl
    | some pmt =>
      rcases OnCheckInputType_cases s pmt with h | ⟨c', hc', h⟩
      · simp only [SetInputType, hf0, hf1, hs0, hs1, if_false, if_true, h] at hcommit ⊢
        split_ifs at hcommit ⊢
        · exact hcommit
        · exact hcommit
        · rfl
      · simp only [SetInputType, hf0, hf1, hs0, hs1, if_false, if_true, h] at hcommit ⊢
        split_ifs at hcommit ⊢ <;> exact hcommit

/-! ## Messages -/

/-- C21: the flush message returns `S_OK` from every state and the state it leaves is the
state before with no frame pending (every other member as it was); when both types are
set, `ProcessInput` with a sample, flags 0 and stream 0 issued on that state returns
`S_OK` and holds the sample, whether or not a frame was pending before the flush. -/
theorem flush_then_accept (s : CGrayscaleEffect) (ulParam : Nat) :
    ProcessMessage s MFT_MESSAGE_COMMAND_FLUSH ulParam
      = .returned .S_OK { s with m_spSample := none } ∧
    (s.m_spInputType.isSome → s.m_spOutputType.isSome → ∀ sample : IMFSample,
      ProcessInput { s with m_spSample := none } 0 (some sample) 0
        = .returned .S_OK
            { BeginStreaming { s with m_spSample := none } with m_spSample := some sample }) := by
  refine ⟨rfl, ?_⟩
  intro hi ho sample
  cases hI : s.m_spInputType with
  | none => rw [hI] at hi; cases hi
  | some ti =>
    cases hO : s.m_spOutputType with
    | none => rw [hO] at ho; cases ho
    | some tOut =>
      have hv : IsValidInputStream 0 = true := rfl
      simp only [ProcessInput, hv]
      rfl

theorem flush_then_accept_witness :
    (ProcessMessage { CGrayscaleEffect.new with
        m_spSample := some ⟨none, none, none⟩
        m_spInputType := some ⟨none, none, none, none, none⟩
        m_spOutputType := some ⟨none, none, none, none, none⟩ } MFT_MESSAGE_COMMAND_FLUSH 0).hr?
      = some .S_OK ∧
    (ProcessInput { CGrayscaleEffect.new with
        m_spSample := none
        m_spInputType := some ⟨none, none, none, none, none⟩
        m_spOutputType := some ⟨none, none, none, none, none⟩ } 0 (some ⟨none, some 5, none⟩) 0).hr?
      = some .S_OK :=
  ⟨congrArg Outcome.hr? (flush_then_accept { CGrayscaleEffect.new with
        m_spSample := some ⟨none, none, none⟩
        m_spInputType := some ⟨none, none, none, none, none⟩
        m_spOutputType := some ⟨none, none, none, none, none⟩ } 0).1,
   congrArg Outcome.hr? ((flush_then_accept { CGrayscaleEffect.new with
        m_spSample := some ⟨none, none, none⟩
        m_spInputType := some ⟨none, none, none, none, none⟩
        m_spOutputType := some ⟨none, none, none, none, none⟩ } 0).2 rfl rfl ⟨none, some 5, none⟩)⟩

/-- C22: the begin-streaming message returns `S_OK`; from a session that is not
initialized it sets the destination rectangle to (0, 0, width, height) and marks the
session initialized, from an initialized session it changes nothing, and sending it to the
state it left leaves that state again.  The end-streaming message returns `S_OK` from
every state and leaves the state before with the session marked not initialized. -/
theorem streaming_messages (s : CGrayscaleEffect) (ulParam : Nat) :
    (s.m_fStreamingInitialized = false →
      ProcessMessage s MFT_MESSAGE_NOTIFY_BEGIN_STREAMING ulParam
        = .returned .S_OK { s with
            m_rcDest := ⟨0, 0, s.m_imageWidthInPixels, s.m_imageHeightInPixels⟩
            m_fStreamingInitialized := true }) ∧
    (s.m_fStreamingInitialized = true →
      ProcessMessage s MFT_MESSAGE_NOTIFY_BEGIN_STREAMING ulParam = .returned .S_OK s) ∧
    (∃ s1, ProcessMessage s MFT_MESSAGE_NOTIFY_BEGIN_STREAMING ulParam = .returned .S_OK s1 ∧
      ProcessMessage s1 MFT_MESSAGE_NOTIFY_BEGIN_STREAMING ulParam = .returned .S_OK s1) ∧
    ProcessMessage s MFT_MESSAGE_NOTIFY_END_STREAMING ulParam
      = .returned .S_OK { s with m_fStreamingInitialized := false } := by
  have hb : ProcessMessage s MFT_MESSAGE_NOTIFY_BEGIN_STREAMING ulParam
      = .returned .S_OK (BeginStreaming s) := rfl
  have hb2 : ProcessMessage (BeginStreaming s) MFT_MESSAGE_NOTIFY_BEGIN_STREAMING ulParam
      = .returned .S_OK (BeginStreaming (BeginStreaming s)) := rfl
  have hidem : BeginStreaming (BeginStreaming s) = BeginStreaming s := by
    cases h : s.m_fStreamingInitialized <;> simp [BeginStreaming, h]
  refine ⟨?_, ?_, ⟨BeginStreaming s, hb, ?_⟩, rfl⟩
  · intro h
    rw [hb]
    simp [BeginStreaming, h]
  · intro h
    rw [hb]
    simp [BeginStreaming, h]
  · rw [hb2, hidem]

theorem streaming_messages_witness :
    ProcessMessage { CGrayscaleEffect.new with
        m_imageWidthInPixels := 4, m_imageHeightInPixels := 2 }
      MFT_MESSAGE_NOTIFY_BEGIN_STREAMING 0
      = .returned .S_OK { CGrayscaleEffect.new with
          m_imageWidthInPixels := 4, m_imageHeightInPixels := 2
          m_rcDest := ⟨0, 0, 4, 2⟩
          m_fStreamingInitialized := true } :=
  (streaming_messages { CGrayscaleEffect.new with
        m_imageWidthInPixels := 4, m_imageHeightInPixels := 2 } 0).1 rfl

/-! ## Failed type changes and reachable states -/

/-- A call of `SetOutputType` that returns an error leaves the object as it was. -/
theorem SetOutputType_error_state (s s1 : CGrayscaleEffect) (id : Nat)
    (pType : Option IMFMediaType) (dwFlags : Nat) (hr : HRESULT)
    (h : SetOutputType s id pType dwFlags = .returned hr s1) (hne : hr ≠ .S_OK) : s1 = s := by
  unfold SetOutputType at h
  by_cases h1 : (!IsValidOutputStream id) = true
  · rw [if_pos h1] at h; cases h; rfl
  rw [if_neg h1] at h
  by_cases h2 : dwFlags &&& (0xFFFFFFFF - MFT_SET_TYPE_TEST_ONLY) ≠ 0
  · rw [if_pos h2] at h; cases h; rfl
  rw [if_neg h2] at h
  simp only [] at h
  by_cases h3 : HasPendingOutput s = true
  · rw [if_pos h3] at h; cases h; rfl
  rw [if_neg h3] at h
  cases pType with
  | none =>
    simp only [] at h
    split_ifs at h <;> (cases h; exact absurd rfl hne)
  | some pmt =>
    simp only [] at h
    rcases OnCheckOutputType_cases s pmt with hok | ⟨c, _, herr⟩
    · rw [hok] at h
      simp only [] at h
      split_ifs at h <;> (cases h; exact absurd rfl hne)
    · rw [herr] at h
      cases h; rfl

/-- C24 fails on the code: from the freshly constructed transform, the committing
`SetInputType` with a video YUY2 candidate of 65536 x 65536 returns `E_INVALIDARG` (the
image size overflows) and leaves the candidate stored as the input type, with its width,
its height and the YUY2 transform; with a video NV12 candidate that has no frame size it
returns `MF_E_ATTRIBUTENOTFOUND` and leaves the candidate stored with the NV12 transform.
Before the calls there was no input type, no transform, and width and height were 0. -/
theorem failed_commit_not_atomic :
    SetInputType CGrayscaleEffect.new 0
        (some ⟨some MFMediaType_Video, some MFVideoFormat_YUY2, some (65536, 65536), none, none⟩) 0
      = .returned .E_INVALIDARG
          { CGrayscaleEffect.new with
            m_spInputType := some ⟨some MFMediaType_Video, some MFVideoFormat_YUY2,
              some (65536, 65536), none, none⟩
            m_pTransformFn := some .YUY2
            m_imageWidthInPixels := 65536
            m_imageHeightInPixels := 65536 } ∧
    SetInputType CGrayscaleEffect.new 0
        (some ⟨some MFMediaType_Video, some MFVideoFormat_NV12, none, none, none⟩) 0
      = .returned .MF_E_ATTRIBUTENOTFOUND
          { CGrayscaleEffect.new with
            m_spInputType := some ⟨some MFMediaType_Video, some MFVideoFormat_NV12, none, none,
              none⟩
            m_pTransformFn := some .NV12 } ∧
    CGrayscaleEffect.new.m_spInputType = none ∧
    CGrayscaleEffect.new.m_pTransformFn = none ∧
    CGrayscaleEffect.new.m_imageWidthInPixels = 0 ∧
    CGrayscaleEffect.new.m_imageHeightInPixels = 0 :=
  ⟨rfl, rfl, rfl, rfl, rfl, rfl⟩

/-- C25 fails on the code: after `SetOutputType` with a UYVY type and then `SetInputType`
with an NV12 type, both calls returning `S_OK`, the input type is NV12 and the output
type is UYVY. -/
theorem reachable_types_differ :
    ∃ s : CGrayscaleEffect, Reachable s ∧
      s.m_spInputType
        = some ⟨some MFMediaType_Video, some MFVideoFormat_NV12, some (4, 2), none, none⟩ ∧
      s.m_spOutputType
        = some ⟨some MFMediaType_Video, some MFVideoFormat_UYVY, some (4, 2), none, none⟩ ∧
      MFVideoFormat_NV12 ≠ MFVideoFormat_UYVY ∧
      (SetOutputType CGrayscaleEffect.new 0
        (some ⟨some MFMediaType_Video, some MFVideoFormat_UYVY, some (4, 2), none, none⟩) 0).hr?
        = some .S_OK ∧
      (SetInputType { CGrayscaleEffect.new with
          m_spOutputType := some ⟨some MFMediaType_Video, some MFVideoFormat_UYVY, some (4, 2),
            none, none⟩ } 0
        (some ⟨some MFMediaType_Video, some MFVideoFormat_NV12, some (4, 2), none, none⟩) 0).hr?
        = some .S_OK :=
  ⟨_, ⟨[.SetOutputType 0
          (some ⟨some MFMediaType_Video, some MFVideoFormat_UYVY, some (4, 2), none, none⟩) 0,
        .SetInputType 0
          (some ⟨some MFMediaType_Video, some MFVideoFormat_NV12, some (4, 2), none, none⟩) 0],
      rfl⟩, rfl, rfl, by decide, rfl, rfl⟩

/-- C26 fails on the code: the state after the failed committing `SetInputType` with a
video YUY2 type of 65536 x 65536 is reachable; its input type is set and its stored image
size is 0, while `GetImageSize` has no size for that subtype and frame size.  The state
after `SetOutputType` with a UYVY type and then a failing `SetInputType` with a video type
of an unsupported subtype is reachable too; its input type is set and no transform is
selected. -/
theorem reachable_stale_geometry :
    (∃ s : CGrayscaleEffect, Reachable s ∧
      s.m_spInputType = some ⟨some MFMediaType_Video, some MFVideoFormat_YUY2,
        some (65536, 65536), none, none⟩ ∧
      s.m_cbImageSize = 0 ∧
      GetImageSize MFVideoFormat_YUY2.Data1 65536 65536 = .error (.hr .E_INVALIDARG)) ∧
    (∃ s : CGrayscaleEffect, Reachable s ∧
      s.m_spInputType = some ⟨some MFMediaType_Video, some (MFVideoFormat 0x32315659),
        some (4, 2), none, none⟩ ∧
      s.m_pTransformFn = none) :=
  ⟨⟨_, ⟨[.SetInputType 0 (some ⟨some MFMediaType_Video, some MFVideoFormat_YUY2,
        some (65536, 65536), none, none⟩) 0], rfl⟩, rfl, rfl, rfl⟩,
   ⟨_, ⟨[.SetOutputType 0
          (some ⟨some MFMediaType_Video, some MFVideoFormat_UYVY, some (4, 2), none, none⟩) 0,
        .SetInputType 0 (some ⟨some MFMediaType_Video, some (MFVideoFormat 0x32315659),
          some (4, 2), none, none⟩) 0], rfl⟩, rfl, rfl⟩⟩

/-- C27 fails on the code.  On stream 0 both queries return `S_OK`, leave the object as
it was and report the fixed flags; `GetInputStreamInfo` reports the stored image size
when an input type is set and 0 when not; `GetOutputStreamInfo` reports the same stored
image size (which only `SetInputType` computes) when an output type is set and 0 when
not.  So after `SetOutputType` with an NV12 type of 1920 x 1080 on the freshly constructed
transform, `GetOutputStreamInfo` reports 0 while the image size of that type is 3110400. -/
theorem stream_info_size :
    (∀ s : CGrayscaleEffect,
      GetInputStreamInfo s 0 true
        = InputStreamInfoQuery.mk .S_OK
            (some ⟨0, MFT_INPUT_STREAM_WHOLE_SAMPLES ||| MFT_INPUT_STREAM_SINGLE_SAMPLE_PER_BUFFER,
              if s.m_spInputType.isNone then 0 else s.m_cbImageSize, 0, 0⟩) s ∧
      GetOutputStreamInfo s 0 true
        = OutputStreamInfoQuery.mk .S_OK
            (some ⟨MFT_OUTPUT_STREAM_WHOLE_SAMPLES ||| MFT_OUTPUT_STREAM_SINGLE_SAMPLE_PER_BUFFER |||
                MFT_OUTPUT_STREAM_FIXED_SAMPLE_SIZE,
              if s.m_spOutputType.isNone then 0 else s.m_cbImageSize, 0⟩) s) ∧
    (∃ s : CGrayscaleEffect,
      SetOutputType CGrayscaleEffect.new 0
        (some ⟨some MFMediaType_Video, some MFVideoFormat_NV12, some (1920, 1080), none, none⟩) 0
        = .returned .S_OK s ∧
      s.m_spOutputType
        = some ⟨some MFMediaType_Video, some MFVideoFormat_NV12, some (1920, 1080), none, none⟩ ∧
      (GetOutputStreamInfo s 0 true).pStreamInfo = some ⟨7, 0, 0⟩ ∧
      GetImageSize MFVideoFormat_NV12.Data1 1920 1080 = .ok 3110400) :=
  ⟨fun _ => ⟨rfl, rfl⟩, ⟨_, rfl, rfl, rfl, rfl⟩⟩

/-! ## Changing a type when both are set -/

/-- C28 as stated fails: after `SetInputType` and `SetOutputType` with the same UYVY type
both types are set, and a further committing `SetOutputType` with that type returns
`S_OK`. -/
theorem both_set_counterexample :
    ∃ s : CGrayscaleEffect, Reachable s ∧
      s.m_spInputType.isSome = true ∧ s.m_spOutputType.isSome = true ∧
      (SetOutputType s 0
        (some ⟨some MFMediaType_Video, some MFVideoFormat_UYVY, some (4, 2), none, none⟩) 0).hr?
        = some .S_OK :=
  ⟨_, ⟨[.SetInputType 0
          (some ⟨some MFMediaType_Video, some MFVideoFormat_UYVY, some (4, 2), none, none⟩) 0,
        .SetOutputType 0
          (some ⟨some MFMediaType_Video, some MFVideoFormat_UYVY, some (4, 2), none, none⟩) 0],
      rfl⟩, rfl, rfl, rfl⟩

/-- C28, amended: in a state with both types set, every committing `SetOutputType` with a
type for which `IsEqual` with the current input type is not `S_OK` returns an error and
leaves the object as it was; with no frame pending, a type for which `IsEqual` is `S_OK`
is accepted as the output type, and the input type itself is such a type when it has a
major type; and with no frame pending, `SetInputType` with a null type clears the input
type, after which `SetOutputType` accepts every valid type. -/
theorem both_set_output_change (s : CGrayscaleEffect) (tIn tOut : IMFMediaType)
    (hi : s.m_spInputType = some tIn) (ho : s.m_spOutputType = some tOut) :
    (∀ pmt : IMFMediaType, IsEqual pmt tIn ≠ .S_OK →
      ∃ hr, hr ≠ .S_OK ∧ SetOutputType s 0 (some pmt) 0 = .returned hr s) ∧
    (s.m_spSample = none → ∀ pmt : IMFMediaType, IsEqual pmt tIn = .S_OK →
      SetOutputType s 0 (some pmt) 0
        = .returned .S_OK (EndStreaming { s with m_spOutputType := some pmt })) ∧
    (tIn.MF_MT_MAJOR_TYPE.isSome = true → IsEqual tIn tIn = .S_OK) ∧
    (s.m_spSample = none →
      ∃ s1, SetInputType s 0 none 0 = .returned .S_OK s1 ∧
        s1.m_spInputType = none ∧ s1.m_spOutputType = some tOut ∧
        ∀ pmt : IMFMediaType, OnCheckMediaType pmt = .ok () →
          SetOutputType s1 0 (some pmt) 0
            = .returned .S_OK (EndStreaming { s1 with m_spOutputType := some pmt })) := by
  have hv : IsValidOutputStream 0 = true := rfl
  have hvi : IsValidInputStream 0 = true := rfl
  refine ⟨?_, ?_, IsEqual_self tIn, ?_⟩
  · intro pmt hne
    cases hS : s.m_spSample with
    | some sample =>
      refine ⟨.MF_E_TRANSFORM_CANNOT_CHANGE_MEDIATYPE_WHILE_PROCESSING, by decide, ?_⟩
      simp [SetOutputType, hv, HasPendingOutput, hS, catchException, MFT_SET_TYPE_TEST_ONLY]
    | none =>
      exact ⟨.MF_E_INVALIDMEDIATYPE, by decide,
        (SetOutputType_with_input s pmt tIn hS hi).1 0 (Or.inl rfl) hne⟩
  · intro hS pmt heq
    exact (SetOutputType_with_input s pmt tIn hS hi).2 heq
  · intro hS
    refine ⟨EndStreaming (UpdateFormatInfo { s with m_spInputType := none }).2, ?_, ?_, ?_, ?_⟩
    · simp [SetInputType, hvi, HasPendingOutput, hS, catchException, MFT_SET_TYPE_TEST_ONLY,
        OnSetInputType, UpdateFormatInfo]
    · rfl
    · exact ho
    · intro pmt hok
      simp [SetOutputType, hv, HasPendingOutput, hS, catchException, MFT_SET_TYPE_TEST_ONLY,
        OnCheckOutputType, OnSetOutputType, UpdateFormatInfo, EndStreaming, hok]

theorem both_set_output_change_witness :
    ∃ hr, hr ≠ .S_OK ∧
      SetOutputType { CGrayscaleEffect.new with
          m_spInputType := some ⟨some MFMediaType_Video, some MFVideoFormat_UYVY, some (4, 2),
            none, none⟩
          m_spOutputType := some ⟨some MFMediaType_Video, some MFVideoFormat_UYVY, some (4, 2),
            none, none⟩ } 0
        (some ⟨some MFMediaType_Video, some MFVideoFormat_NV12, some (4, 2), none, none⟩) 0
        = .returned hr { CGrayscaleEffect.new with
          m_spInputType := some ⟨some MFMediaType_Video, some MFVideoFormat_UYVY, some (4, 2),
            none, none⟩
          m_spOutputType := some ⟨some MFMediaType_Video, some MFVideoFormat_UYVY, some (4, 2),
            none, none⟩ } :=
  (both_set_output_change _ _ _ rfl rfl).1
    ⟨some MFMediaType_Video, some MFVideoFormat_NV12, some (4, 2), none, none⟩ (by decide)

/-! ## Which bytes the packed transforms overwrite -/

/-- C29 as stated fails: UYVY frame 2 x 1 with the full-frame rectangle and every source
byte 7.  Byte 1 of the group, an odd position, is still the source byte, and byte 0, an
even position, is 0x80. -/
theorem odd_even_counterexample :
    TransformImage_UYVY ⟨0, 0, 2, 1⟩ (fun _ => 0) 0 4 (fun _ => 7) 0 4 2 1 1 = 7 ∧
    TransformImage_UYVY ⟨0, 0, 2, 1⟩ (fun _ => 0) 0 4 (fun _ => 7) 0 4 2 1 0 = 128 ∧
    TransformImage_YUY2 ⟨0, 0, 2, 1⟩ (fun _ => 0) 0 4 (fun _ => 7) 0 4 2 1 0 = 7 ∧
    TransformImage_YUY2 ⟨0, 0, 2, 1⟩ (fun _ => 0) 0 4 (fun _ => 7) 0 4 2 1 1 = 128 := by
  decide

/-- C29, amended: the two packed transforms are the same text with two different pairs of
constants, and for a rectangle inside the frame they differ only in which bytes of each
4-byte group of the processed region they overwrite with 0x80: `TransformImage_UYVY`
overwrites the even byte positions (0 and 2) and `TransformImage_YUY2` the odd byte
positions (1 and 3), each leaving the other two bytes equal to the source; every byte of
the image outside the processed region is the source byte in both. -/
theorem packed_transforms_differ (rc : D2D_RECT_U) (dest : Mem) (pDest dS : Int)
    (src : Mem) (pSrc sS : Int) (w h : Nat)
    (hw : 2 * w < 4294967296) (hh : h < 4294967296) (hstride : ((2 * w : Nat) : Int) ≤ |dS|)
    (hLR : rc.left ≤ rc.right) (hRw : rc.right ≤ w) (ht : rc.top ≤ h) :
    TransformImage_UYVY = TransformImage_packed 0xFF00FF00 0x00800080 ∧
    TransformImage_YUY2 = TransformImage_packed 0x00FF00FF 0x80008000 ∧
    (∀ y g i : Nat, rc.top ≤ y → y < min rc.bottom h → i < 4 →
      2 * (rc.left - rc.left % 2) ≤ 4 * g → 4 * g + 4 ≤ 2 * (rc.right - rc.right % 2) →
      TransformImage_UYVY rc dest pDest dS src pSrc sS w h
          (pDest + (y : Int) * dS + ((4 * g + i : Nat) : Int))
        = (if i = 0 ∨ i = 2 then 128
           else src (pSrc + (y : Int) * sS + ((4 * g + i : Nat) : Int))) ∧
      TransformImage_YUY2 rc dest pDest dS src pSrc sS w h
          (pDest + (y : Int) * dS + ((4 * g + i : Nat) : Int))
        = (if i = 1 ∨ i = 3 then 128
           else src (pSrc + (y : Int) * sS + ((4 * g + i : Nat) : Int)))) ∧
    (∀ y k : Nat, y < h → k < 2 * w →
      ¬ (rc.top ≤ y ∧ y < min rc.bottom h ∧ 2 * (rc.left - rc.left % 2) ≤ k ∧
          k < 2 * (rc.right - rc.right % 2)) →
      TransformImage_UYVY rc dest pDest dS src pSrc sS w h (pDest + (y : Int) * dS + (k : Int))
        = src (pSrc + (y : Int) * sS + (k : Int)) ∧
      TransformImage_YUY2 rc dest pDest dS src pSrc sS w h (pDest + (y : Int) * dS + (k : Int))
        = src (pSrc + (y : Int) * sS + (k : Int))) := by
  refine ⟨rfl, rfl, ?_, ?_⟩
  · intro y g i hy1 hy2 hi hL hR
    rw [TransformImage_UYVY_spec rc dest pDest dS src pSrc sS w h hw hh hstride hLR hRw ht y
        (by omega) (4 * g + i) (by omega),
      TransformImage_YUY2_spec rc dest pDest dS src pSrc sS w h hw hh hstride hLR hRw ht y
        (by omega) (4 * g + i) (by omega)]
    constructor
    · by_cases hp : i = 0 ∨ i = 2
      · rw [if_pos hp, if_pos (by omega)]
      · rw [if_neg hp, if_neg (by omega)]
    · by_cases hp : i = 1 ∨ i = 3
      · rw [if_pos hp, if_pos (by omega)]
      · rw [if_neg hp, if_neg (by omega)]
  · intro y k hy hk hnot
    rw [TransformImage_UYVY_spec rc dest pDest dS src pSrc sS w h hw hh hstride hLR hRw ht y
        hy k hk,
      TransformImage_YUY2_spec rc dest pDest dS src pSrc sS w h hw hh hstride hLR hRw ht y
        hy k hk, if_neg (by omega), if_neg (by omega)]
    exact ⟨rfl, rfl⟩

theorem packed_transforms_differ_witness :
    TransformImage_UYVY ⟨0, 0, 4, 2⟩ (fun _ => 0) 0 8 (fun _ => 7) 0 8 4 2
        (0 + ((1 : Nat) : Int) * 8 + ((4 * 1 + 2 : Nat) : Int))
      = (if 2 = 0 ∨ 2 = 2 then 128
         else (fun _ => 7) (0 + ((1 : Nat) : Int) * 8 + ((4 * 1 + 2 : Nat) : Int))) :=
  ((packed_transforms_differ ⟨0, 0, 4, 2⟩ (fun _ => 0) 0 8 (fun _ => 7) 0 8 4 2
    (by decide) (by decide) (by decide) (by decide) (by decide) (by decide)).2.2.1 1 1 2
    (by decide) (by decide) (by decide) (by decide) (by decide)).1

/-! ## From negotiation to an output frame -/

/-- What a committing `SetInputType` that returns `S_OK` leaves, for a type with the given
subtype and frame size; no frame was pending before it. -/
theorem SetInputType_ok (s s1 : CGrayscaleEffect) (pmt : IMFMediaType) (subtype : GUID)
    (w h : Nat) (hsub : pmt.MF_MT_SUBTYPE = some subtype)
    (hsize : pmt.MF_MT_FRAME_SIZE = some (w, h))
    (hret : SetInputType s 0 (some pmt) 0 = .returned .S_OK s1) :
    s1.m_spInputType = some pmt ∧ s1.m_imageWidthInPixels = w ∧
    s1.m_imageHeightInPixels = h ∧
    GetImageSize subtype.Data1 w h = .ok s1.m_cbImageSize ∧
    ((subtype = MFVideoFormat_YUY2 ∧ s1.m_pTransformFn = some .YUY2) ∨
      (subtype = MFVideoFormat_UYVY ∧ s1.m_pTransformFn = some .UYVY) ∨
      (subtype = MFVideoFormat_NV12 ∧ s1.m_pTransformFn = some .NV12)) ∧
    s1.m_fStreamingInitialized = false ∧
    s1.m_spOutputType = s.m_spOutputType ∧ s1.m_spSample = none := by
  have hset : ((0 : Nat) &&& MFT_SET_TYPE_TEST_ONLY) = 0 := by decide
  simp only [SetInputType, hset, if_true] at hret
  split_ifs at hret with hf hv hp
  · simp [catchException] at hret
  · simp [catchException] at hret
  · simp [catchException] at hret
  · have hnone : s.m_spSample = none := by
      cases hS : s.m_spSample with
      | none => rfl
      | some x => exact absurd (by simp [HasPendingOutput, hS]) hp
    rcases OnCheckInputType_cases s pmt with hc | ⟨c, hne, hc⟩
    · rw [hc] at hret
      simp only [OnSetInputType] at hret
      have hne := UpdateFormatInfo_ne_ok { s with m_spInputType := some pmt }
      rcases hu : UpdateFormatInfo { s with m_spInputType := some pmt } with ⟨r, s2⟩
      rw [hu] at hret hne
      cases r with
      | error e =>
        cases e with
        | hr code =>
          simp only [catchException, Outcome.returned.injEq] at hret
          exact absurd (by rw [hret.1]) hne
        | divideByZero => simp [catchException] at hret
        | accessViolation => simp [catchException] at hret
      | ok u =>
        simp only [catchException, Outcome.returned.injEq, true_and] at hret
        obtain ⟨h1, h2, h3, h4, h5, _, _, h8, h9⟩ :=
          UpdateFormatInfo_ok { s with m_spInputType := some pmt } s2 pmt subtype w h rfl hsub
            hsize hu
        subst hret
        exact ⟨h1, h2, h3, h4, h5, rfl, h8, h9.trans hnone⟩
    · rw [hc] at hret
      simp only [catchException, Outcome.returned.injEq] at hret
      exact absurd hret.1 hne

/-- What a committing `SetOutputType` with a type that returns `S_OK` leaves; no frame was
pending before it, and `IsEqual` of the type and the input type, when there is one, is
`S_OK`. -/
theorem SetOutputType_ok (s s1 : CGrayscaleEffect) (pmt : IMFMediaType)
    (hret : SetOutputType s 0 (some pmt) 0 = .returned .S_OK s1) :
    s1 = { s with m_spOutputType := some pmt, m_fStreamingInitialized := false } ∧
    s.m_spSample = none ∧ (∀ t, s.m_spInputType = some t → IsEqual pmt t = .S_OK) := by
  have hv : IsValidOutputStream 0 = true := rfl
  have hset : ((0 : Nat) &&& MFT_SET_TYPE_TEST_ONLY) = 0 := by decide
  have hf : ¬ ((0 : Nat) &&& (0xFFFFFFFF - MFT_SET_TYPE_TEST_ONLY) ≠ 0) := by decide
  simp only [SetOutputType, hv, Bool.not_true, Bool.false_eq_true, if_false, hf, hset,
    if_true] at hret
  split_ifs at hret with hp
  · simp [catchException] at hret
  · have hnone : s.m_spSample = none := by
      cases hS : s.m_spSample with
      | none => rfl
      | some x => exact absurd (by simp [HasPendingOutput, hS]) hp
    rcases hchk : OnCheckOutputType s pmt with e | u
    · rw [hchk] at hret
      rcases OnCheckOutputType_cases s pmt with hok | ⟨c, hne, herr⟩
      · rw [hok] at hchk; cases hchk
      · rw [herr] at hchk
        cases hchk
        simp only [catchException, Outcome.returned.injEq] at hret
        exact absurd hret.1 hne
    · rw [hchk] at hret
      simp only [catchException, Outcome.returned.injEq, true_and] at hret
      refine ⟨hret.symm, hnone, ?_⟩
      intro t ht
      unfold OnCheckOutputType at hchk
      rw [ht] at hchk
      simp only [] at hchk
      by_contra hcon
      rw [if_pos hcon] at hchk
      cases hchk

/-- What `ProcessInput` leaves when it returns `S_OK`. -/
theorem ProcessInput_ok (s s1 : CGrayscaleEffect) (id : Nat) (pSample : Option IMFSample)
    (dwFlags : Nat) (hret : ProcessInput s id pSample dwFlags = .returned .S_OK s1) :
    ∃ sample, pSample = some sample ∧
      s1 = { BeginStreaming s with m_spSample := some sample } := by
  unfold ProcessInput at hret
  cases pSample with
  | none => simp [catchException] at hret
  | some sample =>
    simp only [] at hret
    split_ifs at hret
    · simp [catchException] at hret
    · simp [catchException] at hret
    · simp [catchException] at hret
    · simp [catchException] at hret
    · simp only [catchException, Outcome.returned.injEq, true_and] at hret
      exact ⟨sample, rfl, hret.symm⟩

/-- On a type with a supported subtype and a frame size `GetDefaultStride` does not
throw. -/
theorem GetDefaultStride_ok (t : IMFMediaType) (subtype : GUID) (w h : Nat)
    (hsub : t.MF_MT_SUBTYPE = some subtype) (hsize : t.MF_MT_FRAME_SIZE = some (w, h))
    (hs : subtype = MFVideoFormat_YUY2 ∨ subtype = MFVideoFormat_UYVY ∨
      subtype = MFVideoFormat_NV12) :
    ∃ l t1, GetDefaultStride t = .ok (l, t1) := by
  unfold GetDefaultStride
  cases t.MF_MT_DEFAULT_STRIDE with
  | some v => exact ⟨_, _, rfl⟩
  | none =>
    simp only [hsub, hsize, GetAttribute]
    split_ifs with h1 h2
    · exact ⟨_, _, rfl⟩
    · exact ⟨_, _, rfl⟩
    · rcases hs with hs | hs | hs
      · exact absurd (Or.inl hs) h2
      · exact absurd (Or.inr hs) h2
      · exact absurd hs h1

/-- The method `OnProcessOutput` on a state with an input type and a transform, with
buffers that lock and an output buffer large enough for the stored image size. -/
theorem OnProcessOutput_ok (s : CGrayscaleEffect) (t t1 : IMFMediaType) (fn : TransformFn)
    (bIn bOut : IMFMediaBuffer) (l : Int)
    (hi : s.m_spInputType = some t) (hfn : s.m_pTransformFn = some fn)
    (hl1 : bIn.hrLock = .S_OK) (hl2 : bOut.hrLock = .S_OK)
    (hds : GetDefaultStride t = .ok (l, t1)) (hcb : s.m_cbImageSize ≤ bOut.cbMaxLength) :
    OnProcessOutput s bIn bOut
      = (.ok (), { s with m_spInputType := some t1 },
          { bOut with
            mem := fn.call s.m_rcDest bOut.mem bOut.pTopRow (bOut.lStride.getD l)
              bIn.mem bIn.pTopRow (bIn.lStride.getD l)
              s.m_imageWidthInPixels s.m_imageHeightInPixels
            cbCurrentLength := s.m_cbImageSize }) := by
  unfold OnProcessOutput
  simp only [hi, hds, VideoBufferLock, hl1, hl2, hfn, ne_eq, not_true_eq_false, if_false]
  rw [if_neg (by omega)]

/-- The call `ProcessOutput` with flags 0 and one output sample, on a state that holds a
frame, an input type and a transform, with buffers that lock and an output buffer large
enough for the stored image size: it returns `S_OK`, the output buffer holds what the
selected transform writes, its length is the stored image size, duration and time stamp
are those of the input sample when present (those of the output sample stay otherwise),
both status words are 0 and no frame is pending. -/
theorem ProcessOutput_ok (s : CGrayscaleEffect) (t t1 : IMFMediaType) (fn : TransformFn)
    (inSample outSample : IMFSample) (bIn bOut : IMFMediaBuffer) (l : Int) (d v : Nat)
    (hi : s.m_spInputType = some t) (hfn : s.m_pTransformFn = some fn)
    (hs : s.m_spSample = some inSample) (hbi : inSample.buffer = some bIn)
    (hbo : outSample.buffer = some bOut) (hl1 : bIn.hrLock = .S_OK) (hl2 : bOut.hrLock = .S_OK)
    (hds : GetDefaultStride t = .ok (l, t1)) (hcb : s.m_cbImageSize ≤ bOut.cbMaxLength) :
    ProcessOutput s 0 1 (some ⟨some outSample, d⟩) (some v)
      = some (ProcessOutputReturn.mk .S_OK
          { BeginStreaming s with m_spInputType := some t1, m_spSample := none }
          (some ⟨some ⟨some { bOut with
              mem := fn.call (BeginStreaming s).m_rcDest bOut.mem bOut.pTopRow
                (bOut.lStride.getD l) bIn.mem bIn.pTopRow (bIn.lStride.getD l)
                (BeginStreaming s).m_imageWidthInPixels (BeginStreaming s).m_imageHeightInPixels
              cbCurrentLength := s.m_cbImageSize },
            (match inSample.hnsDuration with
              | some x => some x
              | none => outSample.hnsDuration),
            (match inSample.hnsTime with
              | some x => some x
              | none => outSample.hnsTime)⟩, 0⟩)
          (some 0)) := by
  obtain ⟨_, _, b3, _, _, _, b7, b8⟩ := BeginStreaming_fields s
  have b9 : (BeginStreaming s).m_spSample = s.m_spSample := by
    unfold BeginStreaming
    split_ifs <;> rfl
  have hop := OnProcessOutput_ok (BeginStreaming s) t t1 fn bIn bOut l (b3.trans hi)
    (b8.trans hfn) hl1 hl2 hds (by rw [b7]; exact hcb)
  unfold ProcessOutput
  simp only [ne_eq, not_true_eq_false, if_false, hs, hbi, hbo, hop, releaseInputSample]
  rw [b7]

/-- A call through `m_pTransformFn` with the full-frame rectangle, for an even width:
every chroma byte of the image becomes 0x80 and every luma byte is the source byte. -/
theorem full_frame_call (fn : TransformFn) (dest : Mem) (pDest dS : Int) (src : Mem)
    (pSrc sS : Int) (w h : Nat) (hwe : w % 2 = 0) (hw : fn.rowBytes w < 4294967296)
    (hh : h < 4294967296) (hs : (fn.rowBytes w : Int) ≤ |dS|)
    (y k : Nat) (hy : y < fn.rows h) (hk : k < fn.rowBytes w) :
    fn.call ⟨0, 0, w, h⟩ dest pDest dS src pSrc sS w h (pDest + (y : Int) * dS + (k : Int))
      = if fn.isChroma h y k then 128 else src (pSrc + (y : Int) * sS + (k : Int)) := by
  cases fn with
  | YUY2 =>
    simp only [TransformFn.rowBytes, TransformFn.rows, TransformFn.isChroma,
      TransformFn.call] at hw hs hy hk ⊢
    rw [TransformImage_YUY2_spec ⟨0, 0, w, h⟩ dest pDest dS src pSrc sS w h hw hh hs
      (Nat.zero_le _) (Nat.le_refl _) (Nat.zero_le _) y hy k hk]
    by_cases hp : k % 2 = 1
    · rw [if_pos (by simp only []; omega), if_pos (by simp [hp])]
    · rw [if_neg (by simp only []; omega), if_neg (by simp [hp])]
  | UYVY =>
    simp only [TransformFn.rowBytes, TransformFn.rows, TransformFn.isChroma,
      TransformFn.call] at hw hs hy hk ⊢
    rw [TransformImage_UYVY_spec ⟨0, 0, w, h⟩ dest pDest dS src pSrc sS w h hw hh hs
      (Nat.zero_le _) (Nat.le_refl _) (Nat.zero_le _) y hy k hk]
    by_cases hp : k % 2 = 0
    · rw [if_pos (by simp only []; omega), if_pos (by simp [hp])]
    · rw [if_neg (by simp only []; omega), if_neg (by simp [hp])]
  | NV12 =>
    simp only [TransformFn.rowBytes, TransformFn.rows, TransformFn.isChroma,
      TransformFn.call] at hw hs hy hk ⊢
    obtain ⟨hl, hc, _⟩ := TransformImage_NV12_spec ⟨0, 0, w, h⟩ dest pDest dS src pSrc sS w h
      hw hh hs (Nat.zero_le _) (Nat.le_refl _) (Nat.zero_le _)
    by_cases hyh : y < h
    · rw [hl y hyh k hk, if_neg (by simp; omega)]
    · have hr := hc (y - h) (by omega) k hk
      have e : h + (y - h) = y := by omega
      rw [e] at hr
      rw [hr, if_pos (by simp only [Nat.min_self]; omega), if_pos (by simp; omega)]

/-- C23: a type with a supported subtype and frame size `w x h`, `w` even, is set as input
type and as output type (in either order, both calls returning `S_OK`), `ProcessInput`
accepts a sample whose buffer can be locked, and `ProcessOutput` is called with flags 0
and one output sample whose buffer can be locked and can hold the image size `cb` that
`GetImageSize` computes.  Then `ProcessOutput` returns `S_OK` with both status words 0 and
no frame pending; the output buffer holds what the transform of the subtype writes for the
rectangle `(0, 0, w, h)`, with the strides the buffers report or else the default stride;
its length is `cb`; duration and time stamp are those of the input sample when it has
them and stay as they were when it has not; and when the destination stride is at least a
row long, every chroma byte of the output image is 0x80 and every luma byte is the input
byte. -/
theorem negotiate_and_process (s0 s1 s2 s3 : CGrayscaleEffect) (t : IMFMediaType)
    (subtype : GUID) (w h cb : Nat) (inSample outSample : IMFSample)
    (bIn bOut : IMFMediaBuffer) (d v : Nat)
    (hsub : t.MF_MT_SUBTYPE = some subtype) (hsize : t.MF_MT_FRAME_SIZE = some (w, h))
    (hw : w < 4294967296) (hh : h < 4294967296) (hwe : w % 2 = 0)
    (hneg : (SetInputType s0 0 (some t) 0 = .returned .S_OK s1 ∧
        SetOutputType s1 0 (some t) 0 = .returned .S_OK s2) ∨
      (SetOutputType s0 0 (some t) 0 = .returned .S_OK s1 ∧
        SetInputType s1 0 (some t) 0 = .returned .S_OK s2))
    (hin : ProcessInput s2 0 (some inSample) 0 = .returned .S_OK s3)
    (hbi : inSample.buffer = some bIn) (hbo : outSample.buffer = some bOut)
    (hl1 : bIn.hrLock = .S_OK) (hl2 : bOut.hrLock = .S_OK)
    (hsz : GetImageSize subtype.Data1 w h = .ok cb) (hmax : cb ≤ bOut.cbMaxLength) :
    ∃ (fn : TransformFn) (l : Int) (t1 : IMFMediaType) (r : ProcessOutputReturn)
        (outSample1 : IMFSample) (bOut1 : IMFMediaBuffer),
      ((subtype = MFVideoFormat_YUY2 ∧ fn = .YUY2) ∨
        (subtype = MFVideoFormat_UYVY ∧ fn = .UYVY) ∨
        (subtype = MFVideoFormat_NV12 ∧ fn = .NV12)) ∧
      GetDefaultStride t = .ok (l, t1) ∧
      ProcessOutput s3 0 1 (some ⟨some outSample, d⟩) (some v) = some r ∧
      r.hr = .S_OK ∧ r.pdwStatus = some 0 ∧ r.s.m_spSample = none ∧
      r.pOutputSamples = some ⟨some outSample1, 0⟩ ∧
      outSample1.buffer = some bOut1 ∧
      bOut1.cbCurrentLength = cb ∧
      bOut1.mem = fn.call ⟨0, 0, w, h⟩ bOut.mem bOut.pTopRow (bOut.lStride.getD l)
        bIn.mem bIn.pTopRow (bIn.lStride.getD l) w h ∧
      (∀ x, inSample.hnsDuration = some x → outSample1.hnsDuration = some x) ∧
      (inSample.hnsDuration = none → outSample1.hnsDuration = outSample.hnsDuration) ∧
      (∀ x, inSample.hnsTime = some x → outSample1.hnsTime = some x) ∧
      (inSample.hnsTime = none → outSample1.hnsTime = outSample.hnsTime) ∧
      ((fn.rowBytes w : Int) ≤ |bOut.lStride.getD l| →
        ∀ y k : Nat, y < fn.rows h → k < fn.rowBytes w →
          bOut1.mem (bOut.pTopRow + (y : Int) * bOut.lStride.getD l + (k : Int))
            = if fn.isChroma h y k then 128
              else bIn.mem (bIn.pTopRow + (y : Int) * bIn.lStride.getD l + (k : Int))) := by
  -- the state the negotiation leaves
  have hready : s2.m_spInputType = some t ∧ s2.m_imageWidthInPixels = w ∧
      s2.m_imageHeightInPixels = h ∧ s2.m_cbImageSize = cb ∧
      ((subtype = MFVideoFormat_YUY2 ∧ s2.m_pTransformFn = some .YUY2) ∨
        (subtype = MFVideoFormat_UYVY ∧ s2.m_pTransformFn = some .UYVY) ∨
        (subtype = MFVideoFormat_NV12 ∧ s2.m_pTransformFn = some .NV12)) ∧
      s2.m_fStreamingInitialized = false := by
    rcases hneg with ⟨hA, hB⟩ | ⟨hA, hB⟩
    · obtain ⟨a1, a2, a3, a4, a5, _, _, _⟩ := SetInputType_ok s0 s1 t subtype w h hsub hsize hA
      obtain ⟨e, _, _⟩ := SetOutputType_ok s1 s2 t hB
      rw [hsz] at a4
      subst e
      exact ⟨a1, a2, a3, (Except.ok.inj a4).symm, a5, rfl⟩
    · obtain ⟨a1, a2, a3, a4, a5, a6, _, _⟩ := SetInputType_ok s1 s2 t subtype w h hsub hsize hB
      rw [hsz] at a4
      exact ⟨a1, a2, a3, (Except.ok.inj a4).symm, a5, a6⟩
  obtain ⟨r1, r2, r3, r4, r5, r6⟩ := hready
  obtain ⟨fn, hfn, hfn2⟩ : ∃ fn, s2.m_pTransformFn = some fn ∧
      ((subtype = MFVideoFormat_YUY2 ∧ fn = .YUY2) ∨
        (subtype = MFVideoFormat_UYVY ∧ fn = .UYVY) ∨
        (subtype = MFVideoFormat_NV12 ∧ fn = .NV12)) := by
    rcases r5 with ⟨a, b⟩ | ⟨a, b⟩ | ⟨a, b⟩
    · exact ⟨_, b, Or.inl ⟨a, rfl⟩⟩
    · exact ⟨_, b, Or.inr (Or.inl ⟨a, rfl⟩)⟩
    · exact ⟨_, b, Or.inr (Or.inr ⟨a, rfl⟩)⟩
  obtain ⟨l, t1, hds⟩ := GetDefaultStride_ok t subtype w h hsub hsize (by
    rcases hfn2 with ⟨a, _⟩ | ⟨a, _⟩ | ⟨a, _⟩
    · exact Or.inl a
    · exact Or.inr (Or.inl a)
    · exact Or.inr (Or.inr a))
  -- the state that holds the frame
  obtain ⟨sample, hsample, hs3⟩ := ProcessInput_ok s2 s3 0 (some inSample) 0 hin
  cases hsample
  obtain ⟨_, b2, b3, _, b5, b6, b7, b8⟩ := BeginStreaming_fields s2
  rw [r6] at b2
  simp only [Bool.false_eq_true, if_false] at b2
  have q1 : s3.m_spInputType = some t := by rw [hs3]; exact b3.trans r1
  have q2 : s3.m_pTransformFn = some fn := by rw [hs3]; exact b8.trans hfn
  have q3 : s3.m_spSample = some inSample := by rw [hs3]
  have q4 : s3.m_cbImageSize = cb := by rw [hs3]; exact b7.trans r4
  have q5 : s3.m_fStreamingInitialized = true := by
    rw [hs3]; exact (BeginStreaming_fields s2).1
  have q6 : s3.m_rcDest = ⟨0, 0, w, h⟩ := by
    rw [hs3]; show (BeginStreaming s2).m_rcDest = _
    rw [b2, r2, r3]
  have q7 : s3.m_imageWidthInPixels = w := by rw [hs3]; exact b5.trans r2
  have q8 : s3.m_imageHeightInPixels = h := by rw [hs3]; exact b6.trans r3
  have hbs : BeginStreaming s3 = s3 := by
    unfold BeginStreaming
    rw [q5]; rfl
  have hpo := ProcessOutput_ok s3 t t1 fn inSample outSample bIn bOut l d v q1 q2 q3 hbi hbo
    hl1 hl2 hds (by rw [q4]; exact hmax)
  rw [hbs, q4, q6, q7, q8] at hpo
  refine ⟨fn, l, t1, _, _, _, hfn2, hds, hpo, rfl, rfl, rfl, rfl, rfl, rfl, rfl, ?_, ?_, ?_, ?_,
    ?_⟩
  · intro x hx; simp only [hx]
  · intro hx; simp only [hx]
  · intro x hx; simp only [hx]
  · intro hx; simp only [hx]
  · intro hstride y k hy hk
    have hrb : fn.rowBytes w < 4294967296 := by
      rcases hfn2 with ⟨a, b⟩ | ⟨a, b⟩ | ⟨a, b⟩
      · subst b
        show 2 * w < 4294967296
        rw [a] at hsz
        have : GetImageSize MFVideoFormat_YUY2.Data1 w h = .ok cb := hsz
        unfold GetImageSize at this
        simp only [MFVideoFormat_YUY2, MFVideoFormat, true_or, if_true] at this
        split_ifs at this with hgt
        simp only [MAXDWORD] at hgt
        omega
      · subst b
        show 2 * w < 4294967296
        rw [a] at hsz
        have : GetImageSize MFVideoFormat_UYVY.Data1 w h = .ok cb := hsz
        unfold GetImageSize at this
        simp only [MFVideoFormat_UYVY, MFVideoFormat, or_true, if_true] at this
        split_ifs at this with hgt
        simp only [MAXDWORD] at hgt
        omega
      · subst b
        exact hw
    exact full_frame_call fn bOut.mem bOut.pTopRow _ bIn.mem bIn.pTopRow _ w h hwe hrb hh
      hstride y k hy hk

theorem negotiate_and_process_witness :
    ∃ (r : ProcessOutputReturn) (outSample1 : IMFSample) (bOut1 : IMFMediaBuffer),
      ProcessOutput
        { CGrayscaleEffect.new with
          m_spSample := some ⟨some ⟨fun _ => 7, .S_OK, 0, none, 16, 16⟩, some 33, some 100⟩
          m_spInputType := some ⟨some MFMediaType_Video, some MFVideoFormat_UYVY, some (4, 2),
            none, none⟩
          m_spOutputType := some ⟨some MFMediaType_Video, some MFVideoFormat_UYVY, some (4, 2),
            none, none⟩
          m_pTransformFn := some .UYVY
          m_imageWidthInPixels := 4
          m_imageHeightInPixels := 2
          m_cbImageSize := 16
          m_rcDest := ⟨0, 0, 4, 2⟩
          m_fStreamingInitialized := true }
        0 1 (some ⟨some ⟨some ⟨fun _ => 0, .S_OK, 0, none, 0, 16⟩, none, none⟩, 0⟩) (some 0)
        = some r ∧
      r.hr = .S_OK ∧ r.s.m_spSample = none ∧
      r.pOutputSamples = some ⟨some outSample1, 0⟩ ∧ outSample1.buffer = some bOut1 ∧
      bOut1.cbCurrentLength = 16 ∧
      outSample1.hnsDuration = some 33 ∧ outSample1.hnsTime = some 100 ∧
      ∀ y k : Nat, y < 2 → k < 8 →
        bOut1.mem (0 + (y : Int) * 8 + (k : Int)) = if k % 2 = 0 then 128 else 7 := by
  obtain ⟨fn, l, t1, r, o1, b1, hfn, hds, hpo, hhr, _, hsm, hps, hbuf, hlen, _, hd1, _, ht1, _,
      hbytes⟩ :=
    negotiate_and_process CGrayscaleEffect.new
      { CGrayscaleEffect.new with
        m_spInputType := some ⟨some MFMediaType_Video, some MFVideoFormat_UYVY, some (4, 2),
          none, none⟩
        m_pTransformFn := some .UYVY
        m_imageWidthInPixels := 4
        m_imageHeightInPixels := 2
        m_cbImageSize := 16 }
      { CGrayscaleEffect.new with
        m_spInputType := some ⟨some MFMediaType_Video, some MFVideoFormat_UYVY, some (4, 2),
          none, none⟩
        m_spOutputType := some ⟨some MFMediaType_Video, some MFVideoFormat_UYVY, some (4, 2),
          none, none⟩
        m_pTransformFn := some .UYVY
        m_imageWidthInPixels := 4
        m_imageHeightInPixels := 2
        m_cbImageSize := 16 }
      { CGrayscaleEffect.new with
        m_spSample := some ⟨some ⟨fun _ => 7, .S_OK, 0, none, 16, 16⟩, some 33, some 100⟩
        m_spInputType := some ⟨some MFMediaType_Video, some MFVideoFormat_UYVY, some (4, 2),
          none, none⟩
        m_spOutputType := some ⟨some MFMediaType_Video, some MFVideoFormat_UYVY, some (4, 2),
          none, none⟩
        m_pTransformFn := some .UYVY
        m_imageWidthInPixels := 4
        m_imageHeightInPixels := 2
        m_cbImageSize := 16
        m_rcDest := ⟨0, 0, 4, 2⟩
        m_fStreamingInitialized := true }
      ⟨some MFMediaType_Video, some MFVideoFormat_UYVY, some (4, 2), none, none⟩
      MFVideoFormat_UYVY 4 2 16
      ⟨some ⟨fun _ => 7, .S_OK, 0, none, 16, 16⟩, some 33, some 100⟩
      ⟨some ⟨fun _ => 0, .S_OK, 0, none, 0, 16⟩, none, none⟩
      ⟨fun _ => 7, .S_OK, 0, none, 16, 16⟩ ⟨fun _ => 0, .S_OK, 0, none, 0, 16⟩ 0 0
      rfl rfl (by decide) (by decide) (by decide) (Or.inl ⟨rfl, rfl⟩) rfl rfl rfl rfl rfl rfl
      (by decide)
  have hfn1 : fn = .UYVY := by
    rcases hfn with ⟨a, _⟩ | ⟨_, b⟩ | ⟨a, _⟩
    · exact absurd a (by decide)
    · exact b
    · exact absurd a (by decide)
  have hl : l = 8 := by
    have e : GetDefaultStride
        ⟨some MFMediaType_Video, some MFVideoFormat_UYVY, some (4, 2), none, none⟩
        = .ok (8, ⟨some MFMediaType_Video, some MFVideoFormat_UYVY, some (4, 2), none,
            some 8⟩) := rfl
    rw [e] at hds
    exact (congrArg Prod.fst (Except.ok.inj hds)).symm
  subst hfn1
  subst hl
  refine ⟨r, o1, b1, hpo, hhr, hsm, hps, hbuf, hlen, hd1 33 rfl, ht1 100 rfl, ?_⟩
  intro y k hy hk
  have hb := hbytes (by decide) y k hy hk
  simp only [Option.getD_none] at hb
  rw [hb]
  simp [TransformFn.isChroma]

/-! ## Bounds of the memory accesses -/

theorem CopyMemory_accesses_inRow (pd ps : Int) (cb : Nat) (pSrc pDest : Int) (rb : Nat)
    (off : Nat) (hps : ps = pSrc + (off : Int)) (hpd : pd = pDest + (off : Int))
    (hcb : off + cb ≤ rb) :
    ∀ x ∈ CopyMemory_accesses pd ps cb, x.inRow pSrc pDest rb := by
  intro x hx
  simp only [CopyMemory_accesses, List.mem_cons, List.mem_singleton, List.not_mem_nil,
    or_false] at hx
  rcases hx with rfl | rfl
  · refine ⟨by simp only []; omega, ?_⟩
    intro a h1 h2
    simp only [] at h1 h2 ⊢
    simp only [Bool.false_eq_true, if_false]
    omega
  · refine ⟨by simp only []; omega, ?_⟩
    intro a h1 h2
    simp only [] at h1 h2 ⊢
    simp only [if_true]
    omega

theorem forPixels_accesses_inRow (R : Nat) (pSrc pDest : Int) (rb : Nat)
    (hR : R < 4294967295) (hRrb : 2 * R ≤ rb) :
    ∀ (fuel x : Nat), x < 4294967295 →
      ∀ a ∈ forPixels_accesses R pSrc pDest fuel x, a.inRow pSrc pDest rb := by
  intro fuel
  induction fuel with
  | zero => intro x _ a ha; simp [forPixels_accesses] at ha
  | succ n ih =>
    intro x hx a ha
    unfold forPixels_accesses at ha
    by_cases hlt : (x + 1) % 4294967296 < R
    · rw [if_pos hlt] at ha
      have e1 : (x + 1) % 4294967296 = x + 1 := by omega
      have e2 : (x + 2) % 4294967296 = x + 2 := by omega
      rw [e1] at hlt
      simp only [List.mem_cons] at ha
      rcases ha with rfl | rfl | ha
      · refine ⟨by simp only []; omega, ?_⟩
        intro a h1 h2
        simp only [] at h1 h2 ⊢
        simp only [Bool.false_eq_true, if_false]
        omega
      · refine ⟨by simp only []; omega, ?_⟩
        intro a h1 h2
        simp only [] at h1 h2 ⊢
        simp only [if_true]
        omega
      · rw [e2] at ha
        exact ih (x + 2) (by omega) a ha
    · rw [if_neg hlt] at ha
      simp at ha

theorem copyLine_accesses_inRow (cb : Nat) (c : RowCursor) :
    ∀ x ∈ copyLine_accesses cb c, x.inRow c.pSrc c.pDest cb := by
  unfold copyLine_accesses
  exact CopyMemory_accesses_inRow c.pDest c.pSrc cb c.pSrc c.pDest cb 0 (by simp) (by simp)
    (by omega)

theorem rectLine_accesses_inRow (L R w : Nat) (hLR : L ≤ R) (hRw : R ≤ w)
    (hw : 2 * w < 4294967296) (c : RowCursor) :
    ∀ x ∈ rectLine_accesses L R w c, x.inRow c.pSrc c.pDest (2 * w) := by
  intro x hx
  have e1 : L * 2 % 4294967296 = 2 * L := by omega
  have e2 : R * 2 % 4294967296 = 2 * R := by omega
  have e3 : (w + 4294967296 - R) % 4294967296 * 2 % 4294967296 = 2 * (w - R) := by omega
  unfold rectLine_accesses at hx
  rw [e1, e2, e3] at hx
  simp only [List.mem_append] at hx
  rcases hx with (hx | hx) | hx
  · exact CopyMemory_accesses_inRow c.pDest c.pSrc (2 * L) c.pSrc c.pDest (2 * w) 0 (by simp)
      (by simp) (by omega) x hx
  · exact forPixels_accesses_inRow R c.pSrc c.pDest (2 * w) (by omega) (by omega) (R - L) L
      (by omega) x hx
  · exact CopyMemory_accesses_inRow _ _ (2 * (w - R)) c.pSrc c.pDest (2 * w) (2 * R) rfl rfl
      (by omega) x hx

theorem fillLine_accesses_inRow (rc : D2D_RECT_U) (w : Nat) (hLR : rc.left ≤ rc.right)
    (hRw : rc.right ≤ w) (hw : w < 4294967296) (c : RowCursor) :
    ∀ x ∈ fillLine_accesses rc w c, x.inRow c.pSrc c.pDest w := by
  intro x hx
  have e2 : (rc.right + 4294967296 - rc.left) % 4294967296 = rc.right - rc.left := by omega
  have e3 : (w + 4294967296 - rc.right) % 4294967296 = w - rc.right := by omega
  unfold fillLine_accesses at hx
  rw [e2, e3] at hx
  simp only [List.mem_append] at hx
  rcases hx with (hx | hx) | hx
  · exact CopyMemory_accesses_inRow c.pDest c.pSrc rc.left c.pSrc c.pDest w 0 (by simp)
      (by simp) (by omega) x hx
  · simp only [FillMemory_accesses, List.mem_singleton] at hx
    subst hx
    refine ⟨by simp only []; omega, ?_⟩
    intro a h1 h2
    simp only [] at h1 h2 ⊢
    simp only [if_true]
    omega
  · exact CopyMemory_accesses_inRow _ _ (w - rc.right) c.pSrc c.pDest w rc.right rfl rfl
      (by omega) x hx

/-- Every access of a row loop is an access of one of its iterations, and iteration `j`
works on the row `j` strides below the row the loop starts from. -/
theorem forRows_accesses_inRow {body : RowCursor → RowCursor} {dS sS : Int} {rb : Nat}
    {F : Int → Int → BYTE} (hb : RowBody body dS sS rb F)
    (accesses : RowCursor → List Access)
    (hacc : ∀ c, ∀ x ∈ accesses c, x.inRow c.pSrc c.pDest rb) (bound : Nat) :
    ∀ (n : Nat) (c : RowCursor), ∀ x ∈ forRows_accesses bound body accesses n c,
      ∃ j : Nat, j < n ∧ x.inRow (c.pSrc + (j : Int) * sS) (c.pDest + (j : Int) * dS) rb := by
  intro n
  induction n with
  | zero => intro c x hx; simp [forRows_accesses] at hx
  | succ n ih =>
    intro c x hx
    unfold forRows_accesses at hx
    by_cases hlt : c.y < bound
    · rw [if_pos hlt] at hx
      simp only [List.mem_append] at hx
      rcases hx with hx | hx
      · refine ⟨0, by omega, ?_⟩
        have := hacc c x hx
        simpa using this
      · obtain ⟨j, hj, hin⟩ := ih _ x hx
        refine ⟨j + 1, by omega, ?_⟩
        have e1 : (body c).pSrc + (j : Int) * sS = c.pSrc + ((j + 1 : Nat) : Int) * sS := by
          rw [hb.pSrc_eq]; push_cast; ring
        have e2 : (body c).pDest + (j : Int) * dS = c.pDest + ((j + 1 : Nat) : Int) * dS := by
          rw [hb.pDest_eq]; push_cast; ring
        rw [← e1, ← e2]
        exact hin
    · rw [if_neg hlt] at hx
      simp at hx

/-- A row of `rb` bytes, `y` strides below the start of a buffer of `H` rows, lies inside
the buffer when the stride is at least `rb`. -/
theorem row_in_buffer (p dS : Int) (rb y H : Nat) (hrb : (rb : Int) ≤ dS) (hy : y < H)
    (a : Int) (h1 : p + (y : Int) * dS ≤ a) (h2 : a < p + (y : Int) * dS + (rb : Int)) :
    p ≤ a ∧ a < p + dS * (H : Int) := by
  have h0 : (0 : Int) ≤ dS := by omega
  have hy0 : (0 : Int) ≤ (y : Int) * dS := mul_nonneg (by omega) h0
  have hle : ((y : Int) + 1) * dS ≤ (H : Int) * dS :=
    mul_le_mul_of_nonneg_right (by omega) h0
  have e : ((y : Int) + 1) * dS = (y : Int) * dS + dS := by ring
  have e2 : dS * (H : Int) = (H : Int) * dS := by ring
  rw [e] at hle
  rw [e2]
  constructor <;> omega

/-- Every access of a packed transform stays inside the `2 * width` image bytes of one of
the `height` rows. -/
theorem TransformImage_packed_accesses_inRow (m o : Nat) (rc : D2D_RECT_U) (dest : Mem)
    (pDest dS : Int) (src : Mem) (pSrc sS : Int) (w h : Nat)
    (hw : 2 * w < 4294967296) (hh : h < 4294967296) (hstride : ((2 * w : Nat) : Int) ≤ |dS|)
    (hLR : rc.left ≤ rc.right) (hRw : rc.right ≤ w) (ht : rc.top ≤ h) :
    ∀ x ∈ TransformImage_packed_accesses m o rc dest pDest dS src pSrc sS w h,
      ∃ y : Nat, y < h ∧
        x.inRow (pSrc + (y : Int) * sS) (pDest + (y : Int) * dS) (2 * w) := by
  have eL : rc.left &&& 0xFFFFFFFE = rc.left - rc.left % 2 := land_even_mask _ (by omega)
  have eR : rc.right &&& 0xFFFFFFFE = rc.right - rc.right % 2 := land_even_mask _ (by omega)
  have ew : w * 2 % 4294967296 = 2 * w := by omega
  have hA := copyLine_rowBody src dS sS (2 * w)
  have hB := rectLine_rowBody m o (rc.left - rc.left % 2) (rc.right - rc.right % 2) w src dS sS
    (by omega) (by omega) (by omega) (by omega) hw
  have aA := forRows_accesses_inRow hA (copyLine_accesses (2 * w))
    (copyLine_accesses_inRow (2 * w))
  have aB := forRows_accesses_inRow hB
    (rectLine_accesses (rc.left - rc.left % 2) (rc.right - rc.right % 2) w)
    (rectLine_accesses_inRow _ _ w (by omega) (by omega) hw)
  intro x hx
  unfold TransformImage_packed_accesses at hx
  rw [eL, eR, ew] at hx
  simp only [] at hx
  obtain ⟨c0, hc0⟩ : ∃ c0 : RowCursor,
      c0 = { y := 0, pSrc := pSrc, pDest := pDest, dest := dest } := ⟨_, rfl⟩
  rw [← hc0] at hx
  have hc0y : c0.y = 0 := by rw [hc0]
  have hc0s : c0.pSrc = pSrc := by rw [hc0]
  have hc0d : c0.pDest = pDest := by rw [hc0]
  have key1 := forRows_abs hA hstride rc.top (by omega) pDest pSrc c0
    (by rw [hc0y, hc0d]; simp) (by rw [hc0y, hc0s]; simp)
  rw [hc0y] at key1
  obtain ⟨y1, d1, s1, _, _⟩ := key1
  generalize forRows rc.top (copyLine src dS sS (2 * w)) (rc.top - 0) c0 = c1
    at y1 d1 s1 hx
  obtain ⟨y2, d2, s2, _, _⟩ := forRows_abs hB hstride (min rc.bottom h) (by omega) pDest pSrc c1
    d1 s1
  generalize forRows (min rc.bottom h)
    (rectLine m o (rc.left - rc.left % 2) (rc.right - rc.right % 2) w src dS sS)
    (min rc.bottom h - c1.y) c1 = c2 at y2 d2 s2 hx
  simp only [List.mem_append] at hx
  rcases hx with (hx | hx) | hx
  · obtain ⟨j, hj, hin⟩ := aA rc.top _ c0 x hx
    refine ⟨j, by omega, ?_⟩
    rw [hc0s, hc0d] at hin
    exact hin
  · obtain ⟨j, hj, hin⟩ := aB (min rc.bottom h) _ c1 x hx
    refine ⟨c1.y + j, by omega, ?_⟩
    have e1 : pSrc + ((c1.y + j : Nat) : Int) * sS = c1.pSrc + (j : Int) * sS := by
      rw [s1]; push_cast; ring
    have e2 : pDest + ((c1.y + j : Nat) : Int) * dS = c1.pDest + (j : Int) * dS := by
      rw [d1]; push_cast; ring
    rw [e1, e2]
    exact hin
  · obtain ⟨j, hj, hin⟩ := aA h _ c2 x hx
    refine ⟨c2.y + j, by omega, ?_⟩
    have e1 : pSrc + ((c2.y + j : Nat) : Int) * sS = c2.pSrc + (j : Int) * sS := by
      rw [s2]; push_cast; ring
    have e2 : pDest + ((c2.y + j : Nat) : Int) * dS = c2.pDest + (j : Int) * dS := by
      rw [d2]; push_cast; ring
    rw [e1, e2]
    exact hin

/-- Every access of the NV12 transform stays inside the `width` image bytes of one of the
`height + height / 2` rows. -/
theorem TransformImage_NV12_accesses_inRow (rc : D2D_RECT_U) (dest : Mem)
    (pDest dS : Int) (src : Mem) (pSrc sS : Int) (w h : Nat)
    (hw : w < 4294967296) (hh : h < 4294967296) (hstride : (w : Int) ≤ |dS|)
    (hLR : rc.left ≤ rc.right) (hRw : rc.right ≤ w) (ht : rc.top ≤ h) :
    ∀ x ∈ TransformImage_NV12_accesses rc dest pDest dS src pSrc sS w h,
      ∃ y : Nat, y < h + h / 2 ∧
        x.inRow (pSrc + (y : Int) * sS) (pDest + (y : Int) * dS) w := by
  have hA := copyLine_rowBody src dS sS w
  have hB := fillLine_rowBody rc w src dS sS hLR hRw hw
  have aA := forRows_accesses_inRow hA (copyLine_accesses w) (copyLine_accesses_inRow w)
  have aB := forRows_accesses_inRow hB (fillLine_accesses rc w)
    (fillLine_accesses_inRow rc w hLR hRw hw)
  obtain ⟨_, hYs, hYd, _, _⟩ := forRows_spec hA hstride h hh h
    { y := 0, pSrc := pSrc, pDest := pDest, dest := dest } (by simp)
  intro x hx
  unfold TransformImage_NV12_accesses at hx
  simp only [] at hx
  generalize forRows h (copyLine src dS sS w) h
    { y := 0, pSrc := pSrc, pDest := pDest, dest := dest } = cY at hYs hYd hx
  simp only [] at hYs hYd
  obtain ⟨c0, hc0⟩ : ∃ c0 : RowCursor,
      c0 = { y := 0, pSrc := cY.pSrc, pDest := cY.pDest, dest := cY.dest } := ⟨_, rfl⟩
  rw [← hc0] at hx
  have hc0y : c0.y = 0 := by rw [hc0]
  have hc0s : c0.pSrc = pSrc + (h : Int) * sS := by rw [hc0]; exact hYs
  have hc0d : c0.pDest = pDest + (h : Int) * dS := by rw [hc0]; exact hYd
  have key1 := forRows_abs hA hstride (rc.top / 2) (by omega) c0.pDest c0.pSrc c0
    (by rw [hc0y]; simp) (by rw [hc0y]; simp)
  rw [hc0y] at key1
  obtain ⟨y1, d1, s1, _, _⟩ := key1
  generalize forRows (rc.top / 2) (copyLine src dS sS w) (rc.top / 2 - 0) c0 = c1
    at y1 d1 s1 hx
  obtain ⟨y2, d2, s2, _, _⟩ := forRows_abs hB hstride (min rc.bottom h / 2) (by omega)
    c0.pDest c0.pSrc c1 d1 s1
  generalize forRows (min rc.bottom h / 2) (fillLine rc w src dS sS)
    (min rc.bottom h / 2 - c1.y) c1 = c2 at y2 d2 s2 hx
  simp only [List.mem_append] at hx
  rcases hx with ((hx | hx) | hx) | hx
  · obtain ⟨j, hj, hin⟩ := aA h _ _ x hx
    exact ⟨j, by omega, hin⟩
  · obtain ⟨j, hj, hin⟩ := aA (rc.top / 2) _ c0 x hx
    refine ⟨h + j, by omega, ?_⟩
    have e1 : pSrc + ((h + j : Nat) : Int) * sS = c0.pSrc + (j : Int) * sS := by
      rw [hc0s]; push_cast; ring
    have e2 : pDest + ((h + j : Nat) : Int) * dS = c0.pDest + (j : Int) * dS := by
      rw [hc0d]; push_cast; ring
    rw [e1, e2]
    exact hin
  · obtain ⟨j, hj, hin⟩ := aB (min rc.bottom h / 2) _ c1 x hx
    refine ⟨h + (c1.y + j), by omega, ?_⟩
    have e1 : pSrc + ((h + (c1.y + j) : Nat) : Int) * sS = c1.pSrc + (j : Int) * sS := by
      rw [s1, hc0s]; push_cast; ring
    have e2 : pDest + ((h + (c1.y + j) : Nat) : Int) * dS = c1.pDest + (j : Int) * dS := by
      rw [d1, hc0d]; push_cast; ring
    rw [e1, e2]
    exact hin
  · obtain ⟨j, hj, hin⟩ := aA (h / 2) _ c2 x hx
    refine ⟨h + (c2.y + j), by omega, ?_⟩
    have e1 : pSrc + ((h + (c2.y + j) : Nat) : Int) * sS = c2.pSrc + (j : Int) * sS := by
      rw [s2, hc0s]; push_cast; ring
    have e2 : pDest + ((h + (c2.y + j) : Nat) : Int) * dS = c2.pDest + (j : Int) * dS := by
      rw [d2, hc0d]; push_cast; ring
    rw [e1, e2]
    exact hin

/-- Every access of a call through `m_pTransformFn` stays inside the image bytes of one
row, when the rectangle lies inside the frame. -/
theorem TransformFn_accesses_inRow (fn : TransformFn) (rc : D2D_RECT_U) (dest : Mem)
    (pDest dS : Int) (src : Mem) (pSrc sS : Int) (w h : Nat)
    (hw : fn.rowBytes w < 4294967296) (hh : h < 4294967296)
    (hstride : (fn.rowBytes w : Int) ≤ |dS|)
    (hLR : rc.left ≤ rc.right) (hRw : rc.right ≤ w) (ht : rc.top ≤ h) :
    ∀ x ∈ fn.accesses rc dest pDest dS src pSrc sS w h,
      ∃ y : Nat, y < fn.rows h ∧
        x.inRow (pSrc + (y : Int) * sS) (pDest + (y : Int) * dS) (fn.rowBytes w) := by
  cases fn with
  | YUY2 =>
    exact TransformImage_packed_accesses_inRow _ _ rc dest pDest dS src pSrc sS w h hw hh hstride
      hLR hRw ht
  | UYVY =>
    exact TransformImage_packed_accesses_inRow _ _ rc dest pDest dS src pSrc sS w h hw hh hstride
      hLR hRw ht
  | NV12 =>
    exact TransformImage_NV12_accesses_inRow rc dest pDest dS src pSrc sS w h hw hh hstride
      hLR hRw ht

/-- A call through `m_pTransformFn` leaves every destination byte outside the image bytes
of the rows as it was. -/
theorem TransformFn_call_outside (fn : TransformFn) (rc : D2D_RECT_U) (dest : Mem)
    (pDest dS : Int) (src : Mem) (pSrc sS : Int) (w h : Nat)
    (hw : fn.rowBytes w < 4294967296) (hh : h < 4294967296)
    (hstride : (fn.rowBytes w : Int) ≤ |dS|)
    (hLR : rc.left ≤ rc.right) (hRw : rc.right ≤ w) (ht : rc.top ≤ h) (a : Int)
    (ha : ∀ y : Nat, y < fn.rows h →
      ¬ (pDest + (y : Int) * dS ≤ a ∧ a < pDest + (y : Int) * dS + (fn.rowBytes w : Int))) :
    fn.call rc dest pDest dS src pSrc sS w h a = dest a := by
  cases fn with
  | YUY2 =>
    exact (TransformImage_packed_spec _ _ rc dest pDest dS src pSrc sS w h hw hh hstride
      hLR hRw ht).2 a ha
  | UYVY =>
    exact (TransformImage_packed_spec _ _ rc dest pDest dS src pSrc sS w h hw hh hstride
      hLR hRw ht).2 a ha
  | NV12 =>
    exact (TransformImage_NV12_spec rc dest pDest dS src pSrc sS w h hw hh hstride
      hLR hRw ht).2.2 a ha

/-- C30: bounds of the three transforms.  The strides are at least a row long
(`2 * width` bytes in the packed formats, `width` in NV12), the buffers are the
`stride * rows` bytes from `pSrc` and from `pDest` (`rows` is `height` in the packed
formats and `height + height / 2` in NV12), and the rectangle has
`left ≤ right ≤ width` and `top ≤ bottom ≤ height`.  Then every byte of every read lies in
the source buffer; every byte of every write lies in the destination buffer, and within
the first row-size bytes of one of its rows, so never in the stride padding; no access is
longer than a row, and the `DWORD` differences `width - right` and `right - left` that
give the lengths are the exact differences (none is below zero); and every destination
byte outside the image bytes of the rows is after the call what it was before. -/
theorem transform_in_bounds (fn : TransformFn) (rc : D2D_RECT_U) (dest : Mem)
    (pDest dS : Int) (src : Mem) (pSrc sS : Int) (w h : Nat)
    (hdS : (fn.rowBytes w : Int) ≤ dS) (hsS : (fn.rowBytes w : Int) ≤ sS)
    (hdL : dS ≤ 2147483647) (hh : h < 4294967296)
    (hLR : rc.left ≤ rc.right) (hRw : rc.right ≤ w)
    (hTB : rc.top ≤ rc.bottom) (hBh : rc.bottom ≤ h) :
    (∀ x ∈ fn.accesses rc dest pDest dS src pSrc sS w h,
      x.cb ≤ fn.rowBytes w ∧
      ∀ a : Int, x.p ≤ a → a < x.p + (x.cb : Int) →
        (x.write = false → pSrc ≤ a ∧ a < pSrc + sS * (fn.rows h : Int)) ∧
        (x.write = true →
          (pDest ≤ a ∧ a < pDest + dS * (fn.rows h : Int)) ∧
          ∃ y : Nat, y < fn.rows h ∧ pDest + (y : Int) * dS ≤ a ∧
            a < pDest + (y : Int) * dS + (fn.rowBytes w : Int))) ∧
    ((rc.right &&& 0xFFFFFFFE) ≤ w ∧
      (w + 4294967296 - (rc.right &&& 0xFFFFFFFE)) % 4294967296
        = w - (rc.right &&& 0xFFFFFFFE) ∧
      (w + 4294967296 - rc.right) % 4294967296 = w - rc.right ∧
      (rc.right + 4294967296 - rc.left) % 4294967296 = rc.right - rc.left) ∧
    (∀ a : Int, (∀ y : Nat, y < fn.rows h →
        ¬ (pDest + (y : Int) * dS ≤ a ∧ a < pDest + (y : Int) * dS + (fn.rowBytes w : Int))) →
      fn.call rc dest pDest dS src pSrc sS w h a = dest a) := by
  have hrb : fn.rowBytes w < 4294967296 := by omega
  have hw : w < 4294967296 := by
    have : w ≤ fn.rowBytes w := by cases fn <;> simp only [TransformFn.rowBytes] <;> omega
    omega
  have habs : (fn.rowBytes w : Int) ≤ |dS| := le_trans hdS (le_abs_self dS)
  refine ⟨?_, ?_, ?_⟩
  · intro x hx
    obtain ⟨y, hy, hcb, hin⟩ := TransformFn_accesses_inRow fn rc dest pDest dS src pSrc sS w h
      hrb hh habs hLR hRw (by omega) x hx
    refine ⟨hcb, ?_⟩
    intro a h1 h2
    have := hin a h1 h2
    constructor
    · intro hwr
      rw [hwr] at this
      simp only [Bool.false_eq_true, if_false] at this
      exact row_in_buffer pSrc sS (fn.rowBytes w) y (fn.rows h) hsS hy a this.1 this.2
    · intro hwr
      rw [hwr] at this
      simp only [if_true] at this
      exact ⟨row_in_buffer pDest dS (fn.rowBytes w) y (fn.rows h) hdS hy a this.1 this.2,
        y, hy, this.1, this.2⟩
  · have eR : rc.right &&& 0xFFFFFFFE = rc.right - rc.right % 2 := land_even_mask _ (by omega)
    rw [eR]
    omega
  · intro a ha
    exact TransformFn_call_outside fn rc dest pDest dS src pSrc sS w h hrb hh habs hLR hRw
      (by omega) a ha

theorem transform_in_bounds_witness :
    (Access.mk true 1012 4).cb ≤ TransformFn.rowBytes .UYVY 4 ∧
    ((1000 : Int) ≤ 1015 ∧ (1015 : Int) < 1000 + 12 * (TransformFn.rows .UYVY 2 : Int)) ∧
    ∃ y : Nat, y < TransformFn.rows .UYVY 2 ∧ 1000 + (y : Int) * 12 ≤ 1015 ∧
      (1015 : Int) < 1000 + (y : Int) * 12 + (TransformFn.rowBytes .UYVY 4 : Int) :=
  ⟨((transform_in_bounds .UYVY ⟨2, 0, 4, 2⟩ (fun _ => 0) 1000 12 (fun _ => 7) 0 8 4 2
      (by decide) (by decide) (by decide) (by decide) (by decide) (by decide) (by decide)
      (by decide)).1 ⟨true, 1012, 4⟩ (by decide)).1,
   ((((transform_in_bounds .UYVY ⟨2, 0, 4, 2⟩ (fun _ => 0) 1000 12 (fun _ => 7) 0 8 4 2
      (by decide) (by decide) (by decide) (by decide) (by decide) (by decide) (by decide)
      (by decide)).1 ⟨true, 1012, 4⟩ (by decide)).2 1015 (by decide) (by decide)).2 rfl)⟩

/-! ## Division by zero in the overflow check -/

/-- When `GetImageSize` divides by zero, for the three supported formats: in the packed
formats exactly when the height is 0 and the first test (`width > MAXDWORD / 2`) does not
already reject; in NV12 exactly when the width is 0 and the first test
(`height/2 > MAXDWORD - height`) does not already reject.  In every other case the
result is a size or `E_INVALIDARG`. -/
theorem GetImageSize_divides_by_zero (fcc w h : Nat)
    (hfcc : fcc = FOURCC_YUY2 ∨ fcc = FOURCC_UYVY ∨ fcc = FOURCC_NV12) :
    (GetImageSize fcc w h = .error .divideByZero ↔
      ((fcc = FOURCC_YUY2 ∨ fcc = FOURCC_UYVY) ∧ w ≤ MAXDWORD / 2 ∧ h = 0) ∨
      (fcc = FOURCC_NV12 ∧ h / 2 ≤ MAXDWORD - h ∧ w = 0)) ∧
    (GetImageSize fcc w h = .error .divideByZero ∨
      GetImageSize fcc w h = .error (.hr .E_INVALIDARG) ∨
      ∃ cb, GetImageSize fcc w h = .ok cb) := by
  have d1 : FOURCC_YUY2 ≠ FOURCC_NV12 := by decide
  have d2 : FOURCC_UYVY ≠ FOURCC_NV12 := by decide
  by_cases hp : fcc = FOURCC_YUY2 ∨ fcc = FOURCC_UYVY
  · have hn : fcc ≠ FOURCC_NV12 := by
      rcases hp with hp | hp <;> rw [hp] <;> assumption
    unfold GetImageSize udiv
    rw [if_pos hp]
    by_cases h1 : w > MAXDWORD / 2
    · rw [if_pos h1]
      simp [hn]
      omega
    · rw [if_neg h1]
      by_cases h0 : h = 0
      · rw [if_pos h0]
        simp [hp, h0]
        omega
      · rw [if_neg h0]
        simp only []
        split_ifs <;> simp [hn, h0]
  · have hn : fcc = FOURCC_NV12 := by
      rcases hfcc with h1 | h1 | h1
      · exact absurd (Or.inl h1) hp
      · exact absurd (Or.inr h1) hp
      · exact h1
    unfold GetImageSize udiv
    rw [if_neg hp, if_pos hn]
    by_cases h1 : h / 2 > MAXDWORD - h
    · rw [if_pos h1]
      simp [hp]
      omega
    · rw [if_neg h1]
      by_cases h0 : w = 0
      · rw [if_pos h0]
        simp [hp, hn, h0]
        omega
      · rw [if_neg h0]
        simp only []
        split_ifs <;> simp [hp, h0]

/-- C31 fails on the code: for the packed formats with height 0 (width 4) and for NV12
with width 0 (height 4) the overflow check of `GetImageSize` divides `MAXDWORD` by zero,
and a committing `SetInputType` with a UYVY type of frame size 4 x 0 does not return. -/
theorem GetImageSize_zero_divisor :
    GetImageSize FOURCC_YUY2 4 0 = .error .divideByZero ∧
    GetImageSize FOURCC_UYVY 4 0 = .error .divideByZero ∧
    GetImageSize FOURCC_NV12 0 4 = .error .divideByZero ∧
    SetInputType CGrayscaleEffect.new 0
        (some ⟨some MFMediaType_Video, some MFVideoFormat_UYVY, some (4, 0), none, none⟩) 0
      = .crashed :=
  ⟨rfl, rfl, rfl, rfl⟩

/-! ## The destination rectangle after a failed type change -/

/-- C32 fails on the code.  A UYVY type of 4 x 2 is set as input and output type, the
begin-streaming message sets the rectangle to (0, 0, 4, 2), and a committing
`SetInputType` with a UYVY type of 2 x 4294967295 returns `E_INVALIDARG`: the state it
leaves is reachable, has the session initialized and the rectangle (0, 0, 4, 2), but
width 2 and height 4294967295.  `ProcessInput` accepts a frame in that state, and
`ProcessOutput` then returns `S_OK` after calling the UYVY transform with the rectangle
(0, 0, 4, 2) for a frame of width 2; a row of that call inside the rectangle stores a
`DWORD` at offset 4, past the 4 bytes of the row, and then copies 4294967292 bytes (the
`DWORD` value of `(2 - 4) * 2`). -/
theorem reachable_stale_rectangle :
    Reachable
      { CGrayscaleEffect.new with
        m_spInputType := some ⟨some MFMediaType_Video, some MFVideoFormat_UYVY,
          some (2, 4294967295), none, none⟩
        m_spOutputType := some ⟨some MFMediaType_Video, some MFVideoFormat_UYVY,
          some (4, 2), none, none⟩
        m_pTransformFn := some .UYVY
        m_imageWidthInPixels := 2
        m_imageHeightInPixels := 4294967295
        m_rcDest := ⟨0, 0, 4, 2⟩
        m_fStreamingInitialized := true } ∧
    SetInputType
        { CGrayscaleEffect.new with
          m_spInputType := some ⟨some MFMediaType_Video, some MFVideoFormat_UYVY,
            some (4, 2), none, none⟩
          m_spOutputType := some ⟨some MFMediaType_Video, some MFVideoFormat_UYVY,
            some (4, 2), none, none⟩
          m_pTransformFn := some .UYVY
          m_imageWidthInPixels := 4
          m_imageHeightInPixels := 2
          m_cbImageSize := 16
          m_rcDest := ⟨0, 0, 4, 2⟩
          m_fStreamingInitialized := true } 0
        (some ⟨some MFMediaType_Video, some MFVideoFormat_UYVY, some (2, 4294967295),
          none, none⟩) 0
      = .returned .E_INVALIDARG
          { CGrayscaleEffect.new with
            m_spInputType := some ⟨some MFMediaType_Video, some MFVideoFormat_UYVY,
              some (2, 4294967295), none, none⟩
            m_spOutputType := some ⟨some MFMediaType_Video, some MFVideoFormat_UYVY,
              some (4, 2), none, none⟩
            m_pTransformFn := some .UYVY
            m_imageWidthInPixels := 2
            m_imageHeightInPixels := 4294967295
            m_rcDest := ⟨0, 0, 4, 2⟩
            m_fStreamingInitialized := true } ∧
    ProcessInput
        { CGrayscaleEffect.new with
          m_spInputType := some ⟨some MFMediaType_Video, some MFVideoFormat_UYVY,
            some (2, 4294967295), none, none⟩
          m_spOutputType := some ⟨some MFMediaType_Video, some MFVideoFormat_UYVY,
            some (4, 2), none, none⟩
          m_pTransformFn := some .UYVY
          m_imageWidthInPixels := 2
          m_imageHeightInPixels := 4294967295
          m_rcDest := ⟨0, 0, 4, 2⟩
          m_fStreamingInitialized := true } 0
        (some ⟨some ⟨fun _ => 7, .S_OK, 0, none, 16, 16⟩, none, none⟩) 0
      = .returned .S_OK
          { CGrayscaleEffect.new with
            m_spSample := some ⟨some ⟨fun _ => 7, .S_OK, 0, none, 16, 16⟩, none, none⟩
            m_spInputType := some ⟨some MFMediaType_Video, some MFVideoFormat_UYVY,
              some (2, 4294967295), none, none⟩
            m_spOutputType := some ⟨some MFMediaType_Video, some MFVideoFormat_UYVY,
              some (4, 2), none, none⟩
            m_pTransformFn := some .UYVY
            m_imageWidthInPixels := 2
            m_imageHeightInPixels := 4294967295
            m_rcDest := ⟨0, 0, 4, 2⟩
            m_fStreamingInitialized := true } ∧
    ProcessOutput
        { CGrayscaleEffect.new with
          m_spSample := some ⟨some ⟨fun _ => 7, .S_OK, 0, none, 16, 16⟩, none, none⟩
          m_spInputType := some ⟨some MFMediaType_Video, some MFVideoFormat_UYVY,
            some (2, 4294967295), none, none⟩
          m_spOutputType := some ⟨some MFMediaType_Video, some MFVideoFormat_UYVY,
            some (4, 2), none, none⟩
          m_pTransformFn := some .UYVY
          m_imageWidthInPixels := 2
          m_imageHeightInPixels := 4294967295
          m_rcDest := ⟨0, 0, 4, 2⟩
          m_fStreamingInitialized := true }
        0 1 (some ⟨some ⟨some ⟨fun _ => 0, .S_OK, 0, none, 0, 16⟩, none, none⟩, 0⟩) (some 0)
      = some (ProcessOutputReturn.mk .S_OK
          { CGrayscaleEffect.new with
            m_spInputType := some ⟨some MFMediaType_Video, some MFVideoFormat_UYVY,
              some (2, 4294967295), none, some 4⟩
            m_spOutputType := some ⟨some MFMediaType_Video, some MFVideoFormat_UYVY,
              some (4, 2), none, none⟩
            m_pTransformFn := some .UYVY
            m_imageWidthInPixels := 2
            m_imageHeightInPixels := 4294967295
            m_rcDest := ⟨0, 0, 4, 2⟩
            m_fStreamingInitialized := true }
          (some ⟨some ⟨some
            ⟨TransformFn.call .UYVY ⟨0, 0, 4, 2⟩ (fun _ => 0) 0 4 (fun _ => 7) 0 4 2 4294967295,
              .S_OK, 0, none, 0, 16⟩, none, none⟩, 0⟩)
          (some 0)) ∧
    rectLine_accesses 0 4 2 ⟨0, 0, 0, fun _ => 0⟩
      = [⟨false, 0, 0⟩, ⟨true, 0, 0⟩, ⟨false, 0, 4⟩, ⟨true, 0, 4⟩, ⟨false, 4, 4⟩,
          ⟨true, 4, 4⟩, ⟨false, 8, 4294967292⟩, ⟨true, 8, 4294967292⟩] := by
  refine ⟨⟨[.SetInputType 0
          (some ⟨some MFMediaType_Video, some MFVideoFormat_UYVY, some (4, 2), none, none⟩) 0,
        .SetOutputType 0
          (some ⟨some MFMediaType_Video, some MFVideoFormat_UYVY, some (4, 2), none, none⟩) 0,
        .ProcessMessage MFT_MESSAGE_NOTIFY_BEGIN_STREAMING 0,
        .SetInputType 0
          (some ⟨some MFMediaType_Video, some MFVideoFormat_UYVY, some (2, 4294967295),
            none, none⟩) 0], rfl⟩, rfl, rfl, ?_, ?_⟩
  · have h := ProcessOutput_ok
      { CGrayscaleEffect.new with
        m_spSample := some ⟨some ⟨fun _ => 7, .S_OK, 0, none, 16, 16⟩, none, none⟩
        m_spInputType := some ⟨some MFMediaType_Video, some MFVideoFormat_UYVY,
          some (2, 4294967295), none, none⟩
        m_spOutputType := some ⟨some MFMediaType_Video, some MFVideoFormat_UYVY,
          some (4, 2), none, none⟩
        m_pTransformFn := some .UYVY
        m_imageWidthInPixels := 2
        m_imageHeightInPixels := 4294967295
        m_rcDest := ⟨0, 0, 4, 2⟩
        m_fStreamingInitialized := true }
      ⟨some MFMediaType_Video, some MFVideoFormat_UYVY, some (2, 4294967295), none, none⟩
      ⟨some MFMediaType_Video, some MFVideoFormat_UYVY, some (2, 4294967295), none, some 4⟩
      .UYVY ⟨some ⟨fun _ => 7, .S_OK, 0, none, 16, 16⟩, none, none⟩
      ⟨some ⟨fun _ => 0, .S_OK, 0, none, 0, 16⟩, none, none⟩
      ⟨fun _ => 7, .S_OK, 0, none, 16, 16⟩ ⟨fun _ => 0, .S_OK, 0, none, 0, 16⟩ 4 0 0
      rfl rfl rfl rfl rfl rfl rfl rfl (by decide)
    exact h
  · rfl

end Grayscale
